import Mathlib

/-!
Messenger server: frame codec, user store, session registry and dispatcher

A shallow embedding of the server side of the chat service
(`src/server/Project1`).  Byte buffers and `std::string` values are lists of
byte values (`Nat`, each below 256 for a value that really is a byte);
unsigned 32-bit quantities are `Nat` reduced modulo `2 ^ 32` wherever the
program stores them into a `uint32_t`.
-/

namespace Messenger

/-! ## net_message.h -/

/-- A `std::string` or `std::vector<uint8_t>`: the sequence of its bytes. -/
abbrev Str := List Nat

/-- The bytes of a string literal of the source. -/
def str (s : String) : Str := s.toList.map Char.toNat

/-- The struct `messageHeader<CustomMsgTypes>`: the kind (a `uint32_t` enum) and
the `size` field. -/
structure messageHeader where
  id : Nat
  size : Nat
deriving DecidableEq, Repr

/-- The struct `message<CustomMsgTypes>`: header, body bytes and read cursor. -/
structure message where
  header : messageHeader
  body : List Nat
  readPos : Nat
deriving DecidableEq, Repr

/-- The value of `sizeof(messageHeader<CustomMsgTypes>)`: two 32-bit fields. -/
def sizeofHeader : Nat := 8

/-- The method `message::size()`: header plus body length. -/
def message.size (msg : message) : Nat := sizeofHeader + msg.body.length

/-- The object representation of an integer held in `w` bytes, as `memcpy`
copies it on a little-endian host. -/
def leBytes : Nat → Nat → List Nat
  | 0, _ => []
  | w + 1, n => (n % 256) :: leBytes w (n / 256)

/-- The integer whose little-endian object representation is the given bytes. -/
def leValue : List Nat → Nat
  | [] => 0
  | b :: bs => b + 256 * leValue bs

/-- The `operator<<` of `message` for a `DataType` of `w` bytes: grow the body by
`w` bytes, copy the value there, refresh `header.size` (a `uint32_t`). -/
def message.append (w : Nat) (msg : message) (data : Nat) : message :=
  { header := { id := msg.header.id,
                size := (sizeofHeader + (msg.body ++ leBytes w data).length) % 2 ^ 32 },
    body := msg.body ++ leBytes w data,
    readPos := msg.readPos }

/-- The `operator>>` of `message` for a `DataType` of `w` bytes.  When the bytes
are there, the value is copied out and the cursor advances; otherwise a warning
is printed and both the message and the destination `data` are left as they
were.  The result is the message and the new content of the destination. -/
def message.extract (w : Nat) (msg : message) (data : Nat) : message × Nat :=
  if msg.readPos + w ≤ msg.body.length then
    ({ msg with readPos := msg.readPos + w }, leValue ((msg.body.drop msg.readPos).take w))
  else
    (msg, data)

/-- The method `message::reset_read_position()`. -/
def message.reset_read_position (msg : message) : message := { msg with readPos := 0 }

/-- The fixed-width types the server appends and extracts. -/
inductive DataType where
  | u8 | u32 | bool | char
deriving DecidableEq, Repr

/-- The value of `sizeof(DataType)`. -/
def DataType.sizeof : DataType → Nat
  | .u8 => 1
  | .u32 => 4
  | .bool => 1
  | .char => 1

/-- A value of one of the fixed-width types. -/
inductive Value where
  | u8 (n : Nat)
  | u32 (n : Nat)
  | bool (b : Bool)
  | char (c : Nat)
deriving DecidableEq, Repr

/-- The type of a value. -/
def Value.type : Value → DataType
  | .u8 _ => .u8
  | .u32 _ => .u32
  | .bool _ => .bool
  | .char _ => .char

/-- The number stored in the object representation of a value. -/
def Value.toNat : Value → Nat
  | .u8 n => n
  | .u32 n => n
  | .bool b => if b then 1 else 0
  | .char c => c

/-- A value is in the range of its type. -/
def Value.inRange : Value → Prop
  | .u8 n => n < 256
  | .u32 n => n < 2 ^ 32
  | .bool _ => True
  | .char c => c < 256

instance (v : Value) : Decidable v.inRange := by
  cases v <;> unfold Value.inRange <;> infer_instance

/-- The value of a type whose object representation holds the given number. -/
def DataType.fromRepr : DataType → Nat → Value
  | .u8, n => .u8 n
  | .u32, n => .u32 n
  | .bool, n => .bool (decide (n ≠ 0))
  | .char, n => .char n

/-- The statement `msg << v` for a typed value. -/
def message.appendValue (msg : message) (v : Value) : message :=
  msg.append v.type.sizeof v.toNat

/-- The statements `msg << v₁ << v₂ << ...` in order. -/
def message.appendAll (msg : message) (vs : List Value) : message :=
  vs.foldl message.appendValue msg

/-- The statements `msg >> x₁ >> x₂ >> ...` for zero-initialised destinations of
the given types, in order: the message afterwards and the destinations. -/
def message.extractAll : message → List DataType → message × List Value
  | msg, [] => (msg, [])
  | msg, t :: ts =>
    let r := msg.extract t.sizeof 0
    let rest := message.extractAll r.1 ts
    (rest.1, t.fromRepr r.2 :: rest.2)

/-- The bytes that a list of values adds to a body. -/
def encodeValues (vs : List Value) : List Nat :=
  (vs.map (fun v => leBytes v.type.sizeof v.toNat)).flatten

/-! ## user_manager.h -/

/-- The struct `User`. -/
structure User where
  id : Nat
  username : Str
  password_hash : Str
  email : Str
  registration_date : Str
  is_online : Bool
  client_id : Nat
deriving DecidableEq, Repr

/-- The default constructor `User()`: id 0, offline, client id 10000, empty strings. -/
def User.new : User :=
  { id := 0, username := [], password_hash := [], email := [], registration_date := [],
    is_online := false, client_id := 10000 }

/-- One element of the `users` array of users.json: the five fields that
`generateJsonString` writes. -/
structure UserRecord where
  id : Nat
  username : Str
  password_hash : Str
  email : Str
  registration_date : Str
deriving DecidableEq, Repr

/-- The document users.json: `last_user_id` and the `users` array. -/
structure UsersDocument where
  last_user_id : Nat
  users : List UserRecord
deriving DecidableEq, Repr

/-- The fields of a user that `generateJsonString` writes. -/
def User.toRecord (u : User) : UserRecord :=
  { id := u.id, username := u.username, password_hash := u.password_hash, email := u.email,
    registration_date := u.registration_date }

/-- The `User` that the loop of `loadUsers` builds from one array element: a
default-constructed user whose id is the stored number cast to `uint32_t` and
whose strings are the stored ones. -/
def UserRecord.toUser (r : UserRecord) : User :=
  { User.new with id := r.id % 2 ^ 32, username := r.username, password_hash := r.password_hash,
                  email := r.email, registration_date := r.registration_date }

/-- The class `UserManager`: the in-memory list and counter, and the database
file.  The file is held as the document it contains (`none` when the file is
missing or empty).  `writable` says whether a save succeeds: the file opens
for writing and the write goes through.  When a save fails,
`truncatedByFailedSave` says whether the file had been opened, and so
truncated, before the write failed (the exit on `file.fail()`), or could not
be opened at all (the exit on `!file.is_open()`).  A truncated file is held
as `none`; what a failed write may have left in it is not part of the model.
The text layout of the JSON is not part of the model: a file that exists holds
a document written by `saveUsers`, and reading it gives that document back. -/
structure UserManager where
  users : List User
  last_user_id : Nat
  database_file : Option UsersDocument
  writable : Bool
  truncatedByFailedSave : Bool := false
deriving DecidableEq, Repr

/-- The method `hashPassword`: the placeholder that returns the password itself. -/
def hashPassword (password : Str) : Str := password

/-- The method `saveUsers`: write the document built by `generateJsonString`.  It
returns false when the file cannot be opened for writing, which leaves the
file as it was, and when the write fails after `std::ofstream` has opened
the file, which has truncated it by then. -/
def UserManager.saveUsers (m : UserManager) : UserManager × Bool :=
  if m.writable then
    ({ m with
        database_file :=
          some { last_user_id := m.last_user_id, users := m.users.map User.toRecord } }, true)
  else if m.truncatedByFailedSave then
    ({ m with database_file := none }, false)
  else
    (m, false)

/-- The running maximum that `loadUsers` keeps while it reads the array:
`if (user.id > last_user_id) last_user_id = user.id`. -/
def raiseLastUserID (last : Nat) (u : User) : Nat :=
  if u.id > last then u.id else last

/-- The method `loadUsers`.  A missing or empty file sets `last_user_id` to 10000
and saves; otherwise the counter is read (cast to `uint32_t`), the list is
cleared and refilled from the array, and the counter is raised to the largest
id seen. -/
def UserManager.loadUsers (m : UserManager) : UserManager × Bool :=
  match m.database_file with
  | none => (({ m with last_user_id := 10000 } : UserManager).saveUsers.1, true)
  | some doc =>
    ({ m with users := doc.users.map UserRecord.toUser,
              last_user_id :=
                (doc.users.map UserRecord.toUser).foldl raiseLastUserID (doc.last_user_id % 2 ^ 32) },
     true)

/-- The constructor `UserManager(dbFile)`: an empty list, then `loadUsers`. -/
def UserManager.new (file : Option UsersDocument) (writable : Bool) : UserManager :=
  ({ users := [], last_user_id := 0, database_file := file, writable := writable }
    : UserManager).loadUsers.1

/-- The first user of a list with the given username (the scan loops of the
class all stop at the first match). -/
def findUser (users : List User) (username : Str) : Option User :=
  users.find? (fun u => decide (u.username = username))

/-- The method `registerUser`: refuse a username already in the list; otherwise
copy the user, increment `last_user_id` (a `uint32_t`), give the copy that id,
push it and save; the result is the result of the save. -/
def UserManager.registerUser (m : UserManager) (user : User) : UserManager × Bool :=
  match findUser m.users user.username with
  | some _ => (m, false)
  | none =>
    ({ m with last_user_id := (m.last_user_id + 1) % 2 ^ 32,
              users := m.users ++ [{ user with id := (m.last_user_id + 1) % 2 ^ 32 }] }
      : UserManager).saveUsers

/-- The method `authenticateUser`: reload, find the first user with the name,
compare its stored hash with the hash of the password. -/
def UserManager.authenticateUser (m : UserManager) (username password : Str) :
    UserManager × Bool :=
  match findUser m.loadUsers.1.users username with
  | some u => (m.loadUsers.1, decide (u.password_hash = hashPassword password))
  | none => (m.loadUsers.1, false)

/-- The method `doesUserExist`: reload, then scan. -/
def UserManager.doesUserExist (m : UserManager) (username : Str) : UserManager × Bool :=
  (m.loadUsers.1, (findUser m.loadUsers.1.users username).isSome)

/-- The method `getUserID`: reload, then scan; 0 when the name is not found. -/
def UserManager.getUserID (m : UserManager) (username : Str) : UserManager × Nat :=
  match findUser m.loadUsers.1.users username with
  | some u => (m.loadUsers.1, u.id)
  | none => (m.loadUsers.1, 0)

/-- The method `getUsernameByID`: scan the in-memory list; empty when not found. -/
def UserManager.getUsernameByID (m : UserManager) (userID : Nat) : Str :=
  match m.users.find? (fun u => decide (u.id = userID)) with
  | some u => u.username
  | none => []

/-- The update loop of `setUserOnlineStatus` and `assignUserID`: change the first
user with the given name. -/
def updateFirst (f : User → User) (username : Str) : List User → List User
  | [] => []
  | u :: us => if u.username = username then f u :: us else u :: updateFirst f username us

/-- The method `setUserOnlineStatus`. -/
def UserManager.setUserOnlineStatus (m : UserManager) (username : Str) (isOnline : Bool)
    (clientId : Nat) : UserManager :=
  { m with
      users :=
        updateFirst (fun u => { u with is_online := isOnline, client_id := clientId }) username
          m.users }

/-- The method `assignUserID`: increment the counter, give the first user with
the name that id and save; 0 when the name is not found (the counter stays
incremented). -/
def UserManager.assignUserID (m : UserManager) (username : Str) : UserManager × Nat :=
  match findUser m.users username with
  | some _ =>
    (({ m with last_user_id := (m.last_user_id + 1) % 2 ^ 32,
               users := updateFirst (fun u => { u with id := (m.last_user_id + 1) % 2 ^ 32 })
                 username m.users } : UserManager).saveUsers.1,
     (m.last_user_id + 1) % 2 ^ 32)
  | none => ({ m with last_user_id := (m.last_user_id + 1) % 2 ^ 32 }, 0)

/-! ## String operations of the standard library used by the server -/

/-- The constant `std::string::npos` (the largest `size_t`). -/
def npos : Nat := 2 ^ 64 - 1

/-- The text of `std::to_string(n)` for an unsigned number. -/
def to_string (n : Nat) : Str := str (toString n)

/-- The comparison `a < b` of two `std::string`: lexicographic on the bytes. -/
def strLt : Str → Str → Bool
  | [], [] => false
  | [], _ :: _ => true
  | _ :: _, [] => false
  | a :: as, b :: bs => if a < b then true else if b < a then false else strLt as bs

/-- Search of `needle` in a suffix whose first byte has index `i`: the lowest
index of a match, or `npos`. -/
def findFrom (needle : Str) : Str → Nat → Nat
  | [], i => if needle = [] then i else npos
  | c :: cs, i => if needle.isPrefixOf (c :: cs) then i else findFrom needle cs (i + 1)

/-- The call `s.find(needle, pos)`. -/
def strFind (s needle : Str) (pos : Nat) : Nat :=
  if pos ≤ s.length then findFrom needle (s.drop pos) pos else npos

/-- Search of the last match of `needle` that starts at an index at most
`limit`, in a suffix whose first byte has index `i`; `npos` when there is none. -/
def rfindUpTo (needle : Str) (limit : Nat) : Str → Nat → Nat
  | [], i => if needle = [] ∧ i ≤ limit then i else npos
  | c :: cs, i =>
    if rfindUpTo needle limit cs (i + 1) ≠ npos then rfindUpTo needle limit cs (i + 1)
    else if i ≤ limit ∧ needle.isPrefixOf (c :: cs) then i
    else npos

/-- The call `s.rfind(needle, pos)`; `pos` defaults to `npos`. -/
def strRfind (s needle : Str) (pos : Nat) : Nat := rfindUpTo needle pos s 0

/-- The call `s.insert(pos, t)` for `pos` within the string. -/
def strInsert (s : Str) (pos : Nat) (t : Str) : Str := s.take pos ++ t ++ s.drop pos

/-- The call `s.replace(pos, len, t)` for `pos` within the string. -/
def strReplace (s : Str) (pos len : Nat) (t : Str) : Str := s.take pos ++ t ++ s.drop (pos + len)

/-- The call `s.substr(pos, count)` for `pos` within the string. -/
def strSubstr (s : Str) (pos count : Nat) : Str := (s.drop pos).take count

/-- The loop `while ((pos = s.find(needle, pos)) != npos) { s.replace(pos, 1, repl); pos += 2; }`
run for at most `fuel` rounds: the string and the value of `pos` afterwards. -/
def escapeLoop (needle repl : Str) : Nat → Str → Nat → Str × Nat
  | 0, s, pos => (s, pos)
  | fuel + 1, s, pos =>
    if strFind s needle pos = npos then (s, npos)
    else escapeLoop needle repl fuel (strReplace s (strFind s needle pos) 1 repl)
      ((strFind s needle pos + 2) % 2 ^ 64)

/-- The three escaping loops of `saveChatMessage`, which share the variable `pos`:
double quotes, then newlines, then carriage returns.  Each loop replaces one
byte per round, so the length of the string bounds the rounds. -/
def escapeMessageText (messageText : Str) : Str :=
  let q := escapeLoop (str "\"") (str "\\\"") (messageText.length + 1) messageText 0
  let n := escapeLoop (str "\n") (str "\\n") (q.1.length + 1) q.1 q.2
  let r := escapeLoop (str "\r") (str "\\r") (n.1.length + 1) n.1 n.2
  r.1

/-! ## net_connection.h: validation -/

/-- The test `std::isdigit(c)` on an ASCII byte. -/
def isdigit (c : Nat) : Bool := decide (48 ≤ c ∧ c ≤ 57)

/-- The test `std::isalpha(c)` on an ASCII byte (the "C" locale). -/
def isalpha (c : Nat) : Bool := decide ((65 ≤ c ∧ c ≤ 90) ∨ (97 ≤ c ∧ c ≤ 122))

/-- The test `std::isalnum(c)` on an ASCII byte. -/
def isalnum (c : Nat) : Bool := isalpha c || isdigit c

/-- The function `std::tolower(c)` on an ASCII byte. -/
def tolower (c : Nat) : Nat := if 65 ≤ c ∧ c ≤ 90 then c + 32 else c

/-- The list `forbiddenNames` of `validateUsername`. -/
def forbiddenNames : List Str :=
  [str "admin", str "administrator", str "root", str "system", str "server"]

/-- The method `connection::validateUsername`: the result and the content of
`errorMsg` afterwards. -/
def validateUsername (username errorMsg : Str) : Bool × Str :=
  if username.length < 3 then
    (false, str "Username must contain at least 3 characters")
  else if username.length > 20 then
    (false, str "Username must not exceed 20 characters")
  else if username.any (fun c => !isalnum c && !decide (c = 95)) then
    (false, str "Username can only contain letters, numbers and underscore")
  else if isdigit (username.headD 0) then
    (false, str "Username must not start with a number")
  else if forbiddenNames.any
      (fun name => decide (name = username.map tolower) && !decide (name = str "admin")) then
    (false, str "This username is reserved by system")
  else
    (true, errorMsg)

/-- The method `connection::validatePassword`: the result and the content of
`errorMsg` afterwards. -/
def validatePassword (password errorMsg : Str) : Bool × Str :=
  if password.length < 6 then
    (false, str "Password must contain at least 6 characters")
  else if password.length > 64 then
    (false, str "Password must not exceed 64 characters")
  else if !password.any isdigit then
    (false, str "Password must contain at least one digit")
  else if !password.any isalpha then
    (false, str "Password must contain at least one letter")
  else
    (true, errorMsg)

/-! ## The container `std::map` -/

/-- The call `m.find(k)` on a `std::map`, `none` for `end()`. -/
def mapFind {K V : Type} [DecidableEq K] (m : List (K × V)) (k : K) : Option V :=
  (m.find? (fun p => decide (p.1 = k))).map Prod.snd

/-- The call `m.erase(k)` on a `std::map`. -/
def mapErase {K V : Type} [DecidableEq K] (m : List (K × V)) (k : K) : List (K × V) :=
  m.filter (fun p => !decide (p.1 = k))

/-- The assignment `m[k] = v` on a `std::map` kept in the order `lt` of its keys:
replace the value of an existing key, or insert before the first greater key. -/
def mapAssign {K V : Type} [DecidableEq K] (lt : K → K → Bool) :
    List (K × V) → K → V → List (K × V)
  | [], k, v => [(k, v)]
  | p :: ps, k, v =>
    if p.1 = k then (k, v) :: ps
    else if lt k p.1 then (k, v) :: p :: ps
    else p :: mapAssign lt ps k v

/-! ## Files of the chat log store -/

/-- What a handler takes from outside the program while it runs: the clock, the
JSON library, and the content of a `char` that was declared without a value. -/
structure Env where
  /-- The text `strftime` gives for the current local time, `%Y-%m-%d %H:%M:%S`. -/
  timeStr : Str
  /-- Milliseconds since the epoch, the `message_id` of a saved message. -/
  timestamp : Nat
  /-- The content of `char c;` when `msg >> c` did not write it. -/
  uninitChar : Nat
  /-- Whether the simdjson DOM parser accepts a text. -/
  jsonValid : Str → Bool
  /-- The method `extractMessagesOnly` (simdjson on-demand parsing and time
  formatting). -/
  extractMessagesOnly : Str → Str
  /-- The method `formatChatHistory` (simdjson DOM parsing). -/
  formatChatHistory : Str → Str

/-- The working directory of the server: the chat log files by name, and whether
opening a file for writing succeeds. -/
structure FileSystem where
  files : List (Str × Str)
  writable : Bool
deriving DecidableEq, Repr

/-- The content of a file, `none` when it cannot be opened for reading. -/
def FileSystem.read (fs : FileSystem) (name : Str) : Option Str :=
  mapFind fs.files name

/-- Replace the content of a file (the caller has opened it for writing). -/
def FileSystem.write (fs : FileSystem) (name content : Str) : FileSystem :=
  { fs with files := (name, content) :: mapErase fs.files name }

/-- The loop `while (std::getline(inFile, line)) content += line + "\n";` on a
file with the given content: every line, each followed by a newline. -/
def readLines (content : Str) : Str :=
  if content = [] then []
  else if content.getLast? = some 10 then content
  else content ++ [10]

/-- The variable `existingContent` of the two save methods: the lines of the file,
empty when the file cannot be opened. -/
def FileSystem.existingContent (fs : FileSystem) (name : Str) : Str :=
  match fs.read name with
  | none => []
  | some content => readLines content

/-! ## net_server_chat.cpp and global_chat.cpp -/

/-- The text `min + "_" + max` used for file names and conversation ids. -/
def sortedNames (user1 user2 : Str) : Str :=
  if strLt user1 user2 then user1 ++ str "_" ++ user2 else user2 ++ str "_" ++ user1

/-- The method `generateChatFileName`. -/
def generateChatFileName (user1 user2 : Str) : Str :=
  str "chat_" ++ sortedNames user1 user2 ++ str ".json"

/-- The method `loadChatHistory`. -/
def loadChatHistory (env : Env) (fs : FileSystem) (user1 user2 : Str) : Str :=
  match fs.read (generateChatFileName user1 user2) with
  | none => str "\x7b\"messages\": []\x7d"
  | some content =>
    if readLines content = [] then str "\x7b\"messages\": []\x7d"
    else env.extractMessagesOnly (readLines content)

/-- The text `newMessage` that `saveChatMessage` builds. -/
def chatMessageObject (env : Env) (conversationID senderUsername : Str) (senderUserID : Nat)
    (recipientUsername : Str) (recipientUserID : Nat) (escapedMessageText : Str) : Str :=
  str "    \x7b\n" ++
  str "      \"message_id\": " ++ to_string env.timestamp ++ str ",\n" ++
  str "      \"conversation_id\": \"" ++ conversationID ++ str "\",\n" ++
  str "      \"sender_username\": \"" ++ senderUsername ++ str "\",\n" ++
  str "      \"sender_user_id\": " ++ to_string senderUserID ++ str ",\n" ++
  str "      \"recipient_username\": \"" ++ recipientUsername ++ str "\",\n" ++
  str "      \"recipient_user_id\": " ++ to_string recipientUserID ++ str ",\n" ++
  str "      \"message_text\": \"" ++ escapedMessageText ++ str "\",\n" ++
  str "      \"timestamp\": \"" ++ env.timeStr ++ str "\",\n" ++
  str "      \"message_type\": \"direct_message\"\n" ++
  str "    \x7d"

/-- The document `saveChatMessage` writes for a new conversation file (and when
it recreates a corrupted one). -/
def newChatDocument (env : Env) (conversationID senderUsername recipientUsername newMessage : Str) :
    Str :=
  str "\x7b\n" ++
  str "  \"conversation_id\": \"" ++ conversationID ++ str "\",\n" ++
  str "  \"participants\": [\"" ++ senderUsername ++ str "\", \"" ++ recipientUsername ++
    str "\"],\n" ++
  str "  \"created_date\": \"" ++ env.timeStr ++ str "\",\n" ++
  str "  \"messages\": [\n" ++
  newMessage ++ str "\n" ++
  str "  ]\n" ++
  str "\x7d\n"

/-- The text `saveChatMessage` writes back for an existing file that parses as
JSON: the new message inserted before the last `  ]`, after a comma when the
messages section already holds an object. -/
def appendChatMessage (existingContent newMessage : Str) : Str :=
  if strRfind existingContent (str "  ]") npos ≠ npos then
    if strFind existingContent (str "\"messages\": [") 0 ≠ npos then
      if strFind
          (strSubstr existingContent (strFind existingContent (str "\"messages\": [") 0 + 13)
            ((strRfind existingContent (str "  ]") npos + 2 ^ 64
                - strFind existingContent (str "\"messages\": [") 0 + 2 ^ 64 - 13) % 2 ^ 64))
          (str "\x7b") 0 ≠ npos then
        strInsert existingContent (strRfind existingContent (str "  ]") npos)
          (str ",\n" ++ newMessage ++ str "\n")
      else
        strInsert existingContent (strRfind existingContent (str "  ]") npos)
          (newMessage ++ str "\n")
    else existingContent
  else existingContent

/-- The method `CustomServer::saveChatMessage`. -/
def saveChatMessage (env : Env) (fs : FileSystem) (senderUsername : Str) (senderUserID : Nat)
    (recipientUsername : Str) (recipientUserID : Nat) (messageText : Str) : FileSystem :=
  let chatFileName := generateChatFileName senderUsername recipientUsername
  let conversationID := sortedNames senderUsername recipientUsername
  let existingContent := fs.existingContent chatFileName
  let newMessage := chatMessageObject env conversationID senderUsername senderUserID
    recipientUsername recipientUserID (escapeMessageText messageText)
  if fs.writable then
    if existingContent = [] then
      fs.write chatFileName
        (newChatDocument env conversationID senderUsername recipientUsername newMessage)
    else if env.jsonValid existingContent then
      fs.write chatFileName (appendChatMessage existingContent newMessage)
    else
      fs.write chatFileName
        (newChatDocument env conversationID senderUsername recipientUsername newMessage)
  else fs

/-- The name of the file of the global chat. -/
def globalChatFile : Str := str "global_chat.json"

/-- The text `newMessage` that `saveGlobalMessage` builds (the text is not escaped). -/
def globalMessageObject (env : Env) (senderUsername : Str) (senderUserID : Nat)
    (messageText : Str) : Str :=
  str "    \x7b\n" ++
  str "      \"message_id\": " ++ to_string env.timestamp ++ str ",\n" ++
  str "      \"sender_username\": \"" ++ senderUsername ++ str "\",\n" ++
  str "      \"sender_user_id\": " ++ to_string senderUserID ++ str ",\n" ++
  str "      \"message_text\": \"" ++ messageText ++ str "\",\n" ++
  str "      \"timestamp\": \"" ++ env.timeStr ++ str "\",\n" ++
  str "      \"message_type\": \"global_message\"\n" ++
  str "    \x7d"

/-- The document `saveGlobalMessage` writes for a new or unusable file. -/
def newGlobalDocument (env : Env) (newMessage : Str) : Str :=
  str "\x7b\n" ++
  str "  \"chat_type\": \"global_chat\",\n" ++
  str "  \"created_date\": \"" ++ env.timeStr ++ str "\",\n" ++
  str "  \"messages\": [\n" ++ newMessage ++ str "\n  ]\n\x7d\n"

/-- The text `saveGlobalMessage` writes back for an existing file that mentions
`"messages"`. -/
def appendGlobalMessage (env : Env) (existingContent newMessage : Str) : Str :=
  if strRfind existingContent (str "  ]\n\x7d") npos ≠ npos then
    if strRfind existingContent (str "    \x7d") (strRfind existingContent (str "  ]\n\x7d") npos)
        ≠ npos then
      strInsert existingContent (strRfind existingContent (str "  ]\n\x7d") npos)
        (str ",\n" ++ newMessage ++ str "\n")
    else
      strInsert existingContent (strRfind existingContent (str "  ]\n\x7d") npos)
        (newMessage ++ str "\n")
  else newGlobalDocument env newMessage

/-- The method `GlobalChatManager::saveGlobalMessage`. -/
def saveGlobalMessage (env : Env) (fs : FileSystem) (senderUsername : Str) (senderUserID : Nat)
    (messageText : Str) : FileSystem :=
  let existingContent := fs.existingContent globalChatFile
  let newMessage := globalMessageObject env senderUsername senderUserID messageText
  if fs.writable then
    if (fs.read globalChatFile).isNone ∨ existingContent = [] ∨
        strFind existingContent (str "\"messages\"") 0 = npos then
      fs.write globalChatFile (newGlobalDocument env newMessage)
    else
      fs.write globalChatFile (appendGlobalMessage env existingContent newMessage)
  else fs

/-- The method `GlobalChatManager::loadGlobalChatHistory`. -/
def loadGlobalChatHistory (fs : FileSystem) : Str :=
  match fs.read globalChatFile with
  | none => str "[]"
  | some content => if readLines content = [] then str "[]" else readLines content

/-! ## net_server.h: message kinds, connections, and the maps of the registry -/

namespace CustomMsgTypes

/-- Kind 0. -/
abbrev ServerAccept : Nat := 0
/-- Kind 1. -/
abbrev ServerDeny : Nat := 1
/-- Kind 2. -/
abbrev ServerPing : Nat := 2
/-- Kind 3. -/
abbrev MessageAll : Nat := 3
/-- Kind 4. -/
abbrev ServerMessage : Nat := 4
/-- Kind 5. -/
abbrev KeyPress : Nat := 5
/-- Kind 6. -/
abbrev DirectMessage : Nat := 6
/-- Kind 7. -/
abbrev RequestClientList : Nat := 7
/-- Kind 8. -/
abbrev RegisterRequest : Nat := 8
/-- Kind 9. -/
abbrev RegisterResponse : Nat := 9
/-- Kind 10. -/
abbrev LoginRequest : Nat := 10
/-- Kind 11. -/
abbrev LoginResponse : Nat := 11
/-- Kind 12. -/
abbrev ChatRequest : Nat := 12
/-- Kind 13. -/
abbrev ChatResponse : Nat := 13
/-- Kind 14. -/
abbrev ClientInfoRequest : Nat := 14
/-- Kind 15. -/
abbrev ClientInfoResponse : Nat := 15
/-- Kind 16. -/
abbrev ChatHistoryRequest : Nat := 16
/-- Kind 17. -/
abbrev ChatHistoryResponse : Nat := 17
/-- Kind 18. -/
abbrev GlobalMessage : Nat := 18
/-- Kind 19. -/
abbrev GlobalChatHistoryRequest : Nat := 19
/-- Kind 20. -/
abbrev GlobalChatHistoryResponse : Nat := 20

end CustomMsgTypes

/-- A `connection` as the server sees it: the result of `getID()` and of
`isConnected()`. -/
structure connection where
  id : Nat
  isConnected : Bool
deriving DecidableEq, Repr

/-- The order of the keys of `authenticatedUsers`. -/
def natLt (a b : Nat) : Bool := decide (a < b)

/-- The method `getClientByID`: the first connection of the deque with the id. -/
def getClientByID (conns : List connection) (id : Nat) : Option connection :=
  conns.find? (fun c => decide (c.id = id))

/-! ## server.cpp: the server and its handlers -/

/-- A fresh `message<CustomMsgTypes>` whose `header.id` has been set. -/
def newMsg (id : Nat) : message :=
  { header := { id := id, size := 0 }, body := [], readPos := 0 }

/-- The loop `for (const char& c : text) msg << c;`. -/
def appendChars (msg : message) (text : Str) : message :=
  text.foldl (fun m c => m.append 1 c) msg

/-- The statements `msg << static_cast<uint32_t>(text.size());` and then the loop
that appends the characters. -/
def packString (msg : message) (text : Str) : message :=
  appendChars (msg.append 4 (text.length % 2 ^ 32)) text

/-- The loop `for (i = 0; i < n; i++) { char c; msg >> c; text.push_back(c); }`:
the message and the text afterwards.  A `c` that `msg >> c` does not write
holds `uninit`. -/
def readChars (uninit : Nat) : Nat → message → Str → message × Str
  | 0, msg, text => (msg, text)
  | n + 1, msg, text =>
    readChars uninit n (msg.extract 1 uninit).1 (text ++ [(msg.extract 1 uninit).2])

/-- The class `CustomServer` with the part of its base classes that the handlers
use: the user manager, the two maps of the registry, the deque of
connections, the files of the chat logs, every message handed to
`connection::send` so far (with the id of the connection), and the ids for
which a detached thread is waiting to call `removeClient`. -/
structure CustomServer where
  userManager : UserManager
  authenticatedUsers : List (Nat × Str)
  userToClientMap : List (Str × Nat)
  m_deqConnections : List connection
  chatFiles : FileSystem
  sent : List (Nat × message)
  closing : List Nat
deriving DecidableEq, Repr

/-- The call `client->send(msg)`. -/
def CustomServer.send (s : CustomServer) (client : connection) (msg : message) : CustomServer :=
  { s with sent := s.sent ++ [(client.id, msg)] }

/-- The message that `SendMessageToClient` builds. -/
def serverMessage (text : Str) : message := packString (newMsg CustomMsgTypes.ServerMessage) text

/-- The method `SendMessageToClient`: nothing for a null or closed connection. -/
def CustomServer.SendMessageToClient (s : CustomServer) (client : Option connection)
    (text : Str) : CustomServer :=
  match client with
  | some c => if c.isConnected then s.send c (serverMessage text) else s
  | none => s

/-- The method `BroadcastMessage`: it builds a `MessageAll` message and sends it
to nobody (the call of `messageAllClients` is commented out). -/
def CustomServer.BroadcastMessage (s : CustomServer) (_text : Str)
    (_excludeClient : Option connection) : CustomServer := s

/-- The method `onClientConnect`: an empty `ServerAccept`, then the invitation. -/
def CustomServer.onClientConnect (s : CustomServer) (client : connection) : CustomServer × Bool :=
  (((s.send client (newMsg CustomMsgTypes.ServerAccept)).SendMessageToClient (some client)
      (str "Please register or log in to get access to server features")), true)

/-- The method `onClientDisconnect`. -/
def CustomServer.onClientDisconnect (s : CustomServer) (client : connection) : CustomServer :=
  match mapFind s.authenticatedUsers client.id with
  | some username =>
    ({ s with
        userManager := s.userManager.setUserOnlineStatus username false 0,
        userToClientMap := mapErase s.userToClientMap username,
        authenticatedUsers := mapErase s.authenticatedUsers client.id }
      : CustomServer).BroadcastMessage (str "User " ++ username ++ str " disconnected") none
  | none => s

/-- The method `server_interface::removeClient` for a non-null connection: the
disconnect handler, then the connection and every closed connection leave the
deque. -/
def CustomServer.removeClient (s : CustomServer) (client : connection) : CustomServer :=
  { s.onClientDisconnect client with
      m_deqConnections :=
        (s.onClientDisconnect client).m_deqConnections.filter
          (fun conn => !decide (conn.id = client.id) && conn.isConnected) }

/-- The body of the detached thread that a takeover starts, once its 100 ms have
passed. -/
def CustomServer.delayedRemove (s : CustomServer) (existingClientID : Nat) : CustomServer :=
  match getClientByID s.m_deqConnections existingClientID with
  | some client => s.removeClient client
  | none => s

/-- The loop over `authenticatedUsers` that looks for the session whose user has
the given id: `getUserID` is called for each entry until one matches. -/
def findRecipient (recipientUserID : Nat) :
    UserManager → List (Nat × Str) → UserManager × Option (Nat × Str)
  | um, [] => (um, none)
  | um, (clientID, username) :: rest =>
    if (um.getUserID username).2 = recipientUserID then
      ((um.getUserID username).1, some (clientID, username))
    else findRecipient recipientUserID (um.getUserID username).1 rest

/-- The test `recipient != nullptr && recipient->isConnected()` for the session
found by the loop, with `recipient = getClientByID(clientID)`. -/
def connectedRecipient (conns : List connection) (found : Option (Nat × Str)) :
    Option (connection × Str) :=
  match found with
  | none => none
  | some (clientID, username) =>
    match getClientByID conns clientID with
    | none => none
    | some recipient => if recipient.isConnected then some (recipient, username) else none

/-- The loop of the `GlobalMessage` handler that sends to every session of
`authenticatedUsers` except the sender. -/
def CustomServer.sendToOthers (s : CustomServer) (client : connection) (globalMsg : message) :
    List (Nat × Str) → CustomServer
  | [] => s
  | (clientID, _) :: rest =>
    if clientID ≠ client.id then
      match getClientByID s.m_deqConnections clientID with
      | some recipient =>
        if recipient.isConnected then
          CustomServer.sendToOthers (s.send recipient globalMsg) client globalMsg rest
        else CustomServer.sendToOthers s client globalMsg rest
      | none => CustomServer.sendToOthers s client globalMsg rest
    else CustomServer.sendToOthers s client globalMsg rest

/-- The case `GlobalMessage` of `onMessage`. -/
def CustomServer.onGlobalMessage (env : Env) (s : CustomServer) (client : connection)
    (msg : message) : CustomServer :=
  match mapFind s.authenticatedUsers client.id with
  | none =>
    s.SendMessageToClient (some client)
      (str "Error: You must be logged in to send global messages")
  | some senderUsername =>
    let senderUserID := (s.userManager.getUserID senderUsername).2
    let s1 : CustomServer := { s with userManager := (s.userManager.getUserID senderUsername).1 }
    let messageSize := (msg.extract 4 0).2
    if messageSize > 10000 then s1
    else
      let messageText := (readChars env.uninitChar messageSize (msg.extract 4 0).1 []).2
      let s2 : CustomServer :=
        { s1 with
            chatFiles := saveGlobalMessage env s1.chatFiles senderUsername senderUserID messageText }
      let globalMsg :=
        packString ((newMsg CustomMsgTypes.GlobalMessage).append 4 senderUserID) messageText
      (s2.sendToOthers client globalMsg s2.authenticatedUsers).SendMessageToClient (some client)
        (str "Your global message has been sent to all users")

/-- The case `GlobalChatHistoryRequest` of `onMessage`. -/
def CustomServer.onGlobalChatHistoryRequest (env : Env) (s : CustomServer) (client : connection)
    (_msg : message) : CustomServer :=
  match mapFind s.authenticatedUsers client.id with
  | none =>
    s.SendMessageToClient (some client)
      (str "Error: You must be logged in to request global chat history")
  | some _ =>
    s.send client
      (packString (newMsg CustomMsgTypes.GlobalChatHistoryResponse)
        (env.formatChatHistory (loadGlobalChatHistory s.chatFiles)))

/-- The case `ChatRequest` of `onMessage`. -/
def CustomServer.onChatRequest (_env : Env) (s : CustomServer) (client : connection)
    (msg : message) : CustomServer :=
  match mapFind s.authenticatedUsers client.id with
  | none =>
    s.SendMessageToClient (some client)
      (str "Error: You must be logged in to send chat requests")
  | some senderUsername =>
    let recipientUserID := (msg.extract 4 0).2
    let found := findRecipient recipientUserID s.userManager s.authenticatedUsers
    let s1 : CustomServer := { s with userManager := found.1 }
    match connectedRecipient s1.m_deqConnections found.2 with
    | some (recipient, recipientUsername) =>
      let senderUserID := (s1.userManager.getUserID senderUsername).2
      let s2 : CustomServer :=
        { s1 with userManager := (s1.userManager.getUserID senderUsername).1 }
      ((s2.send recipient ((newMsg CustomMsgTypes.ChatRequest).append 4 senderUserID))
        ).SendMessageToClient (some client) (str "Chat request sent to " ++ recipientUsername)
    | none =>
      s1.SendMessageToClient (some client)
        (str "Error: User with ID #" ++ to_string recipientUserID ++ str " not found or offline")

/-- The case `ChatResponse` of `onMessage`.  The byte read into `accepted` is kept
as it is, tested against zero, and written back unchanged. -/
def CustomServer.onChatResponse (env : Env) (s : CustomServer) (client : connection)
    (msg : message) : CustomServer :=
  match mapFind s.authenticatedUsers client.id with
  | none =>
    s.SendMessageToClient (some client)
      (str "Error: You must be logged in to respond to chat requests")
  | some senderUsername =>
    let recipientUserID := (msg.extract 4 0).2
    let accepted := ((msg.extract 4 0).1.extract 1 0).2
    let found := findRecipient recipientUserID s.userManager s.authenticatedUsers
    let s1 : CustomServer := { s with userManager := found.1 }
    match connectedRecipient s1.m_deqConnections found.2 with
    | some (recipient, recipientUsername) =>
      let senderUserID := (s1.userManager.getUserID senderUsername).2
      let s2 : CustomServer :=
        { s1 with userManager := (s1.userManager.getUserID senderUsername).1 }
      let s3 := s2.send recipient
        (((newMsg CustomMsgTypes.ChatResponse).append 4 senderUserID).append 1 accepted)
      if accepted ≠ 0 then
        let rawChatHistory := loadChatHistory env s3.chatFiles senderUsername recipientUsername
        let history :=
          if rawChatHistory ≠ [] then env.formatChatHistory rawChatHistory
          else str "\n=== CHAT HISTORY ===\nNo previous messages found.\n=== END OF HISTORY ===\n"
        (((s3.send client
            (packString ((newMsg CustomMsgTypes.ChatHistoryResponse).append 4 recipientUserID)
              history)).send recipient
            (packString ((newMsg CustomMsgTypes.ChatHistoryResponse).append 4 senderUserID)
              history))).SendMessageToClient (some client)
          (str "You accepted chat request from " ++ recipientUsername)
      else
        s3.SendMessageToClient (some client)
          (str "You declined chat request from " ++ recipientUsername)
    | none =>
      s1.SendMessageToClient (some client)
        (str "Error: User with ID #" ++ to_string recipientUserID ++ str " not found or offline")

/-- The case `ChatHistoryRequest` of `onMessage`. -/
def CustomServer.onChatHistoryRequest (env : Env) (s : CustomServer) (client : connection)
    (msg : message) : CustomServer :=
  match mapFind s.authenticatedUsers client.id with
  | none =>
    s.SendMessageToClient (some client)
      (str "Error: You must be logged in to request chat history")
  | some requesterUsername =>
    let otherUserID := (msg.extract 4 0).2
    let otherUsername := s.userManager.getUsernameByID otherUserID
    if otherUsername = [] then
      s.SendMessageToClient (some client)
        (str "Error: User with ID #" ++ to_string otherUserID ++ str " not found")
    else
      s.send client
        (packString ((newMsg CustomMsgTypes.ChatHistoryResponse).append 4 otherUserID)
          (env.formatChatHistory (loadChatHistory env s.chatFiles requesterUsername otherUsername)))

/-- The case `DirectMessage` of `onMessage`. -/
def CustomServer.onDirectMessage (env : Env) (s : CustomServer) (client : connection)
    (msg : message) : CustomServer :=
  match mapFind s.authenticatedUsers client.id with
  | none =>
    s.SendMessageToClient (some client)
      (str "Error: You must be logged in to send private messages")
  | some senderUsername =>
    let senderUserID := (s.userManager.getUserID senderUsername).2
    let recipientUserID := (msg.extract 4 0).2
    let messageSize := ((msg.extract 4 0).1.extract 4 0).2
    if messageSize > 10000 then
      { s with userManager := (s.userManager.getUserID senderUsername).1 }
    else
      let messageText :=
        (readChars env.uninitChar messageSize ((msg.extract 4 0).1.extract 4 0).1 []).2
      let found := findRecipient recipientUserID (s.userManager.getUserID senderUsername).1
        s.authenticatedUsers
      let s1 : CustomServer := { s with userManager := found.1 }
      match connectedRecipient s1.m_deqConnections found.2 with
      | some (recipient, recipientUsername) =>
        let s2 : CustomServer :=
          { s1 with
              chatFiles := saveChatMessage env s1.chatFiles senderUsername senderUserID
                recipientUsername recipientUserID messageText }
        ((s2.send recipient
            (packString ((newMsg CustomMsgTypes.DirectMessage).append 4 senderUserID)
              messageText))).SendMessageToClient (some client)
          (str "Your message has been delivered to " ++ recipientUsername)
      | none =>
        s1.SendMessageToClient (some client)
          (str "Error: User with ID #" ++ to_string recipientUserID ++ str " not found or offline")

/-- The text that the `RequestClientList` case builds: one entry per connected
connection of the deque, the trailing comma removed. -/
def clientListText (s : CustomServer) : Str :=
  let clientList := s.m_deqConnections.foldl
    (fun acc conn =>
      if conn.isConnected then
        acc ++ (str " #" ++ to_string conn.id ++
          (match mapFind s.authenticatedUsers conn.id with
           | some name => str " (" ++ name ++ str ")"
           | none => [])) ++ str ","
      else acc)
    (str "Connected clients:")
  if clientList.getLast? = some 44 then clientList.dropLast else clientList

/-- The case `RequestClientList` of `onMessage`. -/
def CustomServer.onRequestClientList (s : CustomServer) (client : connection) : CustomServer :=
  s.SendMessageToClient (some client) (clientListText s)

/-- The response of the `RegisterRequest` and `LoginRequest` cases: the success
flag as one byte, then the text. -/
def responseMessage (kind : Nat) (success : Bool) (text : Str) : message :=
  packString ((newMsg kind).append 1 (if success then 1 else 0)) text

/-- The text sent to a session that is displaced by a new login. -/
def displacedText : Str :=
  str "You have been disconnected because your account was opened from another device"

/-- The part of the `RegisterRequest` case that runs when the user exists, the
password is right and the username is already attached to `existingClientID`:
respond, fetch (or assign) the user id, install the new session, send the id,
then notify the old connection, erase its entry of `authenticatedUsers` and
start the thread that removes it. -/
def CustomServer.registerTakeover (s : CustomServer) (client : connection) (username : Str)
    (existingClientID : Nat) : CustomServer :=
  let s1 := s.send client
    (responseMessage CustomMsgTypes.RegisterResponse true
      (str "User " ++ username ++ str " is already authorized from another client (#" ++
        to_string existingClientID ++ str "). Previous session will be terminated."))
  let got := s1.userManager.getUserID username
  let assigned := if got.2 = 0 then got.1.assignUserID username else got
  let s2 : CustomServer :=
    { s1 with
        userManager := assigned.1,
        authenticatedUsers := mapAssign natLt s1.authenticatedUsers client.id username,
        userToClientMap := mapAssign strLt s1.userToClientMap username client.id }
  let s3 := s2.send client ((newMsg CustomMsgTypes.ServerAccept).append 4 assigned.2)
  match getClientByID s3.m_deqConnections existingClientID with
  | some oldClient =>
    if oldClient.isConnected then
      { s3.SendMessageToClient (some oldClient) displacedText with
          authenticatedUsers := mapErase s3.authenticatedUsers existingClientID,
          closing := s3.closing ++ [existingClientID] }
    else s3
  | none => s3

/-- The `RegisterRequest` case of `onMessage` after the three strings have been
read. -/
def CustomServer.registerOrLogin (env : Env) (s : CustomServer) (client : connection)
    (username password email : Str) : CustomServer :=
  let userExists := (s.userManager.doesUserExist username).2
  let s0 : CustomServer := { s with userManager := (s.userManager.doesUserExist username).1 }
  if userExists then
    let success := (s0.userManager.authenticateUser username password).2
    let s1 : CustomServer :=
      { s0 with userManager := (s0.userManager.authenticateUser username password).1 }
    if success then
      match mapFind s.userToClientMap username with
      | some existingClientID => s1.registerTakeover client username existingClientID
      | none =>
        s1.send client
          (responseMessage CustomMsgTypes.RegisterResponse true
            (str "User already exists. Automatic login performed. Welcome, " ++ username ++
              str "!"))
    else
      s1.send client
        (responseMessage CustomMsgTypes.RegisterResponse false
          (str "User already exists, but password is incorrect. Please try again."))
  else
    let newUser : User :=
      { User.new with
          username := username, password_hash := hashPassword password, email := email,
          registration_date := env.timeStr }
    let success := (s0.userManager.registerUser newUser).2
    let s1 : CustomServer := { s0 with userManager := (s0.userManager.registerUser newUser).1 }
    s1.send client
      (responseMessage CustomMsgTypes.RegisterResponse success
        (if success then str "Registration successful. Welcome, " ++ username ++ str "!"
         else str "Registration failed. Please try again."))

/-- The case `RegisterRequest` of `onMessage`: each of the three strings is read
as a 32-bit size and at most 100 characters. -/
def CustomServer.onRegisterRequest (env : Env) (s : CustomServer) (client : connection)
    (msg : message) : CustomServer :=
  let usernameSize := msg.extract 4 0
  let username := readChars env.uninitChar (min usernameSize.2 100) usernameSize.1 []
  let passwordSize := username.1.extract 4 0
  let password := readChars env.uninitChar (min passwordSize.2 100) passwordSize.1 []
  let emailSize := password.1.extract 4 0
  let email := readChars env.uninitChar (min emailSize.2 100) emailSize.1 []
  s.registerOrLogin env client username.2 password.2 email.2

/-- The part of the `LoginRequest` case that runs when the password is right and
the username is already attached to `existingClientID`: when that connection
is still there and connected it is notified, its entries leave both maps and
the thread that removes it is started. -/
def CustomServer.loginTakeover (s : CustomServer) (username : Str) (existingClientID : Nat) :
    CustomServer :=
  match getClientByID s.m_deqConnections existingClientID with
  | some oldClient =>
    if oldClient.isConnected then
      { s.SendMessageToClient (some oldClient) displacedText with
          authenticatedUsers := mapErase s.authenticatedUsers existingClientID,
          userToClientMap := mapErase s.userToClientMap username,
          closing := s.closing ++ [existingClientID] }
    else s
  | none => s

/-- The end of the `LoginRequest` case after a successful login: install the
session in both maps, send `ServerAccept` with the user id, mark the user
online, and call `BroadcastMessage`. -/
def CustomServer.loginAccept (s : CustomServer) (client : connection) (username : Str) :
    CustomServer :=
  let s1 : CustomServer :=
    { s with
        authenticatedUsers := mapAssign natLt s.authenticatedUsers client.id username,
        userToClientMap := mapAssign strLt s.userToClientMap username client.id }
  let userID := (s1.userManager.getUserID username).2
  let s2 := ({ s1 with userManager := (s1.userManager.getUserID username).1 } : CustomServer).send
    client ((newMsg CustomMsgTypes.ServerAccept).append 4 userID)
  ({ s2 with userManager := s2.userManager.setUserOnlineStatus username true userID }
    : CustomServer).BroadcastMessage (str "User " ++ username ++ str " has logged in")
    (some client)

/-- The `LoginRequest` case of `onMessage` after the two strings have been read. -/
def CustomServer.login (s : CustomServer) (client : connection) (username password : Str) :
    CustomServer :=
  let success := (s.userManager.authenticateUser username password).2
  let s0 : CustomServer :=
    { s with userManager := (s.userManager.authenticateUser username password).1 }
  if success then
    match mapFind s.userToClientMap username with
    | some existingClientID =>
      ((s0.loginTakeover username existingClientID).send client
        (responseMessage CustomMsgTypes.LoginResponse true
          (str "User " ++ username ++ str " already logged in from another client (#" ++
            to_string existingClientID ++ str "). Previous session will be terminated."))
        ).loginAccept client username
    | none =>
      (s0.send client
        (responseMessage CustomMsgTypes.LoginResponse true
          (str "Login successful. Welcome back, " ++ username ++ str "!"))).loginAccept client
        username
  else
    s0.send client
      (responseMessage CustomMsgTypes.LoginResponse false
        (str "Login failed. Invalid username or password."))

/-- The case `LoginRequest` of `onMessage`: each of the two strings is read as a
32-bit size and that many characters. -/
def CustomServer.onLoginRequest (env : Env) (s : CustomServer) (client : connection)
    (msg : message) : CustomServer :=
  let usernameSize := msg.extract 4 0
  let username := readChars env.uninitChar usernameSize.2 usernameSize.1 []
  let passwordSize := username.1.extract 4 0
  let password := readChars env.uninitChar passwordSize.2 passwordSize.1 []
  s.login client username.2 password.2

/-- The method `CustomServer::onMessage`: reset the read cursor, then switch on
the kind; a kind without a case only logs a line. -/
def CustomServer.onMessage (env : Env) (s : CustomServer) (client : connection) (msg : message) :
    CustomServer :=
  if msg.header.id = CustomMsgTypes.GlobalMessage then
    s.onGlobalMessage env client msg.reset_read_position
  else if msg.header.id = CustomMsgTypes.GlobalChatHistoryRequest then
    s.onGlobalChatHistoryRequest env client msg.reset_read_position
  else if msg.header.id = CustomMsgTypes.ChatRequest then
    s.onChatRequest env client msg.reset_read_position
  else if msg.header.id = CustomMsgTypes.ChatResponse then
    s.onChatResponse env client msg.reset_read_position
  else if msg.header.id = CustomMsgTypes.ChatHistoryRequest then
    s.onChatHistoryRequest env client msg.reset_read_position
  else if msg.header.id = CustomMsgTypes.DirectMessage then
    s.onDirectMessage env client msg.reset_read_position
  else if msg.header.id = CustomMsgTypes.RequestClientList then
    s.onRequestClientList client
  else if msg.header.id = CustomMsgTypes.RegisterRequest then
    s.onRegisterRequest env client msg.reset_read_position
  else if msg.header.id = CustomMsgTypes.LoginRequest then
    s.onLoginRequest env client msg.reset_read_position
  else s

/-- The server right after construction on a given user database, before any
connection: empty maps, no connection, nothing sent. -/
def CustomServer.new (file : Option UsersDocument) (writable : Bool) (chatFiles : FileSystem) :
    CustomServer :=
  { userManager := UserManager.new file writable, authenticatedUsers := [], userToClientMap := [],
    m_deqConnections := [], chatFiles := chatFiles, sent := [], closing := [] }

/-- The accept handler of `waitForClientConnection` for a new transport: when
`onClientConnect` approves, the connection joins the deque and gets the next
id of `nIDCounter` (supplied by the caller).  The messages `onClientConnect`
sends just before the id is assigned are recorded under that id. -/
def CustomServer.accept (s : CustomServer) (id : Nat) : CustomServer :=
  if (s.onClientConnect { id := id, isConnected := true }).2 then
    { (s.onClientConnect { id := id, isConnected := true }).1 with
        m_deqConnections := s.m_deqConnections ++ [{ id := id, isConnected := true }] }
  else s

/-! ## Vocabulary of the statements -/

/-- The six kinds whose case starts with the check that the sender is logged in. -/
def requiresLogin (kind : Nat) : Bool :=
  decide (kind = CustomMsgTypes.GlobalMessage ∨ kind = CustomMsgTypes.GlobalChatHistoryRequest ∨
    kind = CustomMsgTypes.ChatRequest ∨ kind = CustomMsgTypes.ChatResponse ∨
    kind = CustomMsgTypes.ChatHistoryRequest ∨ kind = CustomMsgTypes.DirectMessage)

/-- The error text that the case of a kind sends to a sender that is not logged in. -/
def loginErrorText (kind : Nat) : Str :=
  if kind = CustomMsgTypes.GlobalMessage then
    str "Error: You must be logged in to send global messages"
  else if kind = CustomMsgTypes.GlobalChatHistoryRequest then
    str "Error: You must be logged in to request global chat history"
  else if kind = CustomMsgTypes.ChatRequest then
    str "Error: You must be logged in to send chat requests"
  else if kind = CustomMsgTypes.ChatResponse then
    str "Error: You must be logged in to respond to chat requests"
  else if kind = CustomMsgTypes.ChatHistoryRequest then
    str "Error: You must be logged in to request chat history"
  else
    str "Error: You must be logged in to send private messages"

/-- An environment for the examples: a fixed clock, a JSON check that accepts every
text, and history formatters that return their input. -/
def exampleEnv : Env :=
  { timeStr := str "2025-01-01 12:00:00", timestamp := 1735732800000, uninitChar := 0,
    jsonValid := fun _ => true, extractMessagesOnly := fun t => t, formatChatHistory := fun t => t }

/-- A server on an empty directory that has accepted the connections 10000,
10001 and 10002. -/
def exampleServer : CustomServer :=
  (((CustomServer.new none true { files := [], writable := true }).accept 10000).accept
    10001).accept 10002

/-- The connection with the given id, its socket open. -/
def openConnection (id : Nat) : connection := { id := id, isConnected := true }

/-- A frame as `ReadHeader` and `ReadBody` deliver it: the kind, the size field
for the body, the body, and the cursor at 0. -/
def frame (kind : Nat) (body : List Nat) : message :=
  { header := { id := kind, size := sizeofHeader + body.length }, body := body, readPos := 0 }

/-- A length-prefixed string on the wire: the 32-bit length, then the bytes. -/
def wireString (text : Str) : List Nat := leBytes 4 text.length ++ text

/-- A `LoginRequest` frame for a username and a password. -/
def loginFrame (username password : Str) : message :=
  frame CustomMsgTypes.LoginRequest (wireString username ++ wireString password)

/-- A `RegisterRequest` frame for a username, a password and an email. -/
def registerFrame (username password email : Str) : message :=
  frame CustomMsgTypes.RegisterRequest
    (wireString username ++ wireString password ++ wireString email)

/-- The example server after alice has registered and logged in on connection
10000. -/
def aliceOnline : CustomServer :=
  (exampleServer.onMessage exampleEnv (openConnection 10000)
    (registerFrame (str "alice") (str "p4ss") (str "a@x"))).onMessage exampleEnv
    (openConnection 10000) (loginFrame (str "alice") (str "p4ss"))

/-- The events that change the registry: a handled `LoginRequest`, a handled
`RegisterRequest`, and the disconnect handler. -/
inductive RegistryEvent where
  | login (client : connection) (username password : Str)
  | register (client : connection) (username password email : Str)
  | disconnect (client : connection)
deriving DecidableEq, Repr

/-- The server after one event. -/
def CustomServer.handle (env : Env) (s : CustomServer) : RegistryEvent → CustomServer
  | .login client username password => s.onMessage env client (loginFrame username password)
  | .register client username password email =>
    s.onMessage env client (registerFrame username password email)
  | .disconnect client => s.onClientDisconnect client

/-- The server after a sequence of events. -/
def CustomServer.run (env : Env) (s : CustomServer) (events : List RegistryEvent) :
    CustomServer :=
  events.foldl (CustomServer.handle env) s

/-- The two maps of the registry are mutually inverse: `authenticatedUsers` maps
connection `c` to username `u` exactly when `userToClientMap` maps `u` to `c`. -/
def registryConsistent (s : CustomServer) : Prop :=
  ∀ (c : Nat) (u : Str),
    mapFind s.authenticatedUsers c = some u ↔ mapFind s.userToClientMap u = some c

/-- Connection 10000 registers alice and bob, logs in as alice, then logs in as
bob. -/
def reloginTrace : List RegistryEvent :=
  [.register (openConnection 10000) (str "alice") (str "p4ssw0rd") (str "a@x"),
   .register (openConnection 10000) (str "bob") (str "s3cret1") (str "b@x"),
   .login (openConnection 10000) (str "alice") (str "p4ssw0rd"),
   .login (openConnection 10000) (str "bob") (str "s3cret1")]

/-- The id that `getUserID` finds for a username in the document of the database
file: the id of the first record with the name, 0 when there is none. -/
def UsersDocument.userID (doc : UsersDocument) (username : Str) : Nat :=
  match findUser (doc.users.map UserRecord.toUser) username with
  | some u => u.id
  | none => 0

/-- The test `recipient && recipient->isConnected()` for
`recipient = getClientByID(clientID)`. -/
def sessionOpen (conns : List connection) (clientID : Nat) : Bool :=
  match getClientByID conns clientID with
  | some recipient => recipient.isConnected
  | none => false

/-- The connections a `GlobalMessage` is forwarded to: the keys of
`authenticatedUsers`, in order, other than the sender, whose connection is in
the deque and connected. -/
def broadcastTargets (conns : List connection) (client : connection)
    (sessions : List (Nat × Str)) : List Nat :=
  (sessions.filter (fun p => !decide (p.1 = client.id) && sessionOpen conns p.1)).map Prod.fst

/-- The text `new` is the text `old` with the object inserted, after an optional
comma separator and followed by a newline; every byte of `old` is kept, in
order. -/
def insertedInto (old object new : Str) : Prop :=
  ∃ pre post sep : Str,
    old = pre ++ post ∧ new = pre ++ sep ++ object ++ str "\n" ++ post ∧
    (sep = [] ∨ sep = str ",\n")

/-- A private log file that `saveChatMessage` extends: it parses as JSON and holds
the two markers the method looks for. -/
def chatLogExtendable (env : Env) (existingContent : Str) : Prop :=
  env.jsonValid existingContent = true ∧
  strRfind existingContent (str "  ]") npos ≠ npos ∧
  strFind existingContent (str "\"messages\": [") 0 ≠ npos

/-- A global log file that `saveGlobalMessage` extends: it mentions `"messages"`
and holds the closing marker the method looks for. -/
def globalLogExtendable (existingContent : Str) : Prop :=
  strFind existingContent (str "\"messages\"") 0 ≠ npos ∧
  strRfind existingContent (str "  ]\n\x7d") npos ≠ npos

/-- A `DirectMessage` frame as a client sends it: the id of the recipient, then the
text. -/
def directFrame (recipientUserID : Nat) (text : Str) : message :=
  frame CustomMsgTypes.DirectMessage (leBytes 4 recipientUserID ++ wireString text)

/-- A `GlobalMessage` frame as a client sends it: the text. -/
def globalFrame (text : Str) : message :=
  frame CustomMsgTypes.GlobalMessage (wireString text)

/-- The example server after alice (connection 10000) and bob (connection 10001)
have registered and logged in; connection 10002 stays anonymous. -/
def bothOnline : CustomServer :=
  exampleServer.run exampleEnv
    [.register (openConnection 10000) (str "alice") (str "p4ss") (str "a@x"),
     .register (openConnection 10001) (str "bob") (str "s3cret") (str "b@x"),
     .login (openConnection 10000) (str "alice") (str "p4ss"),
     .login (openConnection 10001) (str "bob") (str "s3cret")]

/-- The document of the database file of `bothOnline`: alice with id 10001 and bob
with id 10002. -/
def bothOnlineUsers : UsersDocument :=
  { last_user_id := 10002,
    users :=
      [{ id := 10001, username := str "alice", password_hash := str "p4ss", email := str "a@x",
         registration_date := exampleEnv.timeStr },
       { id := 10002, username := str "bob", password_hash := str "s3cret", email := str "b@x",
         registration_date := exampleEnv.timeStr }] }

/-- An ASCII letter. -/
abbrev isLetterByte (c : Nat) : Prop := (65 ≤ c ∧ c ≤ 90) ∨ (97 ≤ c ∧ c ≤ 122)

/-- An ASCII digit. -/
abbrev isDigitByte (c : Nat) : Prop := 48 ≤ c ∧ c ≤ 57

/-- The reserved names of the username rules. -/
def reservedNames : List Str :=
  [str "administrator", str "root", str "system", str "server"]

/-- The username rules: length from 3 to 20, only letters, digits and
underscores, no digit in front, and not a reserved name once lower-cased. -/
def usernameRules (u : Str) : Prop :=
  3 ≤ u.length ∧ u.length ≤ 20 ∧
  (∀ c ∈ u, isLetterByte c ∨ isDigitByte c ∨ c = 95) ∧
  (∀ c : Nat, u.head? = some c → ¬ isDigitByte c) ∧
  u.map tolower ∉ reservedNames

/-- The password rules: length from 6 to 64, at least one digit, at least one
letter. -/
def passwordRules (p : Str) : Prop :=
  6 ≤ p.length ∧ p.length ≤ 64 ∧ (∃ c ∈ p, isDigitByte c) ∧ (∃ c ∈ p, isLetterByte c)

/-! ## net_connection.h: the handshake -/

/-- The method `connection::scramble` of the server (`uint64_t` arithmetic). -/
def scramble (nInput : Nat) : Nat :=
  (((((nInput ^^^ 0xDEADBEEFC0DECAFE) &&& 0xF0F0F0F0F0F0F0) >>> 4) |||
      ((((nInput ^^^ 0xDEADBEEFC0DECAFE) &&& 0xF0F0F0F0F0F0F0) <<< 4) % 2 ^ 64)) ^^^
    0xC0DEFACE12345678)

namespace client

/-- The method `connection::scramble` of the client
(`src/client/Project1/net_connection.h`). -/
def scramble (nInput : Nat) : Nat :=
  (((((nInput ^^^ 0xDEADBEEFC0DECAFE) &&& 0xF0F0F0F0F0F0F0) >>> 4) |||
      ((((nInput ^^^ 0xDEADBEEFC0DECAFE) &&& 0xF0F0F0F0F0F0F0) <<< 4) % 2 ^ 64)) ^^^
    0xC0DEFACE12345678)

/-- The client branch of `ReadValidation`: the value written back for a received
challenge, `m_nHandshakeOut = scramble(m_nHandshakeIn)`. -/
def handshakeReply (m_nHandshakeIn : Nat) : Nat := scramble m_nHandshakeIn

end client

/-- The handshake fields of a server-side `connection`. -/
structure Handshake where
  m_nHandshakeOut : Nat
  m_nHandshakeIn : Nat
  m_nHandshakeCheck : Nat
deriving DecidableEq, Repr

/-- The constructor of a server-side `connection`: the challenge is the clock
reading (a `uint64_t`), the expected reply is its scramble. -/
def Handshake.new (clock : Nat) : Handshake :=
  { m_nHandshakeOut := clock % 2 ^ 64, m_nHandshakeIn := 0,
    m_nHandshakeCheck := scramble (clock % 2 ^ 64) }

/-- The server branch of `ReadValidation` once the eight bytes of the reply have
been read: the connection is admitted (validated, `ReadHeader` started) exactly
when the reply equals `m_nHandshakeCheck`; otherwise it is removed. -/
def Handshake.admits (h : Handshake) (reply : Nat) : Bool :=
  decide (reply = h.m_nHandshakeCheck)

/-- The error of the specification for a read past the end of the body. -/
inductive FrameDecodeError where
  | IncompleteBody
deriving DecidableEq, Repr

/-- The extract that the specification describes, for comparison with
`message.extract`: the value at the cursor and the advanced cursor, or the
error `IncompleteBody` when the cursor plus the width exceeds the body. -/
def message.extractChecked (w : Nat) (msg : message) : Except FrameDecodeError (message × Nat) :=
  if msg.readPos + w ≤ msg.body.length then
    .ok ({ msg with readPos := msg.readPos + w }, leValue ((msg.body.drop msg.readPos).take w))
  else
    .error .IncompleteBody

/-- The predicate of the user store: every stored id is at most `last_user_id`, no
two records share an id, and no two records share a username. -/
def storeInvariant (m : UserManager) : Prop :=
  (∀ u ∈ m.users, u.id ≤ m.last_user_id) ∧
  (m.users.map User.id).Nodup ∧ (m.users.map User.username).Nodup

instance (m : UserManager) : Decidable (storeInvariant m) := by
  unfold storeInvariant
  infer_instance

/-- A user manager loaded from a database file whose counter is the largest
32-bit value and that holds alice (id 5) and bob (id 7). -/
def fullCounterStore : UserManager :=
  UserManager.new
    (some { last_user_id := 4294967295,
            users :=
              [{ id := 5, username := str "alice", password_hash := str "p4ss", email := str "a@x",
                 registration_date := str "2025-01-01 12:00:00" },
               { id := 7, username := str "bob", password_hash := str "s3cret", email := str "b@x",
                 registration_date := str "2025-01-01 12:00:00" }] })
    true

/-- The lexicographically smaller of two names. -/
def smallerName (a b : Str) : Str := if strLt b a then b else a

/-- The lexicographically larger of two names. -/
def largerName (a b : Str) : Str := if strLt b a then a else b

/-- The files after two calls of `saveChatMessage` on an empty directory: first
abc_def writes to ghi, then abc writes to def_ghi. -/
def collidingLogs : FileSystem :=
  saveChatMessage exampleEnv
    (saveChatMessage exampleEnv { files := [], writable := true } (str "abc_def") 10001
      (str "ghi") 10002 (str "one"))
    (str "abc") 10003 (str "def_ghi") 10004 (str "two")

/-- The escaping that the specification describes: every double quote, newline
and carriage return replaced by its two-character backslash escape, every
other byte kept. -/
def escapeSpecified : Str → Str
  | [] => []
  | c :: cs =>
    (if c = 34 then [92, 34] else if c = 10 then [92, 110] else if c = 13 then [92, 114]
      else [c]) ++ escapeSpecified cs

/-- Every double quote replaced by a backslash and a double quote, every other
byte kept. -/
def escapeQuotes : Str → Str
  | [] => []
  | c :: cs => (if c = 34 then [92, 34] else [c]) ++ escapeQuotes cs

/-- The example server after alice and bob have registered and alice has logged
in on connection 10000; bob (connection 10001) has not logged in yet. -/
def beforeBobLogin : CustomServer :=
  exampleServer.run exampleEnv
    [.register (openConnection 10000) (str "alice") (str "p4ss") (str "a@x"),
     .register (openConnection 10001) (str "bob") (str "s3cret") (str "b@x"),
     .login (openConnection 10000) (str "alice") (str "p4ss")]

/-- What the completion handler of `ReadHeader` does once the eight header bytes
have arrived: resize the body and read it, or queue the message at once. -/
inductive HeaderAction where
  | readBody (bodySize : Nat)
  | addToQueue
deriving DecidableEq, Repr

/-- The completion handler of `ReadHeader` for a header whose size field is
`size`: `size_t bodySize = header.size - sizeof(messageHeader<T>)` is computed
on `size_t` (64 bits), so it wraps for a size below 8. -/
def ReadHeader (size : Nat) : HeaderAction :=
  if size > 0 then
    if (size + 2 ^ 64 - sizeofHeader) % 2 ^ 64 > 0 then
      .readBody ((size + 2 ^ 64 - sizeofHeader) % 2 ^ 64)
    else .addToQueue
  else .addToQueue

/-- The length the body of the temporary message has after the handler of
`ReadHeader` (a fresh message has an empty body). -/
def HeaderAction.bodyLength : HeaderAction → Nat
  | .readBody bodySize => bodySize
  | .addToQueue => 0

/-- A user store without a database file, in a directory where the file cannot
be created. -/
def unwritableStore : UserManager := UserManager.new none false

/-! ## The JSON library and the two formatters of the chat history -/

/-- A JSON value as the parsers of simdjson present it. -/
inductive Json where
  | null
  | bool (b : Bool)
  | number (n : Int)
  | string (s : Str)
  | array (items : List Json)
  | object (fields : List (Str × Json))

/-- The lookup `element["key"]`: the first field with the key of an object, an
error (`none`) for a missing key or a value that is not an object. -/
def Json.field (j : Json) (key : Str) : Option Json :=
  match j with
  | .object fields => (fields.find? (fun p => decide (p.1 = key))).map Prod.snd
  | _ => none

/-- The conversion to a string view, an error for any other value. -/
def Json.asString : Json → Option Str
  | .string s => some s
  | _ => none

/-- The conversion to an array, an error for any other value. -/
def Json.asArray : Json → Option (List Json)
  | .array items => some items
  | _ => none

/-- The conversion `get_uint64()`, an error for any other value. -/
def Json.asUint64 : Json → Option Nat
  | .number n => if 0 ≤ n ∧ n < 2 ^ 64 then some n.toNat else none
  | _ => none

/-- What the server takes from simdjson and from the C library when it formats a
history: the DOM parser, the on-demand parser (`none` when reading the
document throws), and the local time of day `%H:%M:%S` of a time given in
milliseconds since the epoch. -/
structure JsonLibrary where
  parse : Str → Option Json
  iterate : Str → Option Json
  timeOfDay : Nat → Str

/-- The line that the loop of `extractMessagesOnly` adds for one message; `none`
when one of the three reads throws. -/
def extractLine (lib : JsonLibrary) (message : Json) : Option Str :=
  match (message.field (str "sender_username")).bind Json.asString,
      (message.field (str "message_text")).bind Json.asString,
      (message.field (str "message_id")).bind Json.asUint64 with
  | some senderUsername, some messageText, some messageId =>
    some (str "[" ++ lib.timeOfDay messageId ++ str "] " ++ senderUsername ++ str ": " ++
      messageText ++ str "\n")
  | _, _, _ => none

/-- The loop of `extractMessagesOnly` over the messages: the text added to
`result`, `none` when a read throws. -/
def extractLines (lib : JsonLibrary) : List Json → Option Str
  | [] => some []
  | message :: rest =>
    match extractLine lib message, extractLines lib rest with
    | some line, some lines => some (line ++ lines)
    | _, _ => none

/-- The method `extractMessagesOnly`: every exception ends in the error text of
the `catch`. -/
def extractMessagesOnly (lib : JsonLibrary) (fullChatHistory : Str) : Str :=
  match ((lib.iterate fullChatHistory).bind (fun doc => doc.field (str "messages"))).bind
      Json.asArray with
  | none => str "Error loading chat history. Please try again."
  | some messages =>
    match extractLines lib messages with
    | none => str "Error loading chat history. Please try again."
    | some lines =>
      str "=== Chat History ===\n\n" ++ lines ++
        (if messages.isEmpty then str "No messages in this chat yet.\n" else []) ++
        str "\n=== End of History ==="

/-- The timestamp that `formatChatHistory` shows for a message of a private
conversation. -/
def privateTimestamp (message : Json) : Str :=
  match (message.field (str "timestamp")).bind Json.asString with
  | some timestamp => timestamp
  | none => str "Unknown time"

/-- The text that the loop of `formatChatHistory` adds for one message of a
private conversation: nothing when one of the three fields is missing. -/
def privateLine (message : Json) : Str :=
  match (message.field (str "sender_username")).bind Json.asString,
      (message.field (str "recipient_username")).bind Json.asString,
      (message.field (str "message_text")).bind Json.asString with
  | some senderUsername, some recipientUsername, some messageText =>
    str "[" ++ privateTimestamp message ++ str "] " ++ senderUsername ++ str " -> " ++
      recipientUsername ++ str ": " ++ messageText ++ str "\n"
  | _, _, _ => []

/-- The timestamp that `formatChatHistory` shows for a message of the global
chat. -/
def globalTimestamp (message : Json) : Str :=
  match (message.field (str "timestamp")).bind Json.asString with
  | some timestamp => timestamp
  | none =>
    match (message.field (str "created_date")).bind Json.asString with
    | some timestamp => timestamp
    | none => str "Unknown time"

/-- The text that the loop of `formatChatHistory` adds for one message of the
global chat. -/
def globalLine (message : Json) : Str :=
  match (message.field (str "sender_username")).bind Json.asString,
      (message.field (str "message_text")).bind Json.asString with
  | some senderUsername, some messageText =>
    str "[" ++ globalTimestamp message ++ str "] " ++ senderUsername ++ str ": " ++
      messageText ++ str "\n"
  | _, _ => []

/-- The part of `formatChatHistory` between the two markers. -/
def historyLines (doc : Json) : Str :=
  match (doc.field (str "conversation_id")).bind Json.asString with
  | some conversationId =>
    str "Conversation: " ++ conversationId ++ str "\n\n" ++
      (match (doc.field (str "messages")).bind Json.asArray with
       | some messages => (messages.map privateLine).flatten
       | none => str "No messages in this conversation.\n")
  | none =>
    match (doc.field (str "messages")).bind Json.asArray with
    | some messages => (messages.map globalLine).flatten
    | none => str "No messages found.\n"

/-- The method `CustomServer::formatChatHistory`.  The calls it makes on the
parsed document return error codes, so its `catch` is not reached. -/
def formatChatHistory (lib : JsonLibrary) (jsonHistory : Str) : Str :=
  if jsonHistory = [] then str "No messages found in chat history."
  else if strFind jsonHistory (str "=== Chat History ===") 0 ≠ npos then jsonHistory
  else
    match lib.parse jsonHistory with
    | none => str "Error: Invalid JSON format in chat history."
    | some doc => str "\n=== CHAT HISTORY ===\n" ++ historyLines doc ++ str "=== END OF HISTORY ===\n"

/-- The environment in which the JSON check and the two formatters are the
methods of the server on a given library. -/
def Env.withLibrary (env : Env) (lib : JsonLibrary) : Env :=
  { env with
      jsonValid := fun text => (lib.parse text).isSome,
      extractMessagesOnly := Messenger.extractMessagesOnly lib,
      formatChatHistory := Messenger.formatChatHistory lib }

/-- The log that `saveChatMessage` writes when alice (id 10001) sends "hi" to bob
(id 10002) and the pair has no log yet. -/
def aliceBobLog : Str :=
  newChatDocument exampleEnv (str "alice_bob") (str "alice") (str "bob")
    (chatMessageObject exampleEnv (str "alice_bob") (str "alice") 10001 (str "bob") 10002
      (str "hi"))

/-- The JSON value of `aliceBobLog`. -/
def aliceBobLogJson : Json :=
  .object
    [(str "conversation_id", .string (str "alice_bob")),
     (str "participants", .array [.string (str "alice"), .string (str "bob")]),
     (str "created_date", .string (str "2025-01-01 12:00:00")),
     (str "messages",
       .array
         [.object
           [(str "message_id", .number 1735732800000),
            (str "conversation_id", .string (str "alice_bob")),
            (str "sender_username", .string (str "alice")),
            (str "sender_user_id", .number 10001),
            (str "recipient_username", .string (str "bob")),
            (str "recipient_user_id", .number 10002),
            (str "message_text", .string (str "hi")),
            (str "timestamp", .string (str "2025-01-01 12:00:00")),
            (str "message_type", .string (str "direct_message"))]])]

/-- A library for the examples: both parsers read the document without messages
and the log of alice and bob, and reject every other text; every time of day
is 12:00:00. -/
def exampleLibrary : JsonLibrary :=
  { parse := fun text =>
      if text = str "\x7b\"messages\": []\x7d" then some (.object [(str "messages", .array [])])
      else if text = aliceBobLog then some aliceBobLogJson
      else none,
    iterate := fun text =>
      if text = str "\x7b\"messages\": []\x7d" then some (.object [(str "messages", .array [])])
      else if text = aliceBobLog then some aliceBobLogJson
      else none,
    timeOfDay := fun _ => str "12:00:00" }

/-- The environment of the examples on the library of the examples. -/
def libraryEnv : Env := exampleEnv.withLibrary exampleLibrary

/-- The example server with alice and bob logged in, after alice has sent "hi" to
bob. -/
def chattedServer : CustomServer :=
  bothOnline.onMessage libraryEnv (openConnection 10000) (directFrame 10002 (str "hi"))

/-- A `ChatHistoryRequest` frame for the history with the user of the given id. -/
def historyFrame (otherUserID : Nat) : message :=
  frame CustomMsgTypes.ChatHistoryRequest (leBytes 4 otherUserID)

/-- The transcript that the server sends for the pair: `formatChatHistory` on what
`loadChatHistory` returns. -/
def chatTranscript (lib : JsonLibrary) (env : Env) (fs : FileSystem) (user1 user2 : Str) : Str :=
  formatChatHistory lib (loadChatHistory (env.withLibrary lib) fs user1 user2)

/-! ## Sequences of `saveChatMessage` calls -/

/-- One call of `saveChatMessage`: what the clock shows during the call, and the
five arguments. -/
structure ChatSave where
  timeStr : Str
  timestamp : Nat
  senderUsername : Str
  senderUserID : Nat
  recipientUsername : Str
  recipientUserID : Nat
  messageText : Str
deriving DecidableEq, Repr

/-- The environment during a call: the clock of the call, the rest as given. -/
def ChatSave.env (c : ChatSave) (env : Env) : Env :=
  { env with timeStr := c.timeStr, timestamp := c.timestamp }

/-- The files after the call. -/
def ChatSave.run (env : Env) (fs : FileSystem) (c : ChatSave) : FileSystem :=
  saveChatMessage (c.env env) fs c.senderUsername c.senderUserID c.recipientUsername
    c.recipientUserID c.messageText

/-- The message object that the call builds. -/
def ChatSave.object (env : Env) (c : ChatSave) : Str :=
  chatMessageObject (c.env env) (sortedNames c.senderUsername c.recipientUsername)
    c.senderUsername c.senderUserID c.recipientUsername c.recipientUserID
    (escapeMessageText c.messageText)

/-- The files after a sequence of calls. -/
def saveAll (env : Env) (fs : FileSystem) (calls : List ChatSave) : FileSystem :=
  calls.foldl (ChatSave.run env) fs

/-- Message objects in order, separated by a comma on a line of its own. -/
def joinObjects : List Str → Str
  | [] => []
  | [object] => object
  | object :: rest => object ++ str "\n,\n" ++ joinObjects rest

/-- The start of the log that the call `first` creates, up to the key of the
messages array. -/
def chatLogHead (first : ChatSave) : Str :=
  str "\x7b\n" ++
  str "  \"conversation_id\": \"" ++ sortedNames first.senderUsername first.recipientUsername ++
    str "\",\n" ++
  str "  \"participants\": [\"" ++ first.senderUsername ++ str "\", \"" ++
    first.recipientUsername ++ str "\"],\n" ++
  str "  \"created_date\": \"" ++ first.timeStr ++ str "\",\n" ++
  str "  "

/-- The log created by the call `first` up to the last message object of the
array and the newline after it. -/
def chatLogBody (first : ChatSave) (objects : List Str) : Str :=
  chatLogHead first ++ str "\"messages\": [" ++ (str "\n" ++ joinObjects objects ++ str "\n")

/-- The log created by the call `first` whose messages array holds the objects, in
order: the body, then the closing `  ]` of the array and the closing of the
document. -/
def chatLogText (first : ChatSave) (objects : List Str) : Str :=
  chatLogBody first objects ++ str "  ]\n\x7d\n"

/-- Two calls for the pair alice and bob: alice writes "one" to bob, then bob
writes "two" to alice, a millisecond later. -/
def aliceBobSaves : List ChatSave :=
  [{ timeStr := str "2025-01-01 12:00:00", timestamp := 1735732800000,
     senderUsername := str "alice", senderUserID := 10001,
     recipientUsername := str "bob", recipientUserID := 10002, messageText := str "one" },
   { timeStr := str "2025-01-01 12:00:00", timestamp := 1735732800001,
     senderUsername := str "bob", senderUserID := 10002,
     recipientUsername := str "alice", recipientUserID := 10001, messageText := str "two" }]

/-! ## net_connection.h: a socket that fails -/

/-- The failure branch of a pending read or write of the connection with the given
id (`ReadHeader`, `ReadBody` and the write handlers): `m_socket.close()`, so
`isConnected()` is false from then on.  The connection stays in the deque, and
no method of the server is called: the registry is as it was. -/
def CustomServer.socketClosed (s : CustomServer) (id : Nat) : CustomServer :=
  { s with
      m_deqConnections :=
        s.m_deqConnections.map
          (fun conn => if conn.id = id then { conn with isConnected := false } else conn) }

/-- The example server after this history: alice and bob register; alice logs in on
connection 10000; the socket of connection 10000 fails; alice logs in again
on connection 10001 and bob logs in on connection 10002. -/
def staleSession : CustomServer :=
  (((exampleServer.run exampleEnv
      [.register (openConnection 10000) (str "alice") (str "p4ss") (str "a@x"),
       .register (openConnection 10002) (str "bob") (str "s3cret") (str "b@x"),
       .login (openConnection 10000) (str "alice") (str "p4ss")]).socketClosed 10000).run
    exampleEnv
      [.login (openConnection 10001) (str "alice") (str "p4ss"),
       .login (openConnection 10002) (str "bob") (str "s3cret")])

/-! ## Codec lemmas -/

theorem leBytes_length (w n : Nat) : (leBytes w n).length = w := by
  induction w generalizing n with
  | zero => rfl
  | succ w ih => simp [leBytes, ih]

theorem leValue_leBytes (w n : Nat) (h : n < 256 ^ w) : leValue (leBytes w n) = n := by
  induction w generalizing n with
  | zero =>
    have : n = 0 := by simpa using h
    simp [leBytes, leValue, this]
  | succ w ih =>
    have h2 : n / 256 < 256 ^ w := by
      rw [Nat.div_lt_iff_lt_mul (by norm_num)]
      rw [pow_succ] at h
      exact h
    simp only [leBytes, leValue, ih _ h2]
    omega

theorem leBytes_lt (w n : Nat) : ∀ b ∈ leBytes w n, b < 256 := by
  induction w generalizing n with
  | zero => simp [leBytes]
  | succ w ih =>
    intro b hb
    simp only [leBytes, List.mem_cons] at hb
    rcases hb with rfl | hb
    · omega
    · exact ih _ b hb

theorem append_body (w : Nat) (msg : message) (data : Nat) :
    (msg.append w data).body = msg.body ++ leBytes w data := rfl

theorem append_readPos (w : Nat) (msg : message) (data : Nat) :
    (msg.append w data).readPos = msg.readPos := rfl

theorem append_id (w : Nat) (msg : message) (data : Nat) :
    (msg.append w data).header.id = msg.header.id := rfl

theorem appendAll_body (vs : List Value) (msg : message) :
    (msg.appendAll vs).body = msg.body ++ encodeValues vs := by
  induction vs generalizing msg with
  | nil => simp [message.appendAll, encodeValues]
  | cons v vs ih =>
    have := ih (msg.appendValue v)
    simp only [message.appendAll, List.foldl_cons] at this ⊢
    rw [this]
    simp [message.appendValue, append_body, encodeValues]

theorem fromRepr_toNat (v : Value) : v.type.fromRepr v.toNat = v := by
  cases v with
  | u8 n => rfl
  | u32 n => rfl
  | bool b => cases b <;> rfl
  | char c => rfl

theorem toNat_lt (v : Value) (h : v.inRange) : v.toNat < 256 ^ v.type.sizeof := by
  cases v with
  | u8 n => simpa [Value.inRange, Value.toNat, Value.type, DataType.sizeof] using h
  | u32 n =>
    simp only [Value.inRange] at h
    simp only [Value.toNat, Value.type, DataType.sizeof]
    omega
  | bool b => cases b <;> simp [Value.toNat, Value.type, DataType.sizeof]
  | char c => simpa [Value.inRange, Value.toNat, Value.type, DataType.sizeof] using h

/-- Extraction of one value whose bytes sit at the cursor. -/
theorem extract_at (w n d : Nat) (hn : n < 256 ^ w) (msg : message) (pre suf : List Nat)
    (hb : msg.body = pre ++ leBytes w n ++ suf) (hp : msg.readPos = pre.length) :
    msg.extract w d = ({ msg with readPos := pre.length + w }, n) := by
  unfold message.extract
  have hlen : msg.readPos + w ≤ msg.body.length := by
    rw [hb, hp]; simp [leBytes_length]
  rw [if_pos hlen]
  have htake : (msg.body.drop msg.readPos).take w = leBytes w n := by
    rw [hb, hp, List.append_assoc, List.drop_left]
    rw [List.take_append_of_le_length (by simp [leBytes_length])]
    rw [List.take_of_length_le (by simp [leBytes_length])]
  rw [htake, leValue_leBytes w n hn, hp]

theorem extractAll_encode (vs : List Value) (hv : ∀ v ∈ vs, v.inRange) (msg : message)
    (pre suf : List Nat) (hb : msg.body = pre ++ encodeValues vs ++ suf)
    (hp : msg.readPos = pre.length) :
    msg.extractAll (vs.map Value.type)
      = ({ msg with readPos := pre.length + (encodeValues vs).length }, vs) := by
  induction vs generalizing msg pre with
  | nil =>
    simp only [List.map_nil, message.extractAll, encodeValues, List.flatten_nil,
      List.length_nil, Nat.add_zero]
    rw [← hp]
  | cons v vs ih =>
    have hv1 : v.inRange := hv v (List.mem_cons_self _ _)
    have hvs : ∀ x ∈ vs, x.inRange := fun x hx => hv x (List.mem_cons_of_mem _ hx)
    have henc : encodeValues (v :: vs) = leBytes v.type.sizeof v.toNat ++ encodeValues vs := by
      simp [encodeValues]
    have hb1 : msg.body = pre ++ leBytes v.type.sizeof v.toNat ++ (encodeValues vs ++ suf) := by
      rw [hb, henc]; simp
    have h1 := extract_at v.type.sizeof v.toNat 0 (toNat_lt v hv1) msg pre _ hb1 hp
    have hb2 : ({ msg with readPos := pre.length + v.type.sizeof } : message).body
        = (pre ++ leBytes v.type.sizeof v.toNat) ++ encodeValues vs ++ suf := by
      show msg.body = _
      rw [hb1]; simp
    have hp2 : ({ msg with readPos := pre.length + v.type.sizeof } : message).readPos
        = (pre ++ leBytes v.type.sizeof v.toNat).length := by
      simp [leBytes_length]
    have h2 := ih hvs _ _ hb2 hp2
    simp only [List.map_cons, message.extractAll, h1, h2, fromRepr_toNat, henc]
    simp [leBytes_length, Nat.add_assoc]

/-! ## Claim C1 -/

/-- C1: for a message whose body starts empty and any list of in-range values of
the fixed-width types (u8, u32, bool, char), appending the values in order and
then extracting the same types in the same order from cursor 0 returns the
original values in order and leaves the cursor at the body length. -/
theorem append_extract_roundtrip (msg : message) (vs : List Value)
    (hbody : msg.body = []) (hrange : ∀ v ∈ vs, v.inRange) :
    ((msg.appendAll vs).reset_read_position.extractAll (vs.map Value.type)).2 = vs ∧
    ((msg.appendAll vs).reset_read_position.extractAll (vs.map Value.type)).1.readPos
      = (msg.appendAll vs).body.length ∧
    ((msg.appendAll vs).reset_read_position.extractAll (vs.map Value.type)).1.body
      = (msg.appendAll vs).body := by
  have hb : (msg.appendAll vs).reset_read_position.body = [] ++ encodeValues vs ++ [] := by
    show (msg.appendAll vs).body = _
    rw [appendAll_body, hbody]; simp
  have hp : (msg.appendAll vs).reset_read_position.readPos = ([] : List Nat).length := rfl
  have h := extractAll_encode vs hrange _ [] [] hb hp
  rw [h]
  refine ⟨rfl, ?_, rfl⟩
  show 0 + (encodeValues vs).length = (msg.appendAll vs).body.length
  rw [appendAll_body, hbody]; simp

/-- C1 at a concrete frame: a u32, a bool, a char and a u8 written and read back. -/
theorem append_extract_roundtrip_witness :
    (({ header := { id := 6, size := 0 }, body := [], readPos := 0 } : message).body = [] ∧
      ∀ v ∈ [Value.u32 10002, Value.bool true, Value.char 104, Value.u8 255], v.inRange) ∧
    ((({ header := { id := 6, size := 0 }, body := [], readPos := 0 } : message).appendAll
        [Value.u32 10002, Value.bool true, Value.char 104, Value.u8 255]).reset_read_position.extractAll
        ([Value.u32 10002, Value.bool true, Value.char 104, Value.u8 255].map Value.type)).2
      = [Value.u32 10002, Value.bool true, Value.char 104, Value.u8 255] :=
  ⟨⟨rfl, by decide⟩,
   (append_extract_roundtrip _ _ rfl (by decide)).1⟩

/-! ## User store lemmas -/

theorem findUser_nil (name : Str) : findUser [] name = none := rfl

theorem findUser_cons (u : User) (us : List User) (name : Str) :
    findUser (u :: us) name = if u.username = name then some u else findUser us name := by
  unfold findUser
  by_cases h : u.username = name <;> simp [List.find?, h]

theorem findUser_eq_none (us : List User) (name : Str) :
    findUser us name = none ↔ ∀ e ∈ us, e.username ≠ name := by
  unfold findUser
  simp [List.find?_eq_none]

theorem findUser_some_username (us : List User) (name : Str) (u : User)
    (h : findUser us name = some u) : u.username = name ∧ u ∈ us := by
  unfold findUser at h
  have h1 := List.find?_some h
  have h2 := List.mem_of_find?_eq_some h
  exact ⟨by simpa using h1, h2⟩

theorem findUser_append_none (us vs : List User) (name : Str) (h : findUser us name = none) :
    findUser (us ++ vs) name = findUser vs name := by
  induction us with
  | nil => rfl
  | cons u us ih =>
    rw [findUser_cons] at h
    by_cases hu : u.username = name
    · simp [hu] at h
    · rw [if_neg hu] at h
      rw [List.cons_append, findUser_cons, if_neg hu, ih h]

theorem findUser_map (f : User → User) (hf : ∀ u, (f u).username = u.username)
    (us : List User) (name : Str) :
    findUser (us.map f) name = (findUser us name).map f := by
  induction us with
  | nil => rfl
  | cons u us ih =>
    rw [List.map_cons, findUser_cons, findUser_cons, hf, ih]
    by_cases hu : u.username = name <;> simp [hu]

theorem toUser_toRecord_username (u : User) : u.toRecord.toUser.username = u.username := rfl

theorem toUser_toRecord_password_hash (u : User) :
    u.toRecord.toUser.password_hash = u.password_hash := rfl

theorem loadUsers_users_of_some (m : UserManager) (doc : UsersDocument)
    (h : m.database_file = some doc) :
    m.loadUsers.1.users = doc.users.map UserRecord.toUser := by
  unfold UserManager.loadUsers
  rw [h]

theorem saveUsers_true (m : UserManager) (h : m.saveUsers.2 = true) :
    m.saveUsers.1.database_file
        = some { last_user_id := m.last_user_id, users := m.users.map User.toRecord } ∧
      m.saveUsers.1.users = m.users ∧ m.saveUsers.1.last_user_id = m.last_user_id := by
  unfold UserManager.saveUsers at h ⊢
  by_cases hw : m.writable = true
  · simp [hw]
  · by_cases ht : m.truncatedByFailedSave = true <;> simp [hw, ht] at h

theorem saveUsers_memory (m : UserManager) :
    m.saveUsers.1.users = m.users ∧ m.saveUsers.1.last_user_id = m.last_user_id ∧
      m.saveUsers.1.writable = m.writable ∧ m.saveUsers.2 = m.writable := by
  unfold UserManager.saveUsers
  by_cases hw : m.writable = true
  · simp [hw]
  · by_cases ht : m.truncatedByFailedSave = true <;> simp [hw, ht]

/-- After a registration that reports success, a reload finds exactly the
records of the in-memory list. -/
theorem registerUser_true (m : UserManager) (user : User)
    (h : (m.registerUser user).2 = true) :
    findUser m.users user.username = none ∧
    (m.registerUser user).1.users
        = m.users ++ [{ user with id := (m.last_user_id + 1) % 2 ^ 32 }] ∧
    (m.registerUser user).1.loadUsers.1.users
        = ((m.registerUser user).1.users.map User.toRecord).map UserRecord.toUser := by
  unfold UserManager.registerUser at h ⊢
  cases hf : findUser m.users user.username with
  | some e => simp [hf] at h
  | none =>
    simp only [hf] at h ⊢
    have hs := saveUsers_true _ h
    refine ⟨trivial, hs.2.1, ?_⟩
    rw [loadUsers_users_of_some _ _ hs.1, hs.2.1]

/-! ## Claim C3 -/

/-- C3: `registerUser(user)`.  If a record with the same username (the same bytes,
so compared case-sensitively) is in the list, the result is false and the
manager is unchanged.  Otherwise exactly one record is appended: a copy of the
given user with id the old `last_user_id` plus one in `uint32_t` arithmetic
(the plain sum whenever that fits in 32 bits), and `last_user_id` becomes that
id.  In a store built from a missing file (`last_user_id = 10000`) the first
registration gets id 10001. -/
theorem registerUser_spec (m : UserManager) (user : User) :
    ((∃ e ∈ m.users, e.username = user.username) → m.registerUser user = (m, false)) ∧
    ((∀ e ∈ m.users, e.username ≠ user.username) →
      (m.registerUser user).1.users
          = m.users ++ [{ user with id := (m.last_user_id + 1) % 2 ^ 32 }] ∧
      (m.registerUser user).1.last_user_id = (m.last_user_id + 1) % 2 ^ 32 ∧
      (m.last_user_id + 1 < 2 ^ 32 →
        (m.registerUser user).1.users = m.users ++ [{ user with id := m.last_user_id + 1 }] ∧
        (m.registerUser user).1.last_user_id = m.last_user_id + 1) ∧
      (m.registerUser user).2 = m.writable) ∧
    (∀ w : Bool,
      (UserManager.new none w).users = [] ∧ (UserManager.new none w).last_user_id = 10000 ∧
      ((UserManager.new none w).registerUser user).1.users = [{ user with id := 10001 }] ∧
      ((UserManager.new none w).registerUser user).1.last_user_id = 10001) := by
  refine ⟨?_, ?_, ?_⟩
  · rintro ⟨e, he, hname⟩
    unfold UserManager.registerUser
    cases hf : findUser m.users user.username with
    | some _ => rfl
    | none => exact absurd hname ((findUser_eq_none _ _).1 hf e he)
  · intro hnone
    have hf : findUser m.users user.username = none := (findUser_eq_none _ _).2 hnone
    have hm := saveUsers_memory
      ({ m with last_user_id := (m.last_user_id + 1) % 2 ^ 32,
                users := m.users ++ [{ user with id := (m.last_user_id + 1) % 2 ^ 32 }] }
        : UserManager)
    have hu : (m.registerUser user).1.users
        = m.users ++ [{ user with id := (m.last_user_id + 1) % 2 ^ 32 }] := by
      unfold UserManager.registerUser
      simp only [hf]
      exact hm.1
    have hl : (m.registerUser user).1.last_user_id = (m.last_user_id + 1) % 2 ^ 32 := by
      unfold UserManager.registerUser
      simp only [hf]
      exact hm.2.1
    refine ⟨hu, hl, ?_, ?_⟩
    · intro hlt
      rw [hu, hl, Nat.mod_eq_of_lt hlt]
      exact ⟨rfl, rfl⟩
    · unfold UserManager.registerUser
      simp only [hf]
      exact hm.2.2.2
  · intro w
    cases w <;> exact ⟨rfl, rfl, rfl, rfl⟩

/-- C3 at concrete stores: "alice" registers into a fresh store and gets id 10001;
a second "alice" is refused and nothing changes; "Alice" is a different name. -/
theorem registerUser_spec_witness :
    ((UserManager.new none true).registerUser
        { User.new with username := str "alice", password_hash := str "p4ss" }).1.users
      = [{ User.new with username := str "alice", password_hash := str "p4ss", id := 10001 }] ∧
    (((UserManager.new none true).registerUser
        { User.new with username := str "alice", password_hash := str "p4ss" }).1.registerUser
        { User.new with username := str "alice", password_hash := str "other" })
      = (((UserManager.new none true).registerUser
        { User.new with username := str "alice", password_hash := str "p4ss" }).1, false) ∧
    ((((UserManager.new none true).registerUser
        { User.new with username := str "alice", password_hash := str "p4ss" }).1.registerUser
        { User.new with username := str "Alice", password_hash := str "other" })).1.last_user_id
      = 10002 :=
  ⟨((registerUser_spec (UserManager.new none true)
      { User.new with username := str "alice", password_hash := str "p4ss" }).2.2 true).2.2.1,
   (registerUser_spec _ { User.new with username := str "alice", password_hash := str "other" }).1
      ⟨_, List.mem_singleton.2 rfl, by decide⟩,
   ((registerUser_spec _ { User.new with username := str "Alice", password_hash := str "other" }).2.1
      (by decide)).2.1⟩

/-! ## Claim C4 -/

/-- C4: after `registerUser` has succeeded for a record with username `u` and
`password_hash = hashPassword(p)` (a reload returning the records last saved),
`authenticateUser(u, p)` is true, `authenticateUser(u, q)` is false for every
`q` other than `p`, and `authenticateUser` with a username that no record of the
store carries is false. -/
theorem authenticateUser_after_registerUser (m : UserManager) (user : User) (p : Str)
    (hhash : user.password_hash = hashPassword p)
    (hreg : (m.registerUser user).2 = true) :
    ((m.registerUser user).1.authenticateUser user.username p).2 = true ∧
    (∀ q : Str, q ≠ p → ((m.registerUser user).1.authenticateUser user.username q).2 = false) ∧
    (∀ name q : Str, (∀ e ∈ (m.registerUser user).1.users, e.username ≠ name) →
      ((m.registerUser user).1.authenticateUser name q).2 = false) := by
  obtain ⟨hnone, husers, hload⟩ := registerUser_true m user hreg
  have hfind : ∀ name, findUser (m.registerUser user).1.loadUsers.1.users name
      = (findUser (m.registerUser user).1.users name).map
          (fun u => u.toRecord.toUser) := by
    intro name
    rw [hload, List.map_map]
    exact findUser_map (fun u => u.toRecord.toUser) (fun _ => rfl) _ name
  have hself : findUser (m.registerUser user).1.users user.username
      = some { user with id := (m.last_user_id + 1) % 2 ^ 32 } := by
    rw [husers, findUser_append_none _ _ _ hnone, findUser_cons]
    simp
  refine ⟨?_, ?_, ?_⟩
  · unfold UserManager.authenticateUser
    rw [hfind, hself]
    simp [User.toRecord, UserRecord.toUser, hhash]
  · intro q hq
    unfold UserManager.authenticateUser
    rw [hfind, hself]
    simp only [Option.map_some', User.toRecord, UserRecord.toUser, hhash, hashPassword]
    simpa using fun h => hq h.symm
  · intro name q hname
    unfold UserManager.authenticateUser
    rw [hfind, (findUser_eq_none _ _).2 hname]
    rfl

/-- C4 at a concrete store: alice registers with password "p4ss"; that password
authenticates her. -/
theorem authenticateUser_after_registerUser_witness :
    ({ User.new with username := str "alice", password_hash := str "p4ss" } : User).password_hash
        = hashPassword (str "p4ss") ∧
    ((UserManager.new none true).registerUser
        { User.new with username := str "alice", password_hash := str "p4ss" }).2 = true ∧
    (((UserManager.new none true).registerUser
        { User.new with username := str "alice", password_hash := str "p4ss" }).1.authenticateUser
        (str "alice") (str "p4ss")).2 = true :=
  ⟨rfl, rfl,
   (authenticateUser_after_registerUser (UserManager.new none true)
      { User.new with username := str "alice", password_hash := str "p4ss" } (str "p4ss")
      rfl rfl).1⟩

/-! ## Dispatcher lemmas -/

theorem SendMessageToClient_connected (s : CustomServer) (client : connection) (text : Str)
    (h : client.isConnected = true) :
    s.SendMessageToClient (some client) text
      = { s with sent := s.sent ++ [(client.id, serverMessage text)] } := by
  simp [CustomServer.SendMessageToClient, CustomServer.send, h]

/-- A frame of a kind that needs a login, from a connection without a registry
entry: the only effect is the error message, sent when the socket is open. -/
theorem onMessage_not_logged_in (env : Env) (s : CustomServer) (client : connection)
    (msg : message) (hkind : requiresLogin msg.header.id = true)
    (hnot : mapFind s.authenticatedUsers client.id = none) :
    s.onMessage env client msg
      = s.SendMessageToClient (some client) (loginErrorText msg.header.id) := by
  unfold requiresLogin at hkind
  simp only [decide_eq_true_eq] at hkind
  rcases hkind with h | h | h | h | h | h <;>
    simp [CustomServer.onMessage, h, loginErrorText, CustomServer.onGlobalMessage,
      CustomServer.onGlobalChatHistoryRequest, CustomServer.onChatRequest,
      CustomServer.onChatResponse, CustomServer.onChatHistoryRequest,
      CustomServer.onDirectMessage, message.reset_read_position, hnot]

/-- A frame of a kind for which the switch has no case changes nothing. -/
theorem onMessage_unknown_kind (env : Env) (s : CustomServer) (client : connection)
    (msg : message) (hkind : requiresLogin msg.header.id = false)
    (h1 : msg.header.id ≠ CustomMsgTypes.RegisterRequest)
    (h2 : msg.header.id ≠ CustomMsgTypes.LoginRequest)
    (h3 : msg.header.id ≠ CustomMsgTypes.RequestClientList) :
    s.onMessage env client msg = s := by
  unfold requiresLogin at hkind
  simp only [decide_eq_false_iff_not, not_or] at hkind
  obtain ⟨k1, k2, k3, k4, k5, k6⟩ := hkind
  simp [CustomServer.onMessage, k1, k2, k3, k4, k5, k6, h1, h2, h3]

/-! ## Claim C9 -/

/-- C9: a `DirectMessage` frame from a connection that has no registry entry (its
socket open), whatever its body, makes the server send that connection
exactly one `ServerMessage`, whose text starts with
"Error: You must be logged in"; nothing is sent to any other connection, no
chat log file is written, and nothing else of the server changes. -/
theorem directMessage_not_logged_in (env : Env) (s : CustomServer) (client : connection)
    (msg : message) (hkind : msg.header.id = CustomMsgTypes.DirectMessage)
    (hnot : mapFind s.authenticatedUsers client.id = none)
    (hopen : client.isConnected = true) :
    (s.onMessage env client msg).sent
      = s.sent ++ [(client.id,
          serverMessage (str "Error: You must be logged in to send private messages"))] ∧
    (serverMessage (str "Error: You must be logged in to send private messages")).header.id
      = CustomMsgTypes.ServerMessage ∧
    (serverMessage (str "Error: You must be logged in to send private messages")).body
      = leBytes 4 53 ++ str "Error: You must be logged in to send private messages" ∧
    str "Error: You must be logged in"
      <+: str "Error: You must be logged in to send private messages" ∧
    (s.onMessage env client msg).chatFiles = s.chatFiles ∧
    (s.onMessage env client msg).userManager = s.userManager ∧
    (s.onMessage env client msg).authenticatedUsers = s.authenticatedUsers ∧
    (s.onMessage env client msg).userToClientMap = s.userToClientMap := by
  have hk : requiresLogin msg.header.id = true := by rw [hkind]; rfl
  rw [onMessage_not_logged_in env s client msg hk hnot,
    SendMessageToClient_connected _ _ _ hopen, hkind]
  refine ⟨rfl, rfl, by decide, by decide, rfl, rfl, rfl, rfl⟩

/-- C9 at a concrete server: connection 10000 has not logged in and sends a
`DirectMessage` for user 10002 with the text "hi". -/
theorem directMessage_not_logged_in_witness :
    ((frame CustomMsgTypes.DirectMessage (leBytes 4 10002 ++ wireString (str "hi"))).header.id
        = CustomMsgTypes.DirectMessage ∧
      mapFind exampleServer.authenticatedUsers (openConnection 10000).id = none ∧
      (openConnection 10000).isConnected = true) ∧
    (exampleServer.onMessage exampleEnv (openConnection 10000)
        (frame CustomMsgTypes.DirectMessage (leBytes 4 10002 ++ wireString (str "hi")))).sent
      = exampleServer.sent ++ [(10000,
          serverMessage (str "Error: You must be logged in to send private messages"))] :=
  ⟨⟨rfl, rfl, rfl⟩,
   (directMessage_not_logged_in exampleEnv exampleServer (openConnection 10000)
      (frame CustomMsgTypes.DirectMessage (leBytes 4 10002 ++ wireString (str "hi")))
      rfl rfl rfl).1⟩

/-! ## Claim C8 -/

/-- C8, as stated, fails: connection 10000 has no registry entry and its socket is
open; it sends a frame of kind `ServerPing`, which is none of
`RegisterRequest`, `LoginRequest`, `RequestClientList`.  The switch has no
case for it, so the server sends nothing at all: the frame is not answered
with a `ServerMessage`. -/
theorem unhandled_kind_not_answered :
    mapFind exampleServer.authenticatedUsers (openConnection 10000).id = none ∧
    (openConnection 10000).isConnected = true ∧
    (frame CustomMsgTypes.ServerPing []).header.id ≠ CustomMsgTypes.RegisterRequest ∧
    (frame CustomMsgTypes.ServerPing []).header.id ≠ CustomMsgTypes.LoginRequest ∧
    (frame CustomMsgTypes.ServerPing []).header.id ≠ CustomMsgTypes.RequestClientList ∧
    (exampleServer.onMessage exampleEnv (openConnection 10000) (frame CustomMsgTypes.ServerPing [])).sent
      = exampleServer.sent ∧
    ¬ ∃ m : message,
      (10000, m) ∈ ((exampleServer.onMessage exampleEnv (openConnection 10000)
        (frame CustomMsgTypes.ServerPing [])).sent.drop exampleServer.sent.length) := by
  refine ⟨rfl, rfl, by decide, by decide, by decide, rfl, ?_⟩
  rintro ⟨m, hm⟩
  have h : (exampleServer.onMessage exampleEnv (openConnection 10000)
      (frame CustomMsgTypes.ServerPing [])).sent = exampleServer.sent := rfl
  rw [h, List.drop_length] at hm
  exact absurd hm (List.not_mem_nil _)

/-- C8, amended: for a connection that has no registry entry, a frame of a kind
other than `RegisterRequest`, `LoginRequest` and `RequestClientList` changes
neither the registry, the user store nor the chat log files.  When the kind is
one of `GlobalMessage`, `GlobalChatHistoryRequest`, `ChatRequest`,
`ChatResponse`, `ChatHistoryRequest`, `DirectMessage` and the socket is open,
the only message sent is one `ServerMessage` to that connection, whose text
starts with "Error: You must be logged in"; otherwise nothing is sent. -/
theorem not_logged_in_frame (env : Env) (s : CustomServer) (client : connection) (msg : message)
    (hnot : mapFind s.authenticatedUsers client.id = none)
    (h1 : msg.header.id ≠ CustomMsgTypes.RegisterRequest)
    (h2 : msg.header.id ≠ CustomMsgTypes.LoginRequest)
    (h3 : msg.header.id ≠ CustomMsgTypes.RequestClientList) :
    (s.onMessage env client msg).authenticatedUsers = s.authenticatedUsers ∧
    (s.onMessage env client msg).userToClientMap = s.userToClientMap ∧
    (s.onMessage env client msg).userManager = s.userManager ∧
    (s.onMessage env client msg).chatFiles = s.chatFiles ∧
    ((requiresLogin msg.header.id = true ∧ client.isConnected = true) →
      (s.onMessage env client msg).sent
        = s.sent ++ [(client.id, serverMessage (loginErrorText msg.header.id))] ∧
      str "Error: You must be logged in" <+: loginErrorText msg.header.id) ∧
    (¬ (requiresLogin msg.header.id = true ∧ client.isConnected = true) →
      (s.onMessage env client msg).sent = s.sent) := by
  cases hk : requiresLogin msg.header.id with
  | false =>
    rw [onMessage_unknown_kind env s client msg hk h1 h2 h3]
    simp
  | true =>
    rw [onMessage_not_logged_in env s client msg hk hnot]
    cases hc : client.isConnected with
    | false => simp [CustomServer.SendMessageToClient, hc]
    | true =>
      rw [SendMessageToClient_connected _ _ _ hc]
      refine ⟨rfl, rfl, rfl, rfl, fun _ => ⟨rfl, ?_⟩, fun h => absurd ⟨rfl, rfl⟩ h⟩
      unfold requiresLogin at hk
      simp only [decide_eq_true_eq] at hk
      rcases hk with h | h | h | h | h | h <;> rw [h] <;> decide

/-- C8, amended, at a concrete server: connection 10000 has not logged in and
sends a `ChatRequest`; it gets the error and the registry stays empty. -/
theorem not_logged_in_frame_witness :
    (mapFind exampleServer.authenticatedUsers (openConnection 10000).id = none ∧
      (frame CustomMsgTypes.ChatRequest (leBytes 4 10002)).header.id
        ≠ CustomMsgTypes.RegisterRequest ∧
      (frame CustomMsgTypes.ChatRequest (leBytes 4 10002)).header.id
        ≠ CustomMsgTypes.LoginRequest ∧
      (frame CustomMsgTypes.ChatRequest (leBytes 4 10002)).header.id
        ≠ CustomMsgTypes.RequestClientList) ∧
    (exampleServer.onMessage exampleEnv (openConnection 10000)
        (frame CustomMsgTypes.ChatRequest (leBytes 4 10002))).sent
      = exampleServer.sent ++ [(10000,
          serverMessage (str "Error: You must be logged in to send chat requests"))] :=
  ⟨⟨rfl, by decide, by decide, by decide⟩,
   ((not_logged_in_frame exampleEnv exampleServer (openConnection 10000)
      (frame CustomMsgTypes.ChatRequest (leBytes 4 10002)) rfl (by decide) (by decide)
      (by decide)).2.2.2.2.1 ⟨rfl, rfl⟩).1⟩

/-! ## Lemmas on the maps of the registry -/

theorem mapFind_cons {K V : Type} [DecidableEq K] (p : K × V) (m : List (K × V)) (k : K) :
    mapFind (p :: m) k = if p.1 = k then some p.2 else mapFind m k := by
  unfold mapFind
  by_cases h : p.1 = k <;> simp [List.find?, h]

theorem mapFind_mapErase_self {K V : Type} [DecidableEq K] (m : List (K × V)) (k : K) :
    mapFind (mapErase m k) k = none := by
  induction m with
  | nil => rfl
  | cons p m ih =>
    unfold mapErase at ih ⊢
    by_cases h : p.1 = k
    · simpa [List.filter, h] using ih
    · simp only [List.filter, h, decide_False, Bool.not_false]
      rw [mapFind_cons, if_neg h]
      exact ih

theorem mapFind_mapErase_ne {K V : Type} [DecidableEq K] (m : List (K × V)) (k k' : K)
    (hne : k' ≠ k) : mapFind (mapErase m k) k' = mapFind m k' := by
  induction m with
  | nil => rfl
  | cons p m ih =>
    unfold mapErase at ih ⊢
    by_cases h : p.1 = k
    · have hp : p.1 ≠ k' := fun h' => hne (h'.symm.trans h)
      simp only [List.filter, h, decide_True, Bool.not_true]
      rw [mapFind_cons, if_neg hp]
      exact ih
    · simp only [List.filter, h, decide_False, Bool.not_false]
      rw [mapFind_cons, mapFind_cons, ih]

theorem getClientByID_id (conns : List connection) (id : Nat) (c : connection)
    (h : getClientByID conns id = some c) : c.id = id := by
  unfold getClientByID at h
  simpa using List.find?_some h

/-! ## Lemmas on reading and writing strings -/

theorem readChars_text (uninit : Nat) (text : Str) (msg : message) (pre suf acc : List Nat)
    (hb : msg.body = pre ++ text ++ suf) (hp : msg.readPos = pre.length) :
    readChars uninit text.length msg acc
      = ({ msg with readPos := pre.length + text.length }, acc ++ text) := by
  induction text generalizing msg pre acc with
  | nil =>
    simp only [List.length_nil, readChars, Nat.add_zero, List.append_nil]
    rw [← hp]
  | cons c cs ih =>
    have hlen : msg.readPos + 1 ≤ msg.body.length := by rw [hb, hp]; simp
    have hval : leValue ((msg.body.drop msg.readPos).take 1) = c := by
      rw [hb, hp, List.append_assoc, List.drop_left]
      simp [leValue]
    have hex : msg.extract 1 uninit = ({ msg with readPos := pre.length + 1 }, c) := by
      unfold message.extract
      rw [if_pos hlen, hval, hp]
    have hb2 : ({ msg with readPos := pre.length + 1 } : message).body
        = (pre ++ [c]) ++ cs ++ suf := by
      show msg.body = _
      rw [hb]; simp
    have hp2 : ({ msg with readPos := pre.length + 1 } : message).readPos
        = (pre ++ [c]).length := by simp
    have h2 := ih { msg with readPos := pre.length + 1 } (pre ++ [c]) (acc ++ [c]) hb2 hp2
    simp only [List.length_cons, readChars, hex]
    rw [h2]
    simp [Nat.add_assoc, Nat.add_comm 1]

/-- Reading a length-prefixed string that sits at the cursor. -/
theorem read_wireString (uninit : Nat) (text : Str) (hlen : text.length < 2 ^ 32) (msg : message)
    (pre suf : List Nat) (hb : msg.body = pre ++ wireString text ++ suf)
    (hp : msg.readPos = pre.length) :
    (msg.extract 4 0).2 = text.length ∧
    readChars uninit text.length (msg.extract 4 0).1 []
      = ({ msg with readPos := pre.length + (wireString text).length }, text) := by
  have h256 : text.length < 256 ^ 4 := by norm_num at hlen ⊢; exact hlen
  have hb1 : msg.body = pre ++ leBytes 4 text.length ++ (text ++ suf) := by
    rw [hb]; simp [wireString]
  have h1 := extract_at 4 text.length 0 h256 msg pre _ hb1 hp
  have hb2 : ({ msg with readPos := pre.length + 4 } : message).body
      = (pre ++ leBytes 4 text.length) ++ text ++ suf := by
    show msg.body = _
    rw [hb1]; simp
  have hp2 : ({ msg with readPos := pre.length + 4 } : message).readPos
      = (pre ++ leBytes 4 text.length).length := by simp [leBytes_length]
  have h2 := readChars_text uninit text _ _ suf [] hb2 hp2
  rw [h1]
  refine ⟨rfl, ?_⟩
  rw [h2]
  simp [wireString, leBytes_length, Nat.add_assoc]

theorem appendChars_body (text : Str) (msg : message) :
    (appendChars msg text).body = msg.body ++ text.map (fun c => c % 256) := by
  induction text generalizing msg with
  | nil => simp [appendChars]
  | cons c cs ih =>
    have := ih (msg.append 1 c)
    simp only [appendChars, List.foldl_cons] at this ⊢
    rw [this]
    simp [append_body, leBytes]

theorem appendChars_id (text : Str) (msg : message) :
    (appendChars msg text).header.id = msg.header.id := by
  induction text generalizing msg with
  | nil => rfl
  | cons c cs ih =>
    have := ih (msg.append 1 c)
    simp only [appendChars, List.foldl_cons] at this ⊢
    rw [this]
    rfl

theorem map_mod_bytes (text : Str) (h : ∀ c ∈ text, c < 256) :
    text.map (fun c => c % 256) = text := by
  induction text with
  | nil => rfl
  | cons c cs ih =>
    have hc : c < 256 := h c (List.mem_cons_self _ _)
    simp only [List.map_cons, Nat.mod_eq_of_lt hc]
    rw [ih (fun x hx => h x (List.mem_cons_of_mem _ hx))]

/-- The body that `packString` produces for a text of bytes shorter than 2^32:
the bytes before, then the length-prefixed string. -/
theorem packString_body (msg : message) (text : Str) (hlen : text.length < 2 ^ 32)
    (hbytes : ∀ c ∈ text, c < 256) :
    (packString msg text).body = msg.body ++ wireString text := by
  unfold packString
  rw [appendChars_body, append_body, map_mod_bytes text hbytes, Nat.mod_eq_of_lt hlen]
  simp [wireString]

theorem packString_id (msg : message) (text : Str) :
    (packString msg text).header.id = msg.header.id := by
  unfold packString
  rw [appendChars_id]
  rfl

/-! ## Claim C5 -/

/-- C2 on the code: from the empty registry, connection 10000 registers alice and
bob, logs in as alice and then logs in as bob.  The second login installs
bob on connection 10000 and leaves alice's entry of `userToClientMap` in
place: that map still sends alice to 10000 while `authenticatedUsers` sends
10000 to bob, so the two maps are not mutually inverse. -/
theorem relogin_breaks_registry :
    exampleServer.authenticatedUsers = [] ∧ exampleServer.userToClientMap = [] ∧
    (exampleServer.run exampleEnv reloginTrace).authenticatedUsers = [(10000, str "bob")] ∧
    (exampleServer.run exampleEnv reloginTrace).userToClientMap
      = [(str "alice", 10000), (str "bob", 10000)] ∧
    ¬ registryConsistent (exampleServer.run exampleEnv reloginTrace) := by
  refine ⟨rfl, rfl, by decide, by decide, ?_⟩
  intro h
  have h1 : mapFind (exampleServer.run exampleEnv reloginTrace).userToClientMap (str "alice")
      = some 10000 := by decide
  have h2 := (h 10000 (str "alice")).2 h1
  have h3 : mapFind (exampleServer.run exampleEnv reloginTrace).authenticatedUsers 10000
      = some (str "bob") := by decide
  rw [h3] at h2
  exact absurd h2 (by decide)

/-! ## Claim C10 -/

/-- C10 on the code: the username "ab" breaks the username rules and the password
"x" breaks the password rules, and "ab" is not in the store; yet the
`RegisterRequest` adds the record (id 10001) and is answered with a
`RegisterResponse` whose success flag is 1.  The handler never calls
`validateUsername` or `validatePassword`. -/
theorem register_skips_validation :
    (validateUsername (str "ab") []).1 = false ∧
    (validatePassword (str "x") []).1 = false ∧
    (exampleServer.userManager.doesUserExist (str "ab")).2 = false ∧
    (exampleServer.onMessage exampleEnv (openConnection 10000)
        (registerFrame (str "ab") (str "x") (str "a@x"))).userManager.users.map
        (fun user => (user.id, user.username, user.password_hash))
      = [(10001, str "ab", str "x")] ∧
    (exampleServer.onMessage exampleEnv (openConnection 10000)
        (registerFrame (str "ab") (str "x") (str "a@x"))).sent
      = exampleServer.sent ++
        [(10000, responseMessage CustomMsgTypes.RegisterResponse true
          (str "Registration successful. Welcome, ab!"))] ∧
    (responseMessage CustomMsgTypes.RegisterResponse true
        (str "Registration successful. Welcome, ab!")).body.head? = some 1 := by
  refine ⟨by decide, by decide, by decide, by decide, by decide, by decide⟩

/-! ## Lemmas on the user store with its file present -/

theorem loadUsers_of_file (m : UserManager) (doc : UsersDocument)
    (h : m.database_file = some doc) :
    m.loadUsers.1.database_file = some doc ∧
    m.loadUsers.1.users = doc.users.map UserRecord.toUser ∧
    m.loadUsers.1.loadUsers.1 = m.loadUsers.1 := by
  have h1 : m.loadUsers.1 =
      { m with users := doc.users.map UserRecord.toUser,
               last_user_id :=
                 (doc.users.map UserRecord.toUser).foldl raiseLastUserID
                   (doc.last_user_id % 2 ^ 32) } := by
    unfold UserManager.loadUsers
    rw [h]
  refine ⟨by rw [h1]; exact h, by rw [h1], ?_⟩
  rw [h1]
  unfold UserManager.loadUsers
  simp only [h]

theorem getUserID_of_file (m : UserManager) (doc : UsersDocument)
    (h : m.database_file = some doc) (username : Str) :
    m.getUserID username = (m.loadUsers.1, doc.userID username) := by
  unfold UserManager.getUserID UsersDocument.userID
  rw [(loadUsers_of_file m doc h).2.1]
  cases findUser (doc.users.map UserRecord.toUser) username <;> rfl

theorem getUserID_loaded (m : UserManager) (doc : UsersDocument)
    (h : m.database_file = some doc) (username : Str) :
    m.loadUsers.1.getUserID username = (m.loadUsers.1, doc.userID username) := by
  rw [getUserID_of_file _ doc (loadUsers_of_file m doc h).1, (loadUsers_of_file m doc h).2.2]

/-- With the file present, the loop that looks for the recipient returns the
first session whose user has the id. -/
theorem findRecipient_loaded (m : UserManager) (doc : UsersDocument)
    (h : m.database_file = some doc) (recipientUserID : Nat) (sessions : List (Nat × Str)) :
    findRecipient recipientUserID m.loadUsers.1 sessions
      = (m.loadUsers.1,
         sessions.find? (fun p => decide (doc.userID p.2 = recipientUserID))) := by
  induction sessions with
  | nil => rfl
  | cons p rest ih =>
    obtain ⟨clientID, username⟩ := p
    unfold findRecipient
    rw [getUserID_loaded m doc h]
    by_cases hid : doc.userID username = recipientUserID
    · rw [if_pos hid, List.find?_cons_of_pos _ (by simpa using hid)]
    · rw [if_neg hid, List.find?_cons_of_neg _ (by simpa using hid)]
      exact ih

theorem find?_unique {α : Type} (q : α → Bool) (l : List α) (x : α) (hx : x ∈ l)
    (hq : q x = true) (huniq : ∀ y ∈ l, q y = true → y = x) : l.find? q = some x := by
  induction l with
  | nil => exact absurd hx (List.not_mem_nil _)
  | cons y ys ih =>
    by_cases hy : q y = true
    · have := huniq y (List.mem_cons_self _ _) hy
      rw [List.find?_cons_of_pos _ hy, this]
    · have hne : x ≠ y := fun e => hy (e ▸ hq)
      have hx' : x ∈ ys := by
        rcases List.mem_cons.1 hx with e | e
        · exact absurd e hne
        · exact e
      rw [List.find?_cons_of_neg _ hy]
      exact ih hx' (fun z hz => huniq z (List.mem_cons_of_mem _ hz))

theorem find?_none_of_forall {α : Type} (q : α → Bool) (l : List α)
    (h : ∀ y ∈ l, q y = false) : l.find? q = none := by
  rw [List.find?_eq_none]
  intro y hy
  simp [h y hy]

/-! ## Lemmas on the files of the chat logs -/

theorem read_write_self (fs : FileSystem) (name content : Str) :
    (fs.write name content).read name = some content := by
  unfold FileSystem.read FileSystem.write
  rw [mapFind_cons]
  simp

theorem read_write_other (fs : FileSystem) (name content other : Str) (h : other ≠ name) :
    (fs.write name content).read other = fs.read other := by
  have hne : ¬ name = other := fun e => h e.symm
  unfold FileSystem.read FileSystem.write
  rw [mapFind_cons]
  simp only [hne, if_false]
  exact mapFind_mapErase_ne _ _ _ h

theorem write_writable (fs : FileSystem) (name content : Str) :
    (fs.write name content).writable = fs.writable := rfl

theorem strInsert_split (s : Str) (pos : Nat) (t : Str) :
    s = s.take pos ++ s.drop pos ∧ strInsert s pos t = s.take pos ++ t ++ s.drop pos :=
  ⟨(List.take_append_drop pos s).symm, rfl⟩

/-! ## Lemmas on the broadcast loop -/

theorem broadcastTargets_cons (conns : List connection) (client : connection) (clientID : Nat)
    (username : Str) (rest : List (Nat × Str)) :
    broadcastTargets conns client ((clientID, username) :: rest)
      = if clientID ≠ client.id ∧ sessionOpen conns clientID = true then
          clientID :: broadcastTargets conns client rest
        else broadcastTargets conns client rest := by
  unfold broadcastTargets
  by_cases hc : clientID = client.id
  · simp [List.filter_cons, hc]
  · cases ho : sessionOpen conns clientID <;> simp [List.filter_cons, hc, ho]

theorem sendToOthers_eq (client : connection) (globalMsg : message) (sessions : List (Nat × Str))
    (s : CustomServer) :
    s.sendToOthers client globalMsg sessions
      = { s with
          sent :=
            s.sent ++
              (broadcastTargets s.m_deqConnections client sessions).map
                (fun c => (c, globalMsg)) } := by
  induction sessions generalizing s with
  | nil => simp [CustomServer.sendToOthers, broadcastTargets]
  | cons p rest ih =>
    obtain ⟨clientID, username⟩ := p
    unfold CustomServer.sendToOthers
    rw [broadcastTargets_cons]
    by_cases hc : clientID = client.id
    · simp only [hc, ne_eq, not_true_eq_false, if_false, false_and]
      rw [ih]
    · simp only [hc, ne_eq, not_false_eq_true, if_true, true_and]
      cases hg : getClientByID s.m_deqConnections clientID with
      | none =>
        have hso : sessionOpen s.m_deqConnections clientID = false := by
          simp [sessionOpen, hg]
        simp only [hso, Bool.false_eq_true, if_false]
        rw [ih]
      | some recipient =>
        have hid := getClientByID_id _ _ _ hg
        cases ho : recipient.isConnected with
        | false =>
          have hso : sessionOpen s.m_deqConnections clientID = false := by
            simp [sessionOpen, hg, ho]
          simp only [hso, ho, Bool.false_eq_true, if_false]
          rw [ih]
        | true =>
          have hso : sessionOpen s.m_deqConnections clientID = true := by
            simp [sessionOpen, hg, ho]
          simp only [hso, ho, if_true]
          rw [ih]
          simp [CustomServer.send, hid]

/-! ## Lemmas on the two save methods -/

theorem strInsert_insertedInto (old object : Str) (pos : Nat) :
    insertedInto old object (strInsert old pos (str ",\n" ++ object ++ str "\n")) ∧
    insertedInto old object (strInsert old pos (object ++ str "\n")) := by
  refine ⟨⟨old.take pos, old.drop pos, str ",\n", (List.take_append_drop pos old).symm, ?_,
      Or.inr rfl⟩,
    ⟨old.take pos, old.drop pos, [], (List.take_append_drop pos old).symm, ?_, Or.inl rfl⟩⟩
  · simp [strInsert]
  · simp [strInsert]

theorem appendChatMessage_insertedInto (old object : Str)
    (h1 : strRfind old (str "  ]") npos ≠ npos)
    (h2 : strFind old (str "\"messages\": [") 0 ≠ npos) :
    insertedInto old object (appendChatMessage old object) := by
  unfold appendChatMessage
  rw [if_pos h1, if_pos h2]
  split
  · exact (strInsert_insertedInto old object _).1
  · exact (strInsert_insertedInto old object _).2

/-- What `saveChatMessage` does to the files when they can be written: only the
file of the pair changes; an absent or empty file becomes a new document with
the one message; a file that is extendable gets the message inserted. -/
theorem saveChatMessage_effect (env : Env) (fs : FileSystem) (a : Str) (aid : Nat) (b : Str)
    (bid : Nat) (text : Str) (hw : fs.writable = true) :
    (∀ other : Str, other ≠ generateChatFileName a b →
      (saveChatMessage env fs a aid b bid text).read other = fs.read other) ∧
    (fs.existingContent (generateChatFileName a b) = [] →
      (saveChatMessage env fs a aid b bid text).read (generateChatFileName a b)
        = some (newChatDocument env (sortedNames a b) a b
            (chatMessageObject env (sortedNames a b) a aid b bid (escapeMessageText text)))) ∧
    (fs.existingContent (generateChatFileName a b) ≠ [] →
      chatLogExtendable env (fs.existingContent (generateChatFileName a b)) →
      ∃ new : Str,
        (saveChatMessage env fs a aid b bid text).read (generateChatFileName a b) = some new ∧
        insertedInto (fs.existingContent (generateChatFileName a b))
          (chatMessageObject env (sortedNames a b) a aid b bid (escapeMessageText text)) new) := by
  refine ⟨?_, ?_, ?_⟩
  · intro other hother
    unfold saveChatMessage
    simp only [hw, if_true]
    split
    · exact read_write_other _ _ _ _ hother
    · split
      · exact read_write_other _ _ _ _ hother
      · exact read_write_other _ _ _ _ hother
  · intro hempty
    unfold saveChatMessage
    simp only [hw, if_true, hempty]
    exact read_write_self _ _ _
  · intro hne hext
    obtain ⟨hjson, hend, hstart⟩ := hext
    refine ⟨appendChatMessage (fs.existingContent (generateChatFileName a b))
      (chatMessageObject env (sortedNames a b) a aid b bid (escapeMessageText text)), ?_,
      appendChatMessage_insertedInto _ _ hend hstart⟩
    unfold saveChatMessage
    simp only [hw, if_true, hne, if_false, hjson]
    exact read_write_self _ _ _

theorem appendGlobalMessage_insertedInto (env : Env) (old object : Str)
    (h1 : strRfind old (str "  ]\n\x7d") npos ≠ npos) :
    insertedInto old object (appendGlobalMessage env old object) := by
  unfold appendGlobalMessage
  rw [if_pos h1]
  split
  · exact (strInsert_insertedInto old object _).1
  · exact (strInsert_insertedInto old object _).2

/-- What `saveGlobalMessage` does to the files when they can be written: only the
file of the global chat changes; an absent or empty file becomes a new
document with the one message; a file that is extendable gets the message
inserted. -/
theorem saveGlobalMessage_effect (env : Env) (fs : FileSystem) (a : Str) (aid : Nat)
    (text : Str) (hw : fs.writable = true) :
    (∀ other : Str, other ≠ globalChatFile →
      (saveGlobalMessage env fs a aid text).read other = fs.read other) ∧
    (fs.existingContent globalChatFile = [] →
      (saveGlobalMessage env fs a aid text).read globalChatFile
        = some (newGlobalDocument env (globalMessageObject env a aid text))) ∧
    (fs.existingContent globalChatFile ≠ [] →
      globalLogExtendable (fs.existingContent globalChatFile) →
      ∃ new : Str,
        (saveGlobalMessage env fs a aid text).read globalChatFile = some new ∧
        insertedInto (fs.existingContent globalChatFile) (globalMessageObject env a aid text)
          new) := by
  refine ⟨?_, ?_, ?_⟩
  · intro other hother
    unfold saveGlobalMessage
    simp only [hw, if_true]
    split
    · exact read_write_other _ _ _ _ hother
    · exact read_write_other _ _ _ _ hother
  · intro hempty
    unfold saveGlobalMessage
    simp only [hw, if_true, hempty, true_or, or_true]
    exact read_write_self _ _ _
  · intro hne hext
    obtain ⟨hmsgs, hend⟩ := hext
    have hread : (fs.read globalChatFile).isNone = false := by
      cases hr : fs.read globalChatFile with
      | none => simp [FileSystem.existingContent, hr] at hne
      | some c => rfl
    refine ⟨appendGlobalMessage env (fs.existingContent globalChatFile)
      (globalMessageObject env a aid text), ?_, appendGlobalMessage_insertedInto env _ _ hend⟩
    unfold saveGlobalMessage
    simp only [hw, if_true, hread, hne, hmsgs, Bool.false_eq_true, false_or, if_false]
    exact read_write_self _ _ _

/-! ## The `DirectMessage` case: reading, size check and delivery -/

theorem onMessage_direct (env : Env) (s : CustomServer) (client : connection) (msg : message)
    (hkind : msg.header.id = CustomMsgTypes.DirectMessage) :
    s.onMessage env client msg = s.onDirectMessage env client msg.reset_read_position := by
  simp [CustomServer.onMessage, hkind]

theorem direct_frame_read (uninit : Nat) (msg : message) (rid : Nat) (text : Str)
    (hbody : msg.body = leBytes 4 rid ++ wireString text) (hrid : rid < 2 ^ 32)
    (hlen : text.length < 2 ^ 32) (hpos : msg.readPos = 0) :
    (msg.extract 4 0).2 = rid ∧ ((msg.extract 4 0).1.extract 4 0).2 = text.length ∧
    (readChars uninit text.length ((msg.extract 4 0).1.extract 4 0).1 []).2 = text := by
  have h256 : rid < 256 ^ 4 := by norm_num at hrid ⊢; exact hrid
  have hb1 : msg.body = [] ++ leBytes 4 rid ++ wireString text := by rw [hbody]; rfl
  have h1 := extract_at 4 rid 0 h256 msg [] _ hb1 hpos
  have hb2 : ({ msg with readPos := ([] : List Nat).length + 4 } : message).body
      = leBytes 4 rid ++ wireString text ++ [] := by
    show msg.body = _
    rw [hbody]; simp
  have h2 := read_wireString uninit text hlen
    { msg with readPos := ([] : List Nat).length + 4 } (leBytes 4 rid) [] hb2
    (by simp [leBytes_length])
  rw [h1]
  exact ⟨rfl, h2.1, by rw [h2.2]⟩

/-- A direct message whose text is longer than 10000 bytes: the handler stops
after reading the size; only the user store has been reloaded. -/
theorem onDirectMessage_too_long (env : Env) (s : CustomServer) (client : connection)
    (msg : message) (sname : Str) (rid : Nat) (text : Str)
    (hsender : mapFind s.authenticatedUsers client.id = some sname)
    (hbody : msg.body = leBytes 4 rid ++ wireString text) (hrid : rid < 2 ^ 32)
    (hlen : text.length < 2 ^ 32) (hlong : 10000 < text.length) (hpos : msg.readPos = 0) :
    s.onDirectMessage env client msg
      = { s with userManager := (s.userManager.getUserID sname).1 } := by
  obtain ⟨_, h2, _⟩ := direct_frame_read env.uninitChar msg rid text hbody hrid hlen hpos
  unfold CustomServer.onDirectMessage
  simp only [hsender, h2, hlong, if_true]

/-- A direct message of at most 10000 bytes from a logged-in sender, with the
database file present: the handler resolves the recipient as the first
session whose user has the id, and either saves, forwards and confirms, or
reports the error. -/
theorem onDirectMessage_resolved (env : Env) (s : CustomServer) (client : connection)
    (msg : message) (doc : UsersDocument) (sname : Str) (rid : Nat) (text : Str)
    (hfile : s.userManager.database_file = some doc)
    (hsender : mapFind s.authenticatedUsers client.id = some sname)
    (hbody : msg.body = leBytes 4 rid ++ wireString text) (hrid : rid < 2 ^ 32)
    (hlen : text.length ≤ 10000) (hpos : msg.readPos = 0) :
    s.onDirectMessage env client msg =
      match connectedRecipient s.m_deqConnections
          (s.authenticatedUsers.find? (fun p => decide (doc.userID p.2 = rid))) with
      | some (recipient, rname) =>
        (({ s with
              userManager := s.userManager.loadUsers.1,
              chatFiles := saveChatMessage env s.chatFiles sname (doc.userID sname) rname rid
                text } : CustomServer).send recipient
            (packString ((newMsg CustomMsgTypes.DirectMessage).append 4 (doc.userID sname))
              text)).SendMessageToClient (some client)
          (str "Your message has been delivered to " ++ rname)
      | none =>
        ({ s with userManager := s.userManager.loadUsers.1 } : CustomServer).SendMessageToClient
          (some client)
          (str "Error: User with ID #" ++ to_string rid ++ str " not found or offline") := by
  have hlen' : text.length < 2 ^ 32 := by
    have : (10000 : Nat) < 2 ^ 32 := by norm_num
    omega
  obtain ⟨h1, h2, h3⟩ := direct_frame_read env.uninitChar msg rid text hbody hrid hlen' hpos
  have hnot : ¬ text.length > 10000 := by omega
  unfold CustomServer.onDirectMessage
  simp only [hsender, h1, h2, h3, hnot, if_false, getUserID_of_file _ doc hfile,
    findRecipient_loaded _ doc hfile]

/-- The size check of the `DirectMessage` case at a concrete server: alice (user
10001, connection 10000) and bob (user 10002, connection 10001, connected)
are logged in, and alice sends bob a `DirectMessage` with a well-formed body
whose text has 10001 bytes.  The handler drops it at its size check: nothing
is sent to bob, alice gets neither a confirmation nor a `ServerMessage`
starting with "Error:", and no file is written. -/
theorem long_direct_message_dropped :
    mapFind bothOnline.authenticatedUsers (openConnection 10000).id = some (str "alice") ∧
    mapFind bothOnline.authenticatedUsers 10001 = some (str "bob") ∧
    (bothOnline.userManager.getUserID (str "bob")).2 = 10002 ∧
    sessionOpen bothOnline.m_deqConnections 10001 = true ∧
    (directFrame 10002 (List.replicate 10001 97)).body
      = leBytes 4 10002 ++ wireString (List.replicate 10001 97) ∧
    (bothOnline.onMessage exampleEnv (openConnection 10000)
        (directFrame 10002 (List.replicate 10001 97))).sent = bothOnline.sent ∧
    (bothOnline.onMessage exampleEnv (openConnection 10000)
        (directFrame 10002 (List.replicate 10001 97))).chatFiles = bothOnline.chatFiles := by
  have hs : mapFind bothOnline.authenticatedUsers (openConnection 10000).id
      = some (str "alice") := by decide
  have h := onDirectMessage_too_long exampleEnv bothOnline (openConnection 10000)
    (directFrame 10002 (List.replicate 10001 97)).reset_read_position (str "alice") 10002
    (List.replicate 10001 97) hs rfl (by norm_num)
    (by rw [List.length_replicate]; norm_num) (by rw [List.length_replicate]; norm_num) rfl
  rw [onMessage_direct _ _ _ _ rfl, h]
  exact ⟨hs, by decide, by decide, by decide, rfl, rfl, rfl⟩

/-- The delivery path of the `DirectMessage` case in a registry where at most one
session carries the user id of the recipient.  A `DirectMessage` with a
well-formed body (recipient id, length, that many text bytes) of at most
10000 text bytes arrives from an open connection that is logged in as
`sname`; the database file is present.

If the recipient id is the user id of a user `r` attached to a session whose
connection is in the deque and connected (and no other attached name has that
id), the server calls `saveChatMessage` once for `sname` and `r`, which, the
files being writable, inserts the message object into the log of the pair (a
new document for an absent or empty file, an insertion that keeps the old
text for an extendable file) and touches no other file; it sends the
connection of `r` a `DirectMessage` whose body is the user id of `sname`, the
text length and the text unchanged; and it sends the sender the
`ServerMessage` "Your message has been delivered to r".

If no attached session has that user id, the sender gets one `ServerMessage`
whose text starts with "Error:", and nothing is saved or forwarded. -/
theorem direct_message_delivery (env : Env) (s : CustomServer) (client : connection)
    (msg : message) (doc : UsersDocument) (sname : Str) (rid : Nat) (text : Str)
    (hkind : msg.header.id = CustomMsgTypes.DirectMessage)
    (hbody : msg.body = leBytes 4 rid ++ wireString text)
    (hrid : rid < 2 ^ 32) (hlen : text.length ≤ 10000) (hbytes : ∀ c ∈ text, c < 256)
    (hfile : s.userManager.database_file = some doc)
    (hsender : mapFind s.authenticatedUsers client.id = some sname)
    (hopen : client.isConnected = true) :
    (∀ (cr : Nat) (r : Str) (rc : connection),
      (cr, r) ∈ s.authenticatedUsers → doc.userID r = rid →
      (∀ p ∈ s.authenticatedUsers, doc.userID p.2 = rid → p = (cr, r)) →
      getClientByID s.m_deqConnections cr = some rc → rc.isConnected = true →
      (s.onMessage env client msg).sent
        = s.sent ++
          [(cr, packString ((newMsg CustomMsgTypes.DirectMessage).append 4 (doc.userID sname))
              text),
           (client.id, serverMessage (str "Your message has been delivered to " ++ r))] ∧
      (packString ((newMsg CustomMsgTypes.DirectMessage).append 4 (doc.userID sname))
          text).header.id = CustomMsgTypes.DirectMessage ∧
      (packString ((newMsg CustomMsgTypes.DirectMessage).append 4 (doc.userID sname)) text).body
        = leBytes 4 (doc.userID sname) ++ wireString text ∧
      (s.onMessage env client msg).chatFiles
        = saveChatMessage env s.chatFiles sname (doc.userID sname) r rid text ∧
      (s.chatFiles.writable = true →
        (∀ other : Str, other ≠ generateChatFileName sname r →
          (s.onMessage env client msg).chatFiles.read other = s.chatFiles.read other) ∧
        (s.chatFiles.existingContent (generateChatFileName sname r) = [] →
          (s.onMessage env client msg).chatFiles.read (generateChatFileName sname r)
            = some (newChatDocument env (sortedNames sname r) sname r
                (chatMessageObject env (sortedNames sname r) sname (doc.userID sname) r rid
                  (escapeMessageText text)))) ∧
        (s.chatFiles.existingContent (generateChatFileName sname r) ≠ [] →
          chatLogExtendable env (s.chatFiles.existingContent (generateChatFileName sname r)) →
          ∃ new : Str,
            (s.onMessage env client msg).chatFiles.read (generateChatFileName sname r)
              = some new ∧
            insertedInto (s.chatFiles.existingContent (generateChatFileName sname r))
              (chatMessageObject env (sortedNames sname r) sname (doc.userID sname) r rid
                (escapeMessageText text)) new))) ∧
    ((∀ p ∈ s.authenticatedUsers, doc.userID p.2 ≠ rid) →
      (s.onMessage env client msg).sent
        = s.sent ++
          [(client.id, serverMessage
              (str "Error: User with ID #" ++ to_string rid ++ str " not found or offline"))] ∧
      str "Error:" <+: (str "Error: User with ID #" ++ to_string rid ++
        str " not found or offline") ∧
      (s.onMessage env client msg).chatFiles = s.chatFiles) := by
  have hres := onDirectMessage_resolved env s client msg.reset_read_position doc sname rid text
    hfile hsender hbody hrid hlen rfl
  rw [onMessage_direct env s client msg hkind, hres]
  have hlen' : text.length < 2 ^ 32 := by
    have : (10000 : Nat) < 2 ^ 32 := by norm_num
    omega
  refine ⟨?_, ?_⟩
  · intro cr r rc hmem hid huniq hconn hrc
    have hfind : s.authenticatedUsers.find? (fun p => decide (doc.userID p.2 = rid))
        = some (cr, r) :=
      find?_unique _ _ (cr, r) hmem (by simpa using hid)
        (fun y hy hq => huniq y hy (by simpa using hq))
    have hcon : connectedRecipient s.m_deqConnections (some (cr, r)) = some (rc, r) := by
      simp [connectedRecipient, hconn, hrc]
    have hrcid : rc.id = cr := getClientByID_id _ _ _ hconn
    rw [hfind, hcon]
    simp only [SendMessageToClient_connected _ _ _ hopen, CustomServer.send, hrcid]
    refine ⟨by simp, ?_, ?_, trivial, ?_⟩
    · rw [packString_id]; rfl
    · rw [packString_body _ _ hlen' hbytes]; rfl
    · intro hw
      exact saveChatMessage_effect env s.chatFiles sname (doc.userID sname) r rid text hw
  · intro hnone
    have hfind : s.authenticatedUsers.find? (fun p => decide (doc.userID p.2 = rid)) = none :=
      find?_none_of_forall _ _ (fun y hy => by simpa using hnone y hy)
    rw [hfind]
    simp only [connectedRecipient, SendMessageToClient_connected _ _ _ hopen]
    refine ⟨trivial, ⟨str " User with ID #" ++ to_string rid ++ str " not found or offline", ?_⟩,
      trivial⟩
    simp [str]

/-- The delivery path at a concrete server: alice (connection 10000) sends "hi" to bob
(user 10002, connection 10001); bob gets the `DirectMessage`, alice the
confirmation, and the log of the pair is created with the one message. -/
theorem direct_message_delivery_witness :
    ((directFrame 10002 (str "hi")).header.id = CustomMsgTypes.DirectMessage ∧
      (directFrame 10002 (str "hi")).body = leBytes 4 10002 ++ wireString (str "hi") ∧
      10002 < 2 ^ 32 ∧ (str "hi").length ≤ 10000 ∧ (∀ c ∈ str "hi", c < 256) ∧
      bothOnline.userManager.database_file = some bothOnlineUsers ∧
      mapFind bothOnline.authenticatedUsers (openConnection 10000).id = some (str "alice") ∧
      (openConnection 10000).isConnected = true) ∧
    ((10001, str "bob") ∈ bothOnline.authenticatedUsers ∧
      bothOnlineUsers.userID (str "bob") = 10002 ∧
      (∀ p ∈ bothOnline.authenticatedUsers, bothOnlineUsers.userID p.2 = 10002 →
        p = (10001, str "bob")) ∧
      getClientByID bothOnline.m_deqConnections 10001 = some (openConnection 10001) ∧
      (openConnection 10001).isConnected = true) ∧
    (bothOnline.onMessage exampleEnv (openConnection 10000) (directFrame 10002 (str "hi"))).sent
      = bothOnline.sent ++
        [(10001, packString ((newMsg CustomMsgTypes.DirectMessage).append 4
            (bothOnlineUsers.userID (str "alice"))) (str "hi")),
         ((openConnection 10000).id,
            serverMessage (str "Your message has been delivered to " ++ str "bob"))] :=
  ⟨⟨rfl, rfl, by norm_num, by decide, by decide, by decide, by decide, rfl⟩,
   ⟨by decide, by decide, by decide, by decide, rfl⟩,
   ((direct_message_delivery exampleEnv bothOnline (openConnection 10000)
      (directFrame 10002 (str "hi")) bothOnlineUsers (str "alice") 10002 (str "hi")
      rfl rfl (by norm_num) (by decide) (by decide) (by decide) (by decide) rfl).1
      10001 (str "bob") (openConnection 10001) (by decide) (by decide) (by decide) (by decide)
      rfl).1⟩

/-! ## Claim C7 -/

theorem onMessage_global (env : Env) (s : CustomServer) (client : connection) (msg : message)
    (hkind : msg.header.id = CustomMsgTypes.GlobalMessage) :
    s.onMessage env client msg = s.onGlobalMessage env client msg.reset_read_position := by
  simp [CustomServer.onMessage, hkind]

theorem global_frame_read (uninit : Nat) (msg : message) (text : Str)
    (hbody : msg.body = wireString text) (hlen : text.length < 2 ^ 32) (hpos : msg.readPos = 0) :
    (msg.extract 4 0).2 = text.length ∧
    (readChars uninit text.length (msg.extract 4 0).1 []).2 = text := by
  have hb : msg.body = [] ++ wireString text ++ [] := by rw [hbody]; simp
  have h := read_wireString uninit text hlen msg [] [] hb hpos
  exact ⟨h.1, by rw [h.2]⟩

/-- A global message whose text is longer than 10000 bytes: the handler stops
after reading the size; only the user store has been reloaded. -/
theorem onGlobalMessage_too_long (env : Env) (s : CustomServer) (client : connection)
    (msg : message) (sname : Str) (text : Str)
    (hsender : mapFind s.authenticatedUsers client.id = some sname)
    (hbody : msg.body = wireString text)
    (hlen : text.length < 2 ^ 32) (hlong : 10000 < text.length) (hpos : msg.readPos = 0) :
    s.onGlobalMessage env client msg
      = { s with userManager := (s.userManager.getUserID sname).1 } := by
  obtain ⟨h1, _⟩ := global_frame_read env.uninitChar msg text hbody hlen hpos
  unfold CustomServer.onGlobalMessage
  simp only [hsender, h1, hlong, if_true]

theorem broadcastTargets_mem (conns : List connection) (client : connection)
    (sessions : List (Nat × Str)) (c : Nat) :
    c ∈ broadcastTargets conns client sessions ↔
      (∃ u : Str, (c, u) ∈ sessions) ∧ c ≠ client.id ∧ sessionOpen conns c = true := by
  unfold broadcastTargets
  simp only [List.mem_map, List.mem_filter, Bool.and_eq_true, Bool.not_eq_true',
    decide_eq_false_iff_not]
  constructor
  · rintro ⟨p, ⟨hp, hne, hopen⟩, rfl⟩
    exact ⟨⟨p.2, hp⟩, hne, hopen⟩
  · rintro ⟨⟨u, hu⟩, hne, hopen⟩
    exact ⟨(c, u), ⟨hu, hne, hopen⟩, rfl⟩

theorem broadcastTargets_nodup (conns : List connection) (client : connection)
    (sessions : List (Nat × Str)) (h : (sessions.map Prod.fst).Nodup) :
    (broadcastTargets conns client sessions).Nodup := by
  unfold broadcastTargets
  exact List.Nodup.sublist (List.Sublist.map _ (List.filter_sublist _)) h

/-- C7 as stated fails: alice (connection 10000) and bob (connection 10001,
connected) are logged in, and alice sends a `GlobalMessage` with a well-formed
body whose text has 10001 bytes.  The handler drops it at its size check:
nothing is forwarded to bob, alice gets no confirmation, and no file is
written. -/
theorem long_global_message_dropped :
    mapFind bothOnline.authenticatedUsers (openConnection 10000).id = some (str "alice") ∧
    mapFind bothOnline.authenticatedUsers 10001 = some (str "bob") ∧
    sessionOpen bothOnline.m_deqConnections 10001 = true ∧
    (globalFrame (List.replicate 10001 97)).body = wireString (List.replicate 10001 97) ∧
    (bothOnline.onMessage exampleEnv (openConnection 10000)
        (globalFrame (List.replicate 10001 97))).sent = bothOnline.sent ∧
    (bothOnline.onMessage exampleEnv (openConnection 10000)
        (globalFrame (List.replicate 10001 97))).chatFiles = bothOnline.chatFiles := by
  have hs : mapFind bothOnline.authenticatedUsers (openConnection 10000).id
      = some (str "alice") := by decide
  have h := onGlobalMessage_too_long exampleEnv bothOnline (openConnection 10000)
    (globalFrame (List.replicate 10001 97)).reset_read_position (str "alice")
    (List.replicate 10001 97) hs rfl
    (by rw [List.length_replicate]; norm_num) (by rw [List.length_replicate]; norm_num) rfl
  rw [onMessage_global _ _ _ _ rfl, h]
  exact ⟨hs, by decide, by decide, rfl, rfl, rfl⟩

/-- C7, amended with the size limit of the handler.  A `GlobalMessage` with a
well-formed body (length, that many text bytes) of at most 10000 text bytes
arrives from an open connection that is logged in as `sname`; the database
file is present.  Then the server calls `saveGlobalMessage` once, which, the
files being writable, inserts the message object into the global log (a new
document for an absent or empty file, an insertion that keeps the old text
for an extendable file) and touches no other file.  The messages sent are, in
order: a `GlobalMessage` whose body is the user id of `sname`, the text length
and the text, to every key of the registry other than the sender whose
connection is in the deque and connected (once each, the keys being distinct);
then one confirmation `ServerMessage` to the sender.  No `GlobalMessage` goes
to the sender. -/
theorem global_message_broadcast (env : Env) (s : CustomServer) (client : connection)
    (msg : message) (doc : UsersDocument) (sname : Str) (text : Str)
    (hkind : msg.header.id = CustomMsgTypes.GlobalMessage)
    (hbody : msg.body = wireString text)
    (hlen : text.length ≤ 10000) (hbytes : ∀ c ∈ text, c < 256)
    (hfile : s.userManager.database_file = some doc)
    (hsender : mapFind s.authenticatedUsers client.id = some sname)
    (hopen : client.isConnected = true) :
    (s.onMessage env client msg).sent
      = s.sent ++
        (broadcastTargets s.m_deqConnections client s.authenticatedUsers).map
          (fun c => (c, packString
            ((newMsg CustomMsgTypes.GlobalMessage).append 4 (doc.userID sname)) text)) ++
        [(client.id, serverMessage (str "Your global message has been sent to all users"))] ∧
    (packString ((newMsg CustomMsgTypes.GlobalMessage).append 4 (doc.userID sname))
        text).header.id = CustomMsgTypes.GlobalMessage ∧
    (packString ((newMsg CustomMsgTypes.GlobalMessage).append 4 (doc.userID sname)) text).body
      = leBytes 4 (doc.userID sname) ++ wireString text ∧
    (serverMessage (str "Your global message has been sent to all users")).header.id
      = CustomMsgTypes.ServerMessage ∧
    (∀ c : Nat, c ∈ broadcastTargets s.m_deqConnections client s.authenticatedUsers ↔
      (∃ u : Str, (c, u) ∈ s.authenticatedUsers) ∧ c ≠ client.id ∧
        sessionOpen s.m_deqConnections c = true) ∧
    client.id ∉ broadcastTargets s.m_deqConnections client s.authenticatedUsers ∧
    ((s.authenticatedUsers.map Prod.fst).Nodup →
      (broadcastTargets s.m_deqConnections client s.authenticatedUsers).Nodup) ∧
    (s.onMessage env client msg).chatFiles
      = saveGlobalMessage env s.chatFiles sname (doc.userID sname) text ∧
    (s.chatFiles.writable = true →
      (∀ other : Str, other ≠ globalChatFile →
        (s.onMessage env client msg).chatFiles.read other = s.chatFiles.read other) ∧
      (s.chatFiles.existingContent globalChatFile = [] →
        (s.onMessage env client msg).chatFiles.read globalChatFile
          = some (newGlobalDocument env
              (globalMessageObject env sname (doc.userID sname) text))) ∧
      (s.chatFiles.existingContent globalChatFile ≠ [] →
        globalLogExtendable (s.chatFiles.existingContent globalChatFile) →
        ∃ new : Str,
          (s.onMessage env client msg).chatFiles.read globalChatFile = some new ∧
          insertedInto (s.chatFiles.existingContent globalChatFile)
            (globalMessageObject env sname (doc.userID sname) text) new)) := by
  have hlen' : text.length < 2 ^ 32 := by
    have : (10000 : Nat) < 2 ^ 32 := by norm_num
    omega
  obtain ⟨h1, h2⟩ := global_frame_read env.uninitChar msg.reset_read_position text hbody hlen' rfl
  have hnot : ¬ text.length > 10000 := by omega
  have hstate : s.onMessage env client msg =
      { s with
          userManager := s.userManager.loadUsers.1,
          chatFiles := saveGlobalMessage env s.chatFiles sname (doc.userID sname) text,
          sent :=
            s.sent ++
              (broadcastTargets s.m_deqConnections client s.authenticatedUsers).map
                (fun c => (c, packString
                  ((newMsg CustomMsgTypes.GlobalMessage).append 4 (doc.userID sname)) text)) ++
              [(client.id,
                serverMessage (str "Your global message has been sent to all users"))] } := by
    rw [onMessage_global env s client msg hkind]
    unfold CustomServer.onGlobalMessage
    simp only [hsender, h1, h2, hnot, if_false, getUserID_of_file _ doc hfile,
      sendToOthers_eq, SendMessageToClient_connected _ _ _ hopen]
  rw [hstate]
  refine ⟨rfl, ?_, ?_, rfl, broadcastTargets_mem _ _ _, ?_, broadcastTargets_nodup _ _ _, rfl,
    ?_⟩
  · rw [packString_id]; rfl
  · rw [packString_body _ _ hlen' hbytes]; rfl
  · intro hmem
    exact ((broadcastTargets_mem _ _ _ _).1 hmem).2.1 rfl
  · intro hw
    exact saveGlobalMessage_effect env s.chatFiles sname (doc.userID sname) text hw

/-- C7, amended, at a concrete server: alice (connection 10000) sends "hello" to
the global chat; bob (connection 10001) is the only other session and gets the
`GlobalMessage`, alice gets the confirmation. -/
theorem global_message_broadcast_witness :
    ((globalFrame (str "hello")).header.id = CustomMsgTypes.GlobalMessage ∧
      (globalFrame (str "hello")).body = wireString (str "hello") ∧
      (str "hello").length ≤ 10000 ∧ (∀ c ∈ str "hello", c < 256) ∧
      bothOnline.userManager.database_file = some bothOnlineUsers ∧
      mapFind bothOnline.authenticatedUsers (openConnection 10000).id = some (str "alice") ∧
      (openConnection 10000).isConnected = true) ∧
    broadcastTargets bothOnline.m_deqConnections (openConnection 10000)
      bothOnline.authenticatedUsers = [10001] ∧
    (bothOnline.onMessage exampleEnv (openConnection 10000) (globalFrame (str "hello"))).sent
      = bothOnline.sent ++
        (broadcastTargets bothOnline.m_deqConnections (openConnection 10000)
          bothOnline.authenticatedUsers).map
          (fun c => (c, packString ((newMsg CustomMsgTypes.GlobalMessage).append 4
            (bothOnlineUsers.userID (str "alice"))) (str "hello"))) ++
        [((openConnection 10000).id,
          serverMessage (str "Your global message has been sent to all users"))] :=
  ⟨⟨rfl, rfl, by decide, by decide, by decide, by decide, rfl⟩,
   by decide,
   (global_message_broadcast exampleEnv bothOnline (openConnection 10000)
      (globalFrame (str "hello")) bothOnlineUsers (str "alice") (str "hello")
      rfl rfl (by decide) (by decide) (by decide) (by decide) rfl).1⟩

/-! ## Validation lemmas -/

theorem isdigit_iff (c : Nat) : isdigit c = true ↔ isDigitByte c := by
  simp [isdigit, isDigitByte]

theorem isalpha_iff (c : Nat) : isalpha c = true ↔ isLetterByte c := by
  simp [isalpha, isLetterByte]

theorem isalnum_iff (c : Nat) : isalnum c = true ↔ isLetterByte c ∨ isDigitByte c := by
  simp [isalnum, isalpha_iff, isdigit_iff]

theorem any_invalid_iff (u : Str) :
    u.any (fun c => !isalnum c && !decide (c = 95)) = true ↔
      ¬ ∀ c ∈ u, isLetterByte c ∨ isDigitByte c ∨ c = 95 := by
  simp only [List.any_eq_true, Bool.and_eq_true, Bool.not_eq_true', decide_eq_false_iff_not,
    not_forall]
  constructor
  · rintro ⟨c, hc, hal, h95⟩
    refine ⟨c, hc, ?_⟩
    have hal' : ¬ (isLetterByte c ∨ isDigitByte c) := by
      rw [← isalnum_iff]; simp [hal]
    tauto
  · rintro ⟨c, hc, hno⟩
    refine ⟨c, hc, ?_, fun h => hno (Or.inr (Or.inr h))⟩
    have : ¬ isalnum c = true := fun h => by
      rcases (isalnum_iff c).1 h with h | h
      · exact hno (Or.inl h)
      · exact hno (Or.inr (Or.inl h))
    simpa using this

theorem forbidden_iff (lower : Str) :
    forbiddenNames.any (fun name => decide (name = lower) && !decide (name = str "admin")) = true
      ↔ lower ∈ reservedNames := by
  have h0 : (str "admin" = str "admin") := rfl
  have h1 : ¬ (str "administrator" = str "admin") := by decide
  have h2 : ¬ (str "root" = str "admin") := by decide
  have h3 : ¬ (str "system" = str "admin") := by decide
  have h4 : ¬ (str "server" = str "admin") := by decide
  simp only [forbiddenNames, reservedNames, List.any_cons, List.any_nil, h0, h1, h2, h3, h4,
    decide_True, decide_False, Bool.not_true, Bool.not_false, Bool.and_false, Bool.and_true,
    Bool.or_false, Bool.false_or, Bool.or_eq_true, decide_eq_true_eq, List.mem_cons,
    List.mem_singleton, List.not_mem_nil, or_false]
  constructor
  · rintro (h | h | h | h)
    · exact Or.inl h.symm
    · exact Or.inr (Or.inl h.symm)
    · exact Or.inr (Or.inr (Or.inl h.symm))
    · exact Or.inr (Or.inr (Or.inr h.symm))
  · rintro (h | h | h | h)
    · exact Or.inl h.symm
    · exact Or.inr (Or.inl h.symm)
    · exact Or.inr (Or.inr (Or.inl h.symm))
    · exact Or.inr (Or.inr (Or.inr h.symm))

theorem headD_digit_iff (u : Str) (hlen : 3 ≤ u.length) :
    isdigit (u.headD 0) = true ↔ ¬ ∀ c : Nat, u.head? = some c → ¬ isDigitByte c := by
  cases u with
  | nil => simp at hlen
  | cons a as => simp [isdigit_iff]

theorem validateUsername_rules (u errorMsg : Str) :
    (validateUsername u errorMsg).1 = true ↔ usernameRules u := by
  unfold validateUsername usernameRules
  by_cases h1 : u.length < 3
  · simp only [h1, if_true]
    constructor
    · intro h; exact absurd h (by simp)
    · intro h; omega
  by_cases h2 : u.length > 20
  · simp only [h1, h2, if_true, if_false]
    constructor
    · intro h; exact absurd h (by simp)
    · intro h; omega
  have hlen : 3 ≤ u.length := by omega
  by_cases h3 : u.any (fun c => !isalnum c && !decide (c = 95)) = true
  · simp only [h1, h2, h3, if_true, if_false]
    constructor
    · intro h; exact absurd h (by simp)
    · intro h; exact absurd h.2.2.1 ((any_invalid_iff u).1 h3)
  have h3' : ∀ c ∈ u, isLetterByte c ∨ isDigitByte c ∨ c = 95 := by
    by_contra hc
    exact h3 ((any_invalid_iff u).2 hc)
  by_cases h4 : isdigit (u.headD 0) = true
  · simp only [h1, h2, h3, h4, if_true, if_false]
    constructor
    · intro h; exact absurd h (by simp)
    · intro h; exact absurd h.2.2.2.1 ((headD_digit_iff u hlen).1 h4)
  have h4' : ∀ c : Nat, u.head? = some c → ¬ isDigitByte c := by
    by_contra hc
    exact h4 ((headD_digit_iff u hlen).2 hc)
  by_cases h5 : forbiddenNames.any
      (fun name => decide (name = u.map tolower) && !decide (name = str "admin")) = true
  · simp only [h1, h2, h3, h4, h5, if_true, if_false]
    constructor
    · intro h; exact absurd h (by simp)
    · intro h; exact absurd ((forbidden_iff _).1 h5) h.2.2.2.2
  · simp only [h1, h2, h3, h4, h5, if_false]
    exact ⟨fun _ => ⟨hlen, by omega, h3', h4', fun h => h5 ((forbidden_iff _).2 h)⟩,
      fun _ => rfl⟩

theorem reserved_length (lower : Str) (h : lower ∈ reservedNames) :
    lower.length = 13 ∨ lower.length = 4 ∨ lower.length = 6 := by
  simp only [reservedNames, List.mem_cons, List.mem_singleton, List.not_mem_nil, or_false] at h
  rcases h with h | h | h | h <;> subst h <;> decide

/-! ## Claim C11 -/

/-- C11: for every ASCII string `u`, `validateUsername(u)` is true exactly when
the length of `u` is between 3 and 20, every character is a letter, a digit or
an underscore, the first character is not a digit, and `u` lower-cased is none
of administrator, root, system, server.  In particular a name of valid
characters that does not start with a digit is rejected at length 2 and 21
and accepted at length 3 and 20. -/
theorem validateUsername_spec (u errorMsg : Str) (hascii : ∀ c ∈ u, c < 128) :
    ((validateUsername u errorMsg).1 = true ↔ usernameRules u) ∧
    (usernameRules u ↔
      (3 ≤ u.length ∧ u.length ≤ 20) ∧
      (∀ c ∈ u, (65 ≤ c ∧ c ≤ 90) ∨ (97 ≤ c ∧ c ≤ 122) ∨ (48 ≤ c ∧ c ≤ 57) ∨ c = 95) ∧
      (∀ c : Nat, u.head? = some c → ¬ (48 ≤ c ∧ c ≤ 57)) ∧
      u.map tolower ≠ str "administrator" ∧ u.map tolower ≠ str "root" ∧
      u.map tolower ≠ str "system" ∧ u.map tolower ≠ str "server") ∧
    ((∀ c ∈ u, isLetterByte c ∨ isDigitByte c ∨ c = 95) →
      (∀ c : Nat, u.head? = some c → ¬ isDigitByte c) →
      (u.length = 2 → (validateUsername u errorMsg).1 = false) ∧
      (u.length = 21 → (validateUsername u errorMsg).1 = false) ∧
      (u.length = 3 → (validateUsername u errorMsg).1 = true) ∧
      (u.length = 20 → (validateUsername u errorMsg).1 = true)) := by
  have _ := hascii
  refine ⟨validateUsername_rules u errorMsg, ?_, ?_⟩
  · unfold usernameRules isLetterByte isDigitByte reservedNames
    simp only [List.mem_cons, List.mem_singleton, List.not_mem_nil, or_false, not_or]
    constructor
    · rintro ⟨h1, h2, h3, h4, h5, h6, h7, h8⟩
      refine ⟨⟨h1, h2⟩, ?_, h4, h5, h6, h7, h8⟩
      intro c hc
      rcases h3 c hc with h | h | h
      · rcases h with h | h
        · exact Or.inl h
        · exact Or.inr (Or.inl h)
      · exact Or.inr (Or.inr (Or.inl h))
      · exact Or.inr (Or.inr (Or.inr h))
    · rintro ⟨⟨h1, h2⟩, h3, h4, h5, h6, h7, h8⟩
      refine ⟨h1, h2, ?_, h4, h5, h6, h7, h8⟩
      intro c hc
      rcases h3 c hc with h | h | h | h
      · exact Or.inl (Or.inl h)
      · exact Or.inl (Or.inr h)
      · exact Or.inr (Or.inl h)
      · exact Or.inr (Or.inr h)
  · intro hchars hfirst
    have hfalse : ∀ {b : Bool}, ¬ b = true → b = false := by
      intro b h; cases b <;> simp at h ⊢
    refine ⟨?_, ?_, ?_, ?_⟩
    · intro hl
      exact hfalse (fun h => by
        have := ((validateUsername_rules u errorMsg).1 h).1
        omega)
    · intro hl
      exact hfalse (fun h => by
        have := ((validateUsername_rules u errorMsg).1 h).2.1
        omega)
    · intro hl
      refine (validateUsername_rules u errorMsg).2 ⟨by omega, by omega, hchars, hfirst, ?_⟩
      intro hres
      have := reserved_length _ hres
      rw [List.length_map] at this
      omega
    · intro hl
      refine (validateUsername_rules u errorMsg).2 ⟨by omega, by omega, hchars, hfirst, ?_⟩
      intro hres
      have := reserved_length _ hres
      rw [List.length_map] at this
      omega

/-- C11 at concrete names: "bob" (length 3) and a name of twenty letters pass;
"ab", a name of twenty-one letters, "9lives", "a-b" and "Root" fail; "admin"
passes. -/
theorem validateUsername_spec_witness :
    (∀ c ∈ str "bob", c < 128) ∧
    (validateUsername (str "bob") []).1 = true ∧
    (validateUsername (str "abcdefghijklmnopqrst") []).1 = true ∧
    (validateUsername (str "ab") []).1 = false ∧
    (validateUsername (str "abcdefghijklmnopqrstu") []).1 = false ∧
    (validateUsername (str "9lives") []).1 = false ∧
    (validateUsername (str "a-b") []).1 = false ∧
    (validateUsername (str "Root") []).1 = false ∧
    (validateUsername (str "admin") []).1 = true :=
  ⟨by decide,
   ((validateUsername_spec (str "bob") [] (by decide)).2.2 (by decide)
      (fun c hc => by
        have hb : c = 98 := (Option.some.inj hc).symm
        rw [hb]; decide)).2.2.1 rfl,
   by decide, by decide, by decide, by decide, by decide, by decide, by decide⟩

/-! ## Claim C12 -/

theorem validatePassword_rules (p errorMsg : Str) :
    (validatePassword p errorMsg).1 = true ↔ passwordRules p := by
  unfold validatePassword passwordRules
  by_cases h1 : p.length < 6
  · simp only [h1, if_true]
    constructor
    · intro h; exact absurd h (by simp)
    · intro h; omega
  by_cases h2 : p.length > 64
  · simp only [h1, h2, if_true, if_false]
    constructor
    · intro h; exact absurd h (by simp)
    · intro h; omega
  by_cases h3 : p.any isdigit = true
  · by_cases h4 : p.any isalpha = true
    · simp only [h1, h2, h3, h4, if_false, Bool.not_true, Bool.false_eq_true, true_iff]
      refine ⟨by omega, by omega, ?_, ?_⟩
      · obtain ⟨c, hc, hd⟩ := List.any_eq_true.1 h3
        exact ⟨c, hc, (isdigit_iff c).1 hd⟩
      · obtain ⟨c, hc, hd⟩ := List.any_eq_true.1 h4
        exact ⟨c, hc, (isalpha_iff c).1 hd⟩
    · have h4' : p.any isalpha = false := by simpa using h4
      simp only [h1, h2, h3, h4', if_false, Bool.not_true, Bool.not_false, Bool.false_eq_true,
        if_true]
      constructor
      · intro h; exact absurd h (by simp)
      · rintro ⟨_, _, _, c, hc, hl⟩
        exact absurd (List.any_eq_true.2 ⟨c, hc, (isalpha_iff c).2 hl⟩) h4
  · have h3' : p.any isdigit = false := by simpa using h3
    simp only [h1, h2, h3', if_false, Bool.not_false, if_true]
    constructor
    · intro h; exact absurd h (by simp)
    · rintro ⟨_, _, ⟨c, hc, hd⟩, _⟩
      exact absurd (List.any_eq_true.2 ⟨c, hc, (isdigit_iff c).2 hd⟩) h3

/-- C12: for every ASCII string `p`, `validatePassword(p)` is true exactly when
the length of `p` is between 6 and 64, `p` contains a digit and `p` contains a
letter.  In particular every password of length 5 or 65, every password
without a digit and every password without a letter is rejected. -/
theorem validatePassword_spec (p errorMsg : Str) (hascii : ∀ c ∈ p, c < 128) :
    ((validatePassword p errorMsg).1 = true ↔
      (6 ≤ p.length ∧ p.length ≤ 64) ∧ (∃ c ∈ p, 48 ≤ c ∧ c ≤ 57) ∧
      (∃ c ∈ p, (65 ≤ c ∧ c ≤ 90) ∨ (97 ≤ c ∧ c ≤ 122))) ∧
    (p.length = 5 → (validatePassword p errorMsg).1 = false) ∧
    (p.length = 65 → (validatePassword p errorMsg).1 = false) ∧
    ((∀ c ∈ p, ¬ (48 ≤ c ∧ c ≤ 57)) → (validatePassword p errorMsg).1 = false) ∧
    ((∀ c ∈ p, ¬ ((65 ≤ c ∧ c ≤ 90) ∨ (97 ≤ c ∧ c ≤ 122))) →
      (validatePassword p errorMsg).1 = false) := by
  have _ := hascii
  have hiff := validatePassword_rules p errorMsg
  unfold passwordRules isDigitByte isLetterByte at hiff
  have hfalse : ∀ {b : Bool}, ¬ b = true → b = false := by
    intro b h; cases b <;> simp at h ⊢
  refine ⟨?_, ?_, ?_, ?_, ?_⟩
  · rw [hiff]
    constructor
    · rintro ⟨a, b, c, d⟩; exact ⟨⟨a, b⟩, c, d⟩
    · rintro ⟨⟨a, b⟩, c, d⟩; exact ⟨a, b, c, d⟩
  · intro hl
    exact hfalse (fun h => by have := (hiff.1 h).1; omega)
  · intro hl
    exact hfalse (fun h => by have := (hiff.1 h).2.1; omega)
  · intro hno
    exact hfalse (fun h => by
      obtain ⟨c, hc, hd⟩ := (hiff.1 h).2.2.1
      exact hno c hc hd)
  · intro hno
    exact hfalse (fun h => by
      obtain ⟨c, hc, hd⟩ := (hiff.1 h).2.2.2
      exact hno c hc hd)

/-- C12 at concrete passwords: "abc123" passes; "ab123" (length 5), "abcdef" (no
digit) and "123456" (no letter) fail. -/
theorem validatePassword_spec_witness :
    (∀ c ∈ str "abc123", c < 128) ∧
    (validatePassword (str "abc123") []).1 = true ∧
    (validatePassword (str "ab123") []).1 = false ∧
    (validatePassword (str "abcdef") []).1 = false ∧
    (validatePassword (str "123456") []).1 = false :=
  ⟨by decide,
   (validatePassword_spec (str "abc123") [] (by decide)).1.2
     ⟨⟨by decide, by decide⟩, ⟨49, by decide, by decide⟩, ⟨97, by decide, by decide⟩⟩,
   by decide, by decide, by decide⟩

/-! ## Claim C13 -/

/-- C13 on the code: connection 10000 sends `RegisterRequest("alice", "p4ss",
"a@x")` to a server with an empty store.  The registration succeeds (alice
gets id 10001) and the connection is sent the `RegisterResponse` with success
flag 1 and the text "Registration successful. Welcome, alice!"; but that is
the only message: no `ServerAccept` follows, and both maps of the registry
stay empty. -/
theorem register_success_not_attached :
    (exampleServer.userManager.doesUserExist (str "alice")).2 = false ∧
    (exampleServer.onMessage exampleEnv (openConnection 10000)
        (registerFrame (str "alice") (str "p4ss") (str "a@x"))).userManager.users.map
        (fun user => (user.id, user.username)) = [(10001, str "alice")] ∧
    (exampleServer.onMessage exampleEnv (openConnection 10000)
        (registerFrame (str "alice") (str "p4ss") (str "a@x"))).sent
      = exampleServer.sent ++
        [(10000, responseMessage CustomMsgTypes.RegisterResponse true
          (str "Registration successful. Welcome, alice!"))] ∧
    (responseMessage CustomMsgTypes.RegisterResponse true
        (str "Registration successful. Welcome, alice!")).body.head? = some 1 ∧
    str "Welcome" <:+: str "Registration successful. Welcome, alice!" ∧
    (exampleServer.onMessage exampleEnv (openConnection 10000)
        (registerFrame (str "alice") (str "p4ss") (str "a@x"))).authenticatedUsers = [] ∧
    (exampleServer.onMessage exampleEnv (openConnection 10000)
        (registerFrame (str "alice") (str "p4ss") (str "a@x"))).userToClientMap = [] := by
  refine ⟨by decide, by decide, by decide, by decide, by decide, by decide, by decide⟩

/-! ## Claim C14 -/

theorem scramble_lt (x : Nat) : scramble x < 2 ^ 64 := by
  unfold scramble
  apply Nat.xor_lt_two_pow _ (by norm_num)
  apply Nat.or_lt_two_pow
  · rw [Nat.shiftRight_eq_div_pow]
    exact lt_of_le_of_lt (Nat.div_le_self _ _)
      (lt_of_le_of_lt Nat.and_le_right (by norm_num))
  · exact Nat.mod_lt _ (by norm_num)

/-- C14: for every 64-bit challenge `x`, the reply that the client computes with
its `scramble` equals the value the server has stored as expected with its own
`scramble`, so the check of the server admits the connection; and the server
admits a reply only if it equals `scramble(x)`.  The scramble of a 64-bit
value is a 64-bit value. -/
theorem handshake_agreement (x : Nat) (hx : x < 2 ^ 64) :
    client.handshakeReply (Handshake.new x).m_nHandshakeOut
      = (Handshake.new x).m_nHandshakeCheck ∧
    client.scramble x = scramble x ∧
    (Handshake.new x).m_nHandshakeCheck = scramble x ∧
    (Handshake.new x).admits (client.handshakeReply (Handshake.new x).m_nHandshakeOut) = true ∧
    (∀ reply : Nat, (Handshake.new x).admits reply = true ↔ reply = scramble x) ∧
    scramble x < 2 ^ 64 := by
  have hmod : x % 2 ^ 64 = x := Nat.mod_eq_of_lt hx
  have hcheck : (Handshake.new x).m_nHandshakeCheck = scramble x := by
    show scramble (x % 2 ^ 64) = scramble x
    rw [hmod]
  have hreply : client.handshakeReply (Handshake.new x).m_nHandshakeOut = scramble x := by
    show client.scramble (x % 2 ^ 64) = scramble x
    rw [hmod]
    rfl
  refine ⟨by rw [hreply, hcheck], rfl, hcheck, ?_, ?_, scramble_lt x⟩
  · unfold Handshake.admits
    rw [hreply, hcheck]
    simp
  · intro reply
    unfold Handshake.admits
    rw [hcheck]
    simp

/-- C14 at a concrete challenge: the clock reading 1735732800000000. -/
theorem handshake_agreement_witness :
    (1735732800000000 : Nat) < 2 ^ 64 ∧
    (Handshake.new 1735732800000000).admits
      (client.handshakeReply (Handshake.new 1735732800000000).m_nHandshakeOut) = true ∧
    (Handshake.new 1735732800000000).admits 0 = false :=
  ⟨by norm_num, (handshake_agreement 1735732800000000 (by norm_num)).2.2.2.1, by decide⟩

/-! ## Claim C15 -/

theorem append_size (w : Nat) (msg : message) (data : Nat) :
    (msg.append w data).header.size = (8 + (msg.append w data).body.length) % 2 ^ 32 := rfl

theorem appendChars_size (text : Str) (msg : message)
    (h : msg.header.size = (8 + msg.body.length) % 2 ^ 32) :
    (appendChars msg text).header.size = (8 + (appendChars msg text).body.length) % 2 ^ 32 := by
  induction text generalizing msg with
  | nil => exact h
  | cons c cs ih =>
    have := ih (msg.append 1 c) (append_size 1 msg c)
    simpa only [appendChars, List.foldl_cons] using this

theorem appendAll_size (vs : List Value) (msg : message)
    (h : msg.header.size = (8 + msg.body.length) % 2 ^ 32) :
    (msg.appendAll vs).header.size = (8 + (msg.appendAll vs).body.length) % 2 ^ 32 := by
  induction vs generalizing msg with
  | nil => exact h
  | cons v vs ih =>
    have := ih (msg.appendValue v) (append_size _ msg _)
    simpa only [message.appendAll, List.foldl_cons] using this

/-- C15 as stated fails: the first frame that `onClientConnect` sends is the
`ServerAccept` with an empty body, on which no `operator<<` has run; its
header size field is 0, not 8. -/
theorem empty_frame_size_zero :
    ((CustomServer.new none true { files := [], writable := true }).onClientConnect
        (openConnection 10000)).1.sent.head?
      = some (10000, newMsg CustomMsgTypes.ServerAccept) ∧
    (newMsg CustomMsgTypes.ServerAccept).body = [] ∧
    (newMsg CustomMsgTypes.ServerAccept).header.size = 0 ∧
    (newMsg CustomMsgTypes.ServerAccept).header.size
      ≠ 8 + (newMsg CustomMsgTypes.ServerAccept).body.length := by
  refine ⟨by decide, rfl, rfl, by decide⟩

/-- C15, amended: a frame on which at least one `operator<<` has run has a header
size field equal to 8 plus the length of its body, reduced modulo 2^32 as the
field is a `uint32_t` (so equal to it for a body of fewer than 2^32 - 8
bytes); this covers every frame filled by a non-empty sequence of appends and
every frame that carries a length-prefixed text.  A frame on which no append
has run keeps the size field 0 and an empty body. -/
theorem frame_size_field (kind : Nat) :
    (∀ (msg : message) (w data : Nat),
      (msg.append w data).header.size = (8 + (msg.append w data).body.length) % 2 ^ 32) ∧
    (∀ vs : List Value, vs ≠ [] →
      ((newMsg kind).appendAll vs).header.size
        = (8 + ((newMsg kind).appendAll vs).body.length) % 2 ^ 32 ∧
      (8 + ((newMsg kind).appendAll vs).body.length < 2 ^ 32 →
        ((newMsg kind).appendAll vs).header.size
          = 8 + ((newMsg kind).appendAll vs).body.length)) ∧
    (∀ (msg : message) (text : Str),
      (packString msg text).header.size = (8 + (packString msg text).body.length) % 2 ^ 32) ∧
    (∀ (text : Str) (success : Bool),
      (serverMessage text).header.size = (8 + (serverMessage text).body.length) % 2 ^ 32 ∧
      (responseMessage kind success text).header.size
        = (8 + (responseMessage kind success text).body.length) % 2 ^ 32) ∧
    ((newMsg kind).header.size = 0 ∧ (newMsg kind).body = []) := by
  have hpack : ∀ (msg : message) (text : Str),
      (packString msg text).header.size
        = (8 + (packString msg text).body.length) % 2 ^ 32 := by
    intro msg text
    unfold packString
    exact appendChars_size text _ (append_size 4 msg _)
  refine ⟨fun msg w data => append_size w msg data, ?_, hpack, ?_, rfl, rfl⟩
  · intro vs hvs
    have hsize : ((newMsg kind).appendAll vs).header.size
        = (8 + ((newMsg kind).appendAll vs).body.length) % 2 ^ 32 := by
      cases vs with
      | nil => exact absurd rfl hvs
      | cons v vs =>
        have := appendAll_size vs ((newMsg kind).appendValue v) (append_size _ _ _)
        simpa only [message.appendAll, List.foldl_cons] using this
    exact ⟨hsize, fun hlt => by rw [hsize, Nat.mod_eq_of_lt hlt]⟩
  · intro text success
    exact ⟨hpack _ _, hpack _ _⟩

/-! ## Claim C16 -/

/-- C16 as stated fails: a frame with an empty body, cursor 0, and an extract of
width 4.  The extract of the specification fails with `IncompleteBody`; the
`operator>>` of the code returns normally with the message and the
destination as they were, and the caller goes on: a `LoginRequest` with an
empty body is handled to the end as a login with empty username and password
and answered with a `LoginResponse`. -/
theorem read_past_end_completes :
    (frame CustomMsgTypes.LoginRequest []).readPos + 4
      > (frame CustomMsgTypes.LoginRequest []).body.length ∧
    (frame CustomMsgTypes.LoginRequest []).extractChecked 4
      = .error FrameDecodeError.IncompleteBody ∧
    (frame CustomMsgTypes.LoginRequest []).extract 4 7
      = (frame CustomMsgTypes.LoginRequest [], 7) ∧
    (exampleServer.onMessage exampleEnv (openConnection 10000)
        (frame CustomMsgTypes.LoginRequest [])).sent
      = exampleServer.sent ++
        [(10000, responseMessage CustomMsgTypes.LoginResponse false
          (str "Login failed. Invalid username or password."))] := by
  refine ⟨by decide, rfl, by decide, by decide⟩

/-- C16, amended: extracting a value of width `w` when the read cursor plus `w`
exceeds the body length returns normally and changes nothing: the message,
its cursor included, and the destination are as before (the code only prints
a warning).  When the bytes are there, the extract is the one of the
specification. -/
theorem extract_past_end (w : Nat) (msg : message) (data : Nat) :
    (msg.readPos + w > msg.body.length →
      msg.extract w data = (msg, data) ∧
      msg.extractChecked w = .error FrameDecodeError.IncompleteBody) ∧
    (msg.readPos + w ≤ msg.body.length →
      msg.extractChecked w = .ok (msg.extract w data) ∧
      (msg.extract w data).1.readPos = msg.readPos + w) := by
  unfold message.extract message.extractChecked
  constructor
  · intro h
    have hn : ¬ msg.readPos + w ≤ msg.body.length := by omega
    simp [hn]
  · intro h
    simp [h]

/-- C16, amended, at a concrete frame: a body of two bytes and an extract of
width 4 into a destination that holds 7. -/
theorem extract_past_end_witness :
    (frame CustomMsgTypes.DirectMessage [1, 2]).readPos + 4
      > (frame CustomMsgTypes.DirectMessage [1, 2]).body.length ∧
    (frame CustomMsgTypes.DirectMessage [1, 2]).extract 4 7
      = (frame CustomMsgTypes.DirectMessage [1, 2], 7) :=
  ⟨by decide,
   ((extract_past_end 4 (frame CustomMsgTypes.DirectMessage [1, 2]) 7).1 (by decide)).1⟩

/-! ## Claim C17 -/

theorem updateFirst_usernames (f : User → User) (hf : ∀ u, (f u).username = u.username)
    (name : Str) (us : List User) :
    (updateFirst f name us).map User.username = us.map User.username := by
  induction us with
  | nil => rfl
  | cons u us ih =>
    unfold updateFirst
    by_cases h : u.username = name
    · simp [h, hf]
    · simp [h, ih]

/-- Every user of the updated list is a user of the old list or the image of
one. -/
theorem updateFirst_mem (f : User → User) (name : Str) (us : List User) (v : User)
    (hv : v ∈ updateFirst f name us) : v ∈ us ∨ ∃ u ∈ us, v = f u := by
  induction us with
  | nil => simp [updateFirst] at hv
  | cons u us ih =>
    unfold updateFirst at hv
    by_cases h : u.username = name
    · simp only [h, if_true, List.mem_cons] at hv
      rcases hv with rfl | hv
      · exact Or.inr ⟨u, List.mem_cons_self _ _, rfl⟩
      · exact Or.inl (List.mem_cons_of_mem _ hv)
    · simp only [h, if_false, List.mem_cons] at hv
      rcases hv with rfl | hv
      · exact Or.inl (List.mem_cons_self _ _)
      · rcases ih hv with h1 | ⟨w, hw, rfl⟩
        · exact Or.inl (List.mem_cons_of_mem _ h1)
        · exact Or.inr ⟨w, List.mem_cons_of_mem _ hw, rfl⟩

/-- Giving the first user with a name an id above every stored id keeps the ids
distinct. -/
theorem updateFirst_ids_nodup (newID : Nat) (name : Str) (us : List User)
    (hle : ∀ u ∈ us, u.id < newID) (hnd : (us.map User.id).Nodup) :
    ((updateFirst (fun u => { u with id := newID }) name us).map User.id).Nodup := by
  induction us with
  | nil => simp [updateFirst]
  | cons u us ih =>
    have hle' : ∀ v ∈ us, v.id < newID := fun v hv => hle v (List.mem_cons_of_mem _ hv)
    have hnd0 : (u.id :: us.map User.id).Nodup := hnd
    have hnd' := (List.nodup_cons.1 hnd0).2
    have hu : u.id ∉ us.map User.id := (List.nodup_cons.1 hnd0).1
    unfold updateFirst
    by_cases h : u.username = name
    · simp only [h, if_true, List.map_cons]
      refine List.nodup_cons.2 ⟨?_, hnd'⟩
      intro hmem
      obtain ⟨v, hv, hid⟩ := List.mem_map.1 hmem
      have := hle' v hv
      omega
    · simp only [h, if_false, List.map_cons]
      refine List.nodup_cons.2 ⟨?_, ih hle' hnd'⟩
      intro hmem
      obtain ⟨v, hv, hid⟩ := List.mem_map.1 hmem
      rcases updateFirst_mem _ _ _ _ hv with h1 | ⟨w, hw, rfl⟩
      · exact hu (List.mem_map.2 ⟨v, h1, hid⟩)
      · have := hle u (List.mem_cons_self _ _)
        simp only at hid
        omega

/-- C17 as stated fails: a store loaded from a file holds alice (id 5) and bob
(id 7) with `last_user_id = 4294967295`, a 32-bit value, and satisfies the
predicate.  Registering carol wraps the counter: carol gets id 0 and
`last_user_id` becomes 0, below the ids 5 and 7.  `assignUserID("alice")`
wraps it in the same way. -/
theorem counter_wrap_breaks_invariant :
    storeInvariant fullCounterStore ∧ fullCounterStore.last_user_id = 4294967295 ∧
    fullCounterStore.last_user_id < 2 ^ 32 ∧
    (fullCounterStore.registerUser { User.new with username := str "carol" }).2 = true ∧
    (fullCounterStore.registerUser { User.new with username := str "carol" }).1.last_user_id
      = 0 ∧
    (fullCounterStore.registerUser { User.new with username := str "carol" }).1.users.map User.id
      = [5, 7, 0] ∧
    ¬ storeInvariant
      (fullCounterStore.registerUser { User.new with username := str "carol" }).1 ∧
    (fullCounterStore.assignUserID (str "alice")).1.users.map User.id = [0, 7] ∧
    ¬ storeInvariant (fullCounterStore.assignUserID (str "alice")).1 := by
  refine ⟨by decide, by decide, by decide, by decide, by decide, by decide, by decide, by decide,
    by decide⟩

/-- C17, amended: whenever the predicate 'every stored id is at most
`last_user_id`, no two records share an id, and no two records share a
username' holds before a call of `registerUser` or of `assignUserID` and
`last_user_id` is below the largest 32-bit value, it holds after the call. -/
theorem storeInvariant_preserved (m : UserManager) (user : User) (username : Str)
    (hinv : storeInvariant m) (hroom : m.last_user_id + 1 < 2 ^ 32) :
    storeInvariant (m.registerUser user).1 ∧ storeInvariant (m.assignUserID username).1 := by
  obtain ⟨hle, hids, hnames⟩ := hinv
  have hmod : (m.last_user_id + 1) % 2 ^ 32 = m.last_user_id + 1 := Nat.mod_eq_of_lt hroom
  constructor
  · unfold UserManager.registerUser
    cases hf : findUser m.users user.username with
    | some e => exact ⟨hle, hids, hnames⟩
    | none =>
      simp only []
      have hm := saveUsers_memory
        ({ m with last_user_id := (m.last_user_id + 1) % 2 ^ 32,
                  users := m.users ++ [{ user with id := (m.last_user_id + 1) % 2 ^ 32 }] }
          : UserManager)
      unfold storeInvariant
      rw [hm.1, hm.2.1]
      dsimp only
      rw [hmod]
      refine ⟨?_, ?_, ?_⟩
      · intro u hu
        rcases List.mem_append.1 hu with h | h
        · have := hle u h
          omega
        · have hu' : u = { user with id := m.last_user_id + 1 } := by simpa using h
          rw [hu']
      · rw [List.map_append]
        refine List.Nodup.append hids (by simp) ?_
        intro x hx hx'
        obtain ⟨v, hv, rfl⟩ := List.mem_map.1 hx
        have h1 := hle v hv
        have h2 : v.id = m.last_user_id + 1 := by simpa using hx'
        omega
      · rw [List.map_append]
        refine List.Nodup.append hnames (by simp) ?_
        intro x hx hx'
        obtain ⟨v, hv, rfl⟩ := List.mem_map.1 hx
        have h2 : v.username = user.username := by simpa using hx'
        exact (findUser_eq_none _ _).1 hf v hv h2
  · unfold UserManager.assignUserID
    cases hf : findUser m.users username with
    | none =>
      simp only []
      refine ⟨fun u hu => ?_, hids, hnames⟩
      have := hle u hu
      show u.id ≤ (m.last_user_id + 1) % 2 ^ 32
      omega
    | some e =>
      simp only []
      have hm := saveUsers_memory
        ({ m with last_user_id := (m.last_user_id + 1) % 2 ^ 32,
                  users := updateFirst (fun u => { u with id := (m.last_user_id + 1) % 2 ^ 32 })
                    username m.users } : UserManager)
      unfold storeInvariant
      rw [hm.1, hm.2.1]
      dsimp only
      rw [hmod]
      refine ⟨?_, ?_, ?_⟩
      · intro u hu
        rcases updateFirst_mem _ _ _ _ hu with h | ⟨w, hw, rfl⟩
        · have := hle u h
          omega
        · exact Nat.le_refl _
      · exact updateFirst_ids_nodup _ _ _ (fun u hu => by have := hle u hu; omega) hids
      · have hun := updateFirst_usernames (fun u : User => { u with id := m.last_user_id + 1 })
          (fun _ => rfl) username m.users
        rw [hun]
        exact hnames

/-- C17, amended, at a concrete store: alice (id 10001) is registered with
`last_user_id = 10001`; registering bob keeps the predicate. -/
theorem storeInvariant_preserved_witness :
    (storeInvariant aliceOnline.userManager ∧ aliceOnline.userManager.last_user_id + 1 < 2 ^ 32) ∧
    storeInvariant
      (aliceOnline.userManager.registerUser { User.new with username := str "bob" }).1 :=
  ⟨⟨by decide, by decide⟩,
   (storeInvariant_preserved aliceOnline.userManager { User.new with username := str "bob" }
      (str "alice") (by decide) (by decide)).1⟩

/-! ## Claim C19 -/


/-- C19 on the code: abc_def, ghi, abc and def_ghi all pass `validateUsername`.
On an empty directory abc_def writes "one" to ghi, then abc writes "two" to
def_ghi.  Both pairs get the file name chat_abc_def_ghi.json, so the second
message is inserted into the file of the first pair (the file is valid JSON,
which the JSON check of the example accepts): the file records the
participants abc_def and ghi and stores a message whose sender is abc and
whose recipient is def_ghi. -/
theorem colliding_pairs_share_log :
    ((validateUsername (str "abc_def") []).1 = true ∧ (validateUsername (str "ghi") []).1 = true ∧
      (validateUsername (str "abc") []).1 = true ∧
      (validateUsername (str "def_ghi") []).1 = true) ∧
    generateChatFileName (str "abc_def") (str "ghi") = str "chat_abc_def_ghi.json" ∧
    generateChatFileName (str "abc") (str "def_ghi") = str "chat_abc_def_ghi.json" ∧
    collidingLogs.files.map Prod.fst = [str "chat_abc_def_ghi.json"] ∧
    collidingLogs.read (str "chat_abc_def_ghi.json")
      = some
        (str "\x7b\n  \"conversation_id\": \"abc_def_ghi\",\n" ++
         str "  \"participants\": [\"abc_def\", \"ghi\"],\n" ++
         str "  \"created_date\": \"2025-01-01 12:00:00\",\n" ++
         str "  \"messages\": [\n" ++
         chatMessageObject exampleEnv (str "abc_def_ghi") (str "abc_def") 10001 (str "ghi") 10002
           (str "one") ++
         str "\n,\n" ++
         chatMessageObject exampleEnv (str "abc_def_ghi") (str "abc") 10003 (str "def_ghi") 10004
           (str "two") ++
         str "\n  ]\n\x7d\n") ∧
    chatMessageObject exampleEnv (str "abc_def_ghi") (str "abc") 10003 (str "def_ghi") 10004
        (str "two")
      = str "    \x7b\n      \"message_id\": 1735732800000,\n" ++
        str "      \"conversation_id\": \"abc_def_ghi\",\n" ++
        str "      \"sender_username\": \"abc\",\n" ++
        str "      \"sender_user_id\": 10003,\n" ++
        str "      \"recipient_username\": \"def_ghi\",\n" ++
        str "      \"recipient_user_id\": 10004,\n" ++
        str "      \"message_text\": \"two\",\n" ++
        str "      \"timestamp\": \"2025-01-01 12:00:00\",\n" ++
        str "      \"message_type\": \"direct_message\"\n    \x7d" := by
  refine ⟨⟨by decide, by decide, by decide, by decide⟩, by decide, by decide, by decide!,
    by decide!, by decide!⟩

/-! ## Claim C20 -/

theorem strLt_irrefl (a : Str) : strLt a a = false := by
  induction a with
  | nil => rfl
  | cons x xs ih => simp [strLt, ih]

theorem strLt_asymm (a b : Str) (h : strLt a b = true) : strLt b a = false := by
  induction a generalizing b with
  | nil => cases b <;> simp [strLt] at h ⊢
  | cons x xs ih =>
    cases b with
    | nil => simp [strLt] at h
    | cons y ys =>
      unfold strLt at h ⊢
      by_cases hxy : x < y
      · have : ¬ y < x := by omega
        simp [this, hxy]
      · by_cases hyx : y < x
        · simp [hxy, hyx] at h
        · simp only [hxy, hyx, if_false] at h ⊢
          exact ih ys h

theorem strLt_total (a b : Str) (h1 : strLt a b = false) (h2 : strLt b a = false) : a = b := by
  induction a generalizing b with
  | nil => cases b <;> simp [strLt] at h1 ⊢
  | cons x xs ih =>
    cases b with
    | nil => simp [strLt] at h2
    | cons y ys =>
      unfold strLt at h1 h2
      by_cases hxy : x < y
      · simp [hxy] at h1
      · by_cases hyx : y < x
        · simp [hyx] at h2
        · simp only [hxy, hyx, if_false] at h1 h2
          have hx : x = y := by omega
          rw [hx, ih ys h1 h2]

/-- The comparison of the code is the lexicographic order on the bytes. -/
theorem strLt_iff_lex (a b : Str) : strLt a b = true ↔ List.Lex (· < ·) a b := by
  induction a generalizing b with
  | nil =>
    cases b with
    | nil => simp [strLt]
    | cons y ys => simp [strLt, List.Lex.nil]
  | cons x xs ih =>
    cases b with
    | nil => simp [strLt]
    | cons y ys =>
      unfold strLt
      by_cases hxy : x < y
      · simp only [hxy, if_true, true_iff]
        exact List.Lex.rel hxy
      · by_cases hyx : y < x
        · simp only [hxy, hyx, if_true, if_false, Bool.false_eq_true, false_iff]
          intro hlex
          cases hlex with
          | cons h => omega
          | rel h => exact hxy h
        · have hx : x = y := by omega
          simp only [hxy, hyx, if_false]
          rw [ih ys, hx]
          constructor
          · intro h; exact List.Lex.cons h
          · intro h
            cases h with
            | cons h => exact h
            | rel h => omega

theorem sortedNames_eq (a b : Str) :
    sortedNames a b = smallerName a b ++ str "_" ++ largerName a b ∧
    sortedNames b a = smallerName a b ++ str "_" ++ largerName a b := by
  unfold sortedNames smallerName largerName
  cases hab : strLt a b with
  | true =>
    have hba := strLt_asymm a b hab
    simp [hba]
  | false =>
    cases hba : strLt b a with
    | true => simp
    | false =>
      have := strLt_total a b hab hba
      subst this
      simp

/-- C20: for all usernames `a` and `b`, `generateChatFileName(a, b)` equals
`generateChatFileName(b, a)` and equals "chat_" + m + ".json", where m is the
lexicographically smaller name, an underscore, then the larger name (the
order of the code is the lexicographic order on the bytes); and m is the
conversation id that `saveChatMessage` computes for the two names, in either
direction, and writes into the message object and into the document of a
new file. -/
theorem generateChatFileName_spec (a b : Str) :
    generateChatFileName a b = generateChatFileName b a ∧
    generateChatFileName a b
      = str "chat_" ++ (smallerName a b ++ str "_" ++ largerName a b) ++ str ".json" ∧
    ((smallerName a b = a ∧ largerName a b = b) ∨ (smallerName a b = b ∧ largerName a b = a)) ∧
    ¬ List.Lex (· < ·) (largerName a b) (smallerName a b) ∧
    (∀ (env : Env) (fs : FileSystem) (aid bid : Nat) (text : Str),
      saveChatMessage env fs a aid b bid text
        = if fs.writable then
            if fs.existingContent (generateChatFileName a b) = [] then
              fs.write (generateChatFileName a b)
                (newChatDocument env (smallerName a b ++ str "_" ++ largerName a b) a b
                  (chatMessageObject env (smallerName a b ++ str "_" ++ largerName a b) a aid b
                    bid (escapeMessageText text)))
            else if env.jsonValid (fs.existingContent (generateChatFileName a b)) then
              fs.write (generateChatFileName a b)
                (appendChatMessage (fs.existingContent (generateChatFileName a b))
                  (chatMessageObject env (smallerName a b ++ str "_" ++ largerName a b) a aid b
                    bid (escapeMessageText text)))
            else
              fs.write (generateChatFileName a b)
                (newChatDocument env (smallerName a b ++ str "_" ++ largerName a b) a b
                  (chatMessageObject env (smallerName a b ++ str "_" ++ largerName a b) a aid b
                    bid (escapeMessageText text)))
          else fs) ∧
    (∀ (env : Env) (aid bid : Nat) (escaped newMessage : Str),
      str "      \"conversation_id\": \"" ++ (smallerName a b ++ str "_" ++ largerName a b) ++
          str "\",\n"
        <:+: chatMessageObject env (smallerName a b ++ str "_" ++ largerName a b) a aid b bid
          escaped ∧
      str "  \"conversation_id\": \"" ++ (smallerName a b ++ str "_" ++ largerName a b) ++
          str "\",\n"
        <:+: newChatDocument env (smallerName a b ++ str "_" ++ largerName a b) a b
          newMessage) := by
  obtain ⟨hab, hba⟩ := sortedNames_eq a b
  refine ⟨?_, ?_, ?_, ?_, ?_, ?_⟩
  · unfold generateChatFileName
    rw [hab, hba]
  · unfold generateChatFileName
    rw [hab]
  · unfold smallerName largerName
    cases strLt b a <;> simp
  · rw [← strLt_iff_lex]
    unfold smallerName largerName
    cases hba' : strLt b a with
    | true => simp [strLt_asymm b a hba']
    | false => simp [hba']
  · intro env fs aid bid text
    unfold saveChatMessage
    rw [hab]
  · intro env aid bid escaped newMessage
    constructor
    · refine ⟨str "    \x7b\n" ++ str "      \"message_id\": " ++ to_string env.timestamp ++
        str ",\n", ?_, ?_⟩
      · exact str "      \"sender_username\": \"" ++ a ++ str "\",\n" ++
          str "      \"sender_user_id\": " ++ to_string aid ++ str ",\n" ++
          str "      \"recipient_username\": \"" ++ b ++ str "\",\n" ++
          str "      \"recipient_user_id\": " ++ to_string bid ++ str ",\n" ++
          str "      \"message_text\": \"" ++ escaped ++ str "\",\n" ++
          str "      \"timestamp\": \"" ++ env.timeStr ++ str "\",\n" ++
          str "      \"message_type\": \"direct_message\"\n" ++
          str "    \x7d"
      · simp only [chatMessageObject, List.append_assoc]
    · refine ⟨str "\x7b\n", ?_, ?_⟩
      · exact str "  \"participants\": [\"" ++ a ++ str "\", \"" ++ b ++ str "\"],\n" ++
          str "  \"created_date\": \"" ++ env.timeStr ++ str "\",\n" ++
          str "  \"messages\": [\n" ++
          newMessage ++ str "\n" ++
          str "  ]\n" ++
          str "\x7d\n"
      · simp only [newChatDocument, List.append_assoc]

/-! ## Claim C18 -/

theorem findFrom_single_absent (q : Nat) (l : Str) (i : Nat) (h : q ∉ l) :
    findFrom [q] l i = npos := by
  induction l generalizing i with
  | nil => simp [findFrom]
  | cons c cs ih =>
    have hc : ¬ q = c := fun e => h (e ▸ List.mem_cons_self _ _)
    have hcs : q ∉ cs := fun e => h (List.mem_cons_of_mem _ e)
    unfold findFrom
    simp [List.isPrefixOf, hc, ih _ hcs]

theorem findFrom_single_first (q : Nat) (pre post : Str) (i : Nat) (h : q ∉ pre) :
    findFrom [q] (pre ++ q :: post) i = i + pre.length := by
  induction pre generalizing i with
  | nil => simp [findFrom, List.isPrefixOf]
  | cons c cs ih =>
    have hc : ¬ q = c := fun e => h (e ▸ List.mem_cons_self _ _)
    have hcs : q ∉ cs := fun e => h (List.mem_cons_of_mem _ e)
    have hb : (q == c) = false := by simp [hc]
    rw [List.cons_append]
    unfold findFrom
    simp only [List.isPrefixOf, hb, Bool.false_and, Bool.false_eq_true, if_false]
    rw [ih _ hcs]
    simp only [List.length_cons]
    omega

theorem exists_first_occurrence (q : Nat) (l : Str) (h : q ∈ l) :
    ∃ pre post : Str, l = pre ++ q :: post ∧ q ∉ pre := by
  induction l with
  | nil => exact absurd h (List.not_mem_nil _)
  | cons c cs ih =>
    by_cases hc : q = c
    · exact ⟨[], cs, by simp [hc], List.not_mem_nil _⟩
    · have hcs : q ∈ cs := by
        rcases List.mem_cons.1 h with e | e
        · exact absurd e hc
        · exact e
      obtain ⟨pre, post, hl, hpre⟩ := ih hcs
      refine ⟨c :: pre, post, by simp [hl], ?_⟩
      intro hmem
      rcases List.mem_cons.1 hmem with e | e
      · exact hc e
      · exact hpre e

theorem escapeQuotes_no_quote (l : Str) (h : 34 ∉ l) : escapeQuotes l = l := by
  induction l with
  | nil => rfl
  | cons c cs ih =>
    have hc : ¬ c = 34 := fun e => h (e ▸ List.mem_cons_self _ _)
    have hcs : 34 ∉ cs := fun e => h (List.mem_cons_of_mem _ e)
    simp [escapeQuotes, hc, ih hcs]

theorem escapeQuotes_append (pre post : Str) (h : 34 ∉ pre) :
    escapeQuotes (pre ++ 34 :: post) = pre ++ [92, 34] ++ escapeQuotes post := by
  induction pre with
  | nil => simp [escapeQuotes]
  | cons c cs ih =>
    have hc : ¬ c = 34 := fun e => h (e ▸ List.mem_cons_self _ _)
    have hcs : 34 ∉ cs := fun e => h (List.mem_cons_of_mem _ e)
    simp [escapeQuotes, hc, ih hcs]

theorem escapeQuotes_length (l : Str) : (escapeQuotes l).length ≤ 2 * l.length := by
  induction l with
  | nil => simp [escapeQuotes]
  | cons c cs ih =>
    by_cases hc : c = 34
    · simp [escapeQuotes, hc]; omega
    · simp [escapeQuotes, hc]; omega

theorem escapeQuotes_mem (l : Str) (c : Nat) (hc : c ∈ l) (h34 : c ≠ 34) :
    c ∈ escapeQuotes l := by
  induction l with
  | nil => exact absurd hc (List.not_mem_nil _)
  | cons x xs ih =>
    rcases List.mem_cons.1 hc with e | e
    · subst e
      simp [escapeQuotes, h34]
    · have := ih e
      simp only [escapeQuotes, List.mem_append]
      exact Or.inr this

/-- The first escaping loop, run with enough fuel from a position up to which the
string is done: it escapes the double quotes of the rest and leaves `pos` at
`npos`. -/
theorem escapeLoop_quotes (fuel : Nat) (done rest : Str) (hfuel : rest.length + 1 ≤ fuel)
    (hsize : done.length + 2 * rest.length + 2 < 2 ^ 64) :
    escapeLoop [34] [92, 34] fuel (done ++ rest) done.length
      = (done ++ escapeQuotes rest, npos) := by
  induction fuel generalizing done rest with
  | zero => omega
  | succ fuel ih =>
    have hfind : strFind (done ++ rest) [34] done.length = findFrom [34] rest done.length := by
      unfold strFind
      simp
    unfold escapeLoop
    rw [hfind]
    by_cases hq : 34 ∈ rest
    · obtain ⟨pre, post, hrest, hpre⟩ := exists_first_occurrence 34 rest hq
      have hlen : rest.length = pre.length + 1 + post.length := by
        rw [hrest]; simp; omega
      have hp : findFrom [34] rest done.length = done.length + pre.length := by
        rw [hrest]; exact findFrom_single_first 34 pre post _ hpre
      have hne : ¬ done.length + pre.length = npos := by
        unfold npos; omega
      have hmod : (done.length + pre.length + 2) % 2 ^ 64 = done.length + pre.length + 2 :=
        Nat.mod_eq_of_lt (by omega)
      have hrep : strReplace (done ++ rest) (done.length + pre.length) 1 [92, 34]
          = (done ++ pre ++ [92, 34]) ++ post := by
        unfold strReplace
        rw [hrest]
        have h1 : (done ++ (pre ++ 34 :: post)).take (done.length + pre.length) = done ++ pre := by
          rw [← List.append_assoc, ← List.length_append]
          exact List.take_left _ _
        have h2 : (done ++ (pre ++ 34 :: post)).drop (done.length + pre.length + 1) = post := by
          have : done ++ (pre ++ 34 :: post) = (done ++ pre ++ [34]) ++ post := by simp
          rw [this]
          have hl : done.length + pre.length + 1 = (done ++ pre ++ [34]).length := by
            simp only [List.length_append, List.length_cons, List.length_nil]
          rw [hl]
          exact List.drop_left _ _
        rw [h1, h2]
      have hpos : done.length + pre.length + 2 = (done ++ pre ++ [92, 34]).length := by
        simp only [List.length_append, List.length_cons, List.length_nil]
      rw [hp, if_neg hne, hmod, hrep, hpos]
      rw [ih (done ++ pre ++ [92, 34]) post (by omega) (by simp; omega)]
      rw [hrest, escapeQuotes_append pre post hpre]
      simp
    · rw [findFrom_single_absent 34 rest _ hq, if_pos rfl, escapeQuotes_no_quote rest hq]

/-- A later escaping loop that starts with `pos` at `npos` does nothing. -/
theorem escapeLoop_from_npos (needle repl : Str) (fuel : Nat) (s : Str)
    (hsize : s.length < npos) :
    escapeLoop needle repl (fuel + 1) s npos = (s, npos) := by
  unfold escapeLoop
  have : strFind s needle npos = npos := by
    unfold strFind
    rw [if_neg (by omega)]
  rw [this, if_pos rfl]

/-- The three loops together escape the double quotes only: the loops for
newlines and carriage returns start with `pos` at `npos`, where the first loop
has left it, and find nothing. -/
theorem escapeMessageText_eq_escapeQuotes (text : Str) (hsize : 2 * text.length + 2 < 2 ^ 64) :
    escapeMessageText text = escapeQuotes text := by
  have h1 := escapeLoop_quotes (text.length + 1) [] text (Nat.le_refl _) (by simpa using hsize)
  have hl := escapeQuotes_length text
  have hnpos : (escapeQuotes text).length < npos := by unfold npos; omega
  unfold escapeMessageText
  simp only [str] at *
  simp only [List.nil_append, List.length_nil] at h1
  have hq : escapeLoop ("\"".toList.map Char.toNat) ("\\\"".toList.map Char.toNat)
      (text.length + 1) text 0 = (escapeQuotes text, npos) := h1
  simp only [hq, escapeLoop_from_npos _ _ _ _ hnpos]

/-- C18 on the code: for the text `a"b`, newline, `c`, carriage return, `d`, the
text that `saveChatMessage` writes has the double quote escaped but keeps the
newline and the carriage return as raw bytes, where the specification has the
two-character escapes; and for every text (of a size a `std::string` can
have) the written text is the input with only the double quotes escaped, so
every newline and carriage return of the input is written raw. -/
theorem escape_leaves_newlines :
    escapeMessageText (str "a\"b\nc\rd") = str "a\\\"b\nc\rd" ∧
    escapeSpecified (str "a\"b\nc\rd") = str "a\\\"b\\nc\\rd" ∧
    10 ∈ escapeMessageText (str "a\"b\nc\rd") ∧ 13 ∈ escapeMessageText (str "a\"b\nc\rd") ∧
    (∀ text : Str, 2 * text.length + 2 < 2 ^ 64 →
      escapeMessageText text = escapeQuotes text ∧
      (10 ∈ text → 10 ∈ escapeMessageText text) ∧
      (13 ∈ text → 13 ∈ escapeMessageText text)) := by
  refine ⟨by decide, by decide, by decide, by decide, ?_⟩
  intro text hsize
  have h := escapeMessageText_eq_escapeQuotes text hsize
  rw [h]
  exact ⟨rfl, fun hm => escapeQuotes_mem _ _ hm (by decide),
    fun hm => escapeQuotes_mem _ _ hm (by decide)⟩

/-! ## Claim C21 -/

/-- C21 on the code: abc_def, ghi, abc and def_ghi all pass `validateUsername`,
the unordered pairs (abc_def, ghi) and (abc, def_ghi) are different, and
`generateChatFileName` returns chat_abc_def_ghi.json for both: the two pairs
share one log file. -/
theorem chat_file_name_collision :
    ((validateUsername (str "abc_def") []).1 = true ∧ (validateUsername (str "ghi") []).1 = true ∧
      (validateUsername (str "abc") []).1 = true ∧
      (validateUsername (str "def_ghi") []).1 = true) ∧
    ¬ ((str "abc_def" = str "abc" ∧ str "ghi" = str "def_ghi") ∨
        (str "abc_def" = str "def_ghi" ∧ str "ghi" = str "abc")) ∧
    generateChatFileName (str "abc_def") (str "ghi") = str "chat_abc_def_ghi.json" ∧
    generateChatFileName (str "abc") (str "def_ghi") = str "chat_abc_def_ghi.json" ∧
    generateChatFileName (str "abc_def") (str "ghi")
      = generateChatFileName (str "abc") (str "def_ghi") := by
  refine ⟨⟨by decide, by decide, by decide, by decide⟩, by decide, by decide, by decide,
    by decide⟩

/-! ## Claim C22 -/

/-- On the example server with alice and bob logged in, a direct message of at
most 10000 bytes from alice to bob is forwarded to bob, confirmed to alice
and saved to the log of the pair. -/
theorem bothOnline_direct (text : Str) (hlen : text.length ≤ 10000) :
    (bothOnline.onMessage exampleEnv (openConnection 10000) (directFrame 10002 text)).sent
      = bothOnline.sent ++
        [(10001, packString ((newMsg CustomMsgTypes.DirectMessage).append 4 10001) text),
         (10000, serverMessage (str "Your message has been delivered to bob"))] ∧
    (bothOnline.onMessage exampleEnv (openConnection 10000) (directFrame 10002 text)).chatFiles
      = saveChatMessage exampleEnv bothOnline.chatFiles (str "alice") 10001 (str "bob") 10002
          text := by
  have hs : mapFind bothOnline.authenticatedUsers (openConnection 10000).id
      = some (str "alice") := by decide
  have hres := onDirectMessage_resolved exampleEnv bothOnline (openConnection 10000)
    (directFrame 10002 text).reset_read_position bothOnlineUsers (str "alice") 10002 text
    (by decide) hs rfl (by norm_num) hlen rfl
  have hrec : connectedRecipient bothOnline.m_deqConnections
      (bothOnline.authenticatedUsers.find? (fun p => decide (bothOnlineUsers.userID p.2 = 10002)))
      = some (openConnection 10001, str "bob") := by decide
  have hid : bothOnlineUsers.userID (str "alice") = 10001 := by decide
  rw [hrec, hid] at hres
  rw [onMessage_direct _ _ _ _ rfl, hres]
  exact ⟨rfl, rfl⟩

/-- C22 as stated fails: alice (connection 10000) sends bob (user 10002,
connection 10001) a `DirectMessage` whose text has 8193 bytes.  The handler
does not reject it: bob is sent the `DirectMessage` with the text, alice the
confirmation, and the text is saved to a new log chat_alice_bob.json. -/
theorem direct_message_8193_delivered :
    (List.replicate 8193 97).length = 8193 ∧
    (bothOnline.onMessage exampleEnv (openConnection 10000)
        (directFrame 10002 (List.replicate 8193 97))).sent
      = bothOnline.sent ++
        [(10001, packString ((newMsg CustomMsgTypes.DirectMessage).append 4 10001)
            (List.replicate 8193 97)),
         (10000, serverMessage (str "Your message has been delivered to bob"))] ∧
    bothOnline.chatFiles.read (str "chat_alice_bob.json") = none ∧
    (bothOnline.onMessage exampleEnv (openConnection 10000)
        (directFrame 10002 (List.replicate 8193 97))).chatFiles.read (str "chat_alice_bob.json")
      = some (newChatDocument exampleEnv (str "alice_bob") (str "alice") (str "bob")
          (chatMessageObject exampleEnv (str "alice_bob") (str "alice") 10001 (str "bob") 10002
            (escapeMessageText (List.replicate 8193 97)))) := by
  have hlen : (List.replicate 8193 97 : Str).length ≤ 10000 := by
    rw [List.length_replicate]; norm_num
  have h := bothOnline_direct (List.replicate 8193 97) hlen
  have hname : generateChatFileName (str "alice") (str "bob") = str "chat_alice_bob.json" := by
    decide
  have hconv : sortedNames (str "alice") (str "bob") = str "alice_bob" := by decide
  have hempty : bothOnline.chatFiles.existingContent
      (generateChatFileName (str "alice") (str "bob")) = [] := by decide
  have hsave := (saveChatMessage_effect exampleEnv bothOnline.chatFiles (str "alice") 10001
    (str "bob") 10002 (List.replicate 8193 97) (by decide)).2.1 hempty
  rw [hname, hconv] at hsave
  refine ⟨List.length_replicate _ _, h.1, by decide, ?_⟩
  rw [h.2]
  exact hsave

/-- C22, amended: a `DirectMessage` with a well-formed body whose text is longer
than 10000 bytes is rejected: nothing is appended to any chat log (the files
are as before) and no `DirectMessage` frame is sent to anyone.  From a sender
that is logged in nothing at all is sent; a sender that is not logged in gets
at most the `ServerMessage` that asks to log in. -/
theorem direct_message_size_limit (env : Env) (s : CustomServer) (client : connection)
    (msg : message) (rid : Nat) (text : Str)
    (hkind : msg.header.id = CustomMsgTypes.DirectMessage)
    (hbody : msg.body = leBytes 4 rid ++ wireString text)
    (hrid : rid < 2 ^ 32) (hlen : text.length < 2 ^ 32) (hlong : 10000 < text.length) :
    (s.onMessage env client msg).chatFiles = s.chatFiles ∧
    ((s.onMessage env client msg).sent = s.sent ∨
      (s.onMessage env client msg).sent
        = s.sent ++
          [(client.id, serverMessage
            (str "Error: You must be logged in to send private messages"))]) ∧
    (∀ sname : Str, mapFind s.authenticatedUsers client.id = some sname →
      (s.onMessage env client msg).sent = s.sent) := by
  rw [onMessage_direct env s client msg hkind]
  cases hsender : mapFind s.authenticatedUsers client.id with
  | none =>
    have hun : s.onDirectMessage env client msg.reset_read_position
        = s.SendMessageToClient (some client)
            (str "Error: You must be logged in to send private messages") := by
      unfold CustomServer.onDirectMessage
      simp only [hsender]
    rw [hun]
    unfold CustomServer.SendMessageToClient
    by_cases hopen : client.isConnected = true
    · simp only [hopen, if_true]
      exact ⟨rfl, Or.inr rfl, fun _ h => absurd h (by simp)⟩
    · simp only [hopen, if_false]
      exact ⟨rfl, Or.inl rfl, fun _ h => absurd h (by simp)⟩
  | some sname =>
    rw [onDirectMessage_too_long env s client msg.reset_read_position sname rid text hsender
      hbody hrid hlen hlong rfl]
    exact ⟨rfl, Or.inl rfl, fun _ _ => rfl⟩

/-- C22, amended, at a concrete server: alice sends bob a text of 10001 bytes;
nothing is saved and nothing is sent. -/
theorem direct_message_size_limit_witness :
    ((directFrame 10002 (List.replicate 10001 97)).header.id = CustomMsgTypes.DirectMessage ∧
      (directFrame 10002 (List.replicate 10001 97)).body
        = leBytes 4 10002 ++ wireString (List.replicate 10001 97) ∧
      10002 < 2 ^ 32 ∧ (List.replicate 10001 97).length < 2 ^ 32 ∧
      10000 < (List.replicate 10001 97).length) ∧
    mapFind bothOnline.authenticatedUsers (openConnection 10000).id = some (str "alice") ∧
    (bothOnline.onMessage exampleEnv (openConnection 10000)
        (directFrame 10002 (List.replicate 10001 97))).chatFiles = bothOnline.chatFiles ∧
    (bothOnline.onMessage exampleEnv (openConnection 10000)
        (directFrame 10002 (List.replicate 10001 97))).sent = bothOnline.sent :=
  ⟨⟨rfl, rfl, by norm_num, by rw [List.length_replicate]; norm_num,
      by rw [List.length_replicate]; norm_num⟩,
   by decide,
   (direct_message_size_limit exampleEnv bothOnline (openConnection 10000)
      (directFrame 10002 (List.replicate 10001 97)) 10002 (List.replicate 10001 97) rfl rfl
      (by norm_num) (by rw [List.length_replicate]; norm_num)
      (by rw [List.length_replicate]; norm_num)).1,
   (direct_message_size_limit exampleEnv bothOnline (openConnection 10000)
      (directFrame 10002 (List.replicate 10001 97)) 10002 (List.replicate 10001 97) rfl rfl
      (by norm_num) (by rw [List.length_replicate]; norm_num)
      (by rw [List.length_replicate]; norm_num)).2.2 (str "alice") (by decide)⟩

/-! ## Claim C23 -/

/-- C23 as stated fails: alice (user 10001, connection 10000) sends a
`DirectMessage` whose recipient id is her own user id 10001.  The server does
not reject it: the `DirectMessage` frame is sent to her own connection, she
gets the confirmation "Your message has been delivered to alice", and the
message is saved to a new log chat_alice_alice.json. -/
theorem self_message_delivered :
    mapFind bothOnline.authenticatedUsers (openConnection 10000).id = some (str "alice") ∧
    (bothOnline.userManager.getUserID (str "alice")).2 = 10001 ∧
    (bothOnline.onMessage exampleEnv (openConnection 10000) (directFrame 10001 (str "hi"))).sent
      = bothOnline.sent ++
        [(10000, packString ((newMsg CustomMsgTypes.DirectMessage).append 4 10001) (str "hi")),
         (10000, serverMessage (str "Your message has been delivered to alice"))] ∧
    bothOnline.chatFiles.files = [] ∧
    (bothOnline.onMessage exampleEnv (openConnection 10000)
        (directFrame 10001 (str "hi"))).chatFiles.read (str "chat_alice_alice.json")
      = some (newChatDocument exampleEnv (str "alice_alice") (str "alice") (str "alice")
          (chatMessageObject exampleEnv (str "alice_alice") (str "alice") 10001 (str "alice") 10001
            (str "hi"))) := by
  refine ⟨by decide, by decide, by decide!, by decide, by decide!⟩

/-- C23, amended: the server has no check for a message to oneself.  A
`DirectMessage` with a well-formed body of at most 10000 text bytes whose
recipient id is the user id of the sender, from an open connection that is in
the deque and is the one session with that user id, is handled like any other
direct message: it is saved with `saveChatMessage` for the pair (sender,
sender), and the `DirectMessage` frame and the confirmation are both sent to
the connection of the sender. -/
theorem self_message_not_rejected (env : Env) (s : CustomServer) (client : connection)
    (msg : message) (doc : UsersDocument) (sname : Str) (text : Str)
    (hkind : msg.header.id = CustomMsgTypes.DirectMessage)
    (hbody : msg.body = leBytes 4 (doc.userID sname) ++ wireString text)
    (hrid : doc.userID sname < 2 ^ 32) (hlen : text.length ≤ 10000)
    (hfile : s.userManager.database_file = some doc)
    (hsender : mapFind s.authenticatedUsers client.id = some sname)
    (hmem : (client.id, sname) ∈ s.authenticatedUsers)
    (huniq : ∀ p ∈ s.authenticatedUsers, doc.userID p.2 = doc.userID sname → p = (client.id, sname))
    (hconn : getClientByID s.m_deqConnections client.id = some client)
    (hopen : client.isConnected = true) :
    (s.onMessage env client msg).sent
      = s.sent ++
        [(client.id,
            packString ((newMsg CustomMsgTypes.DirectMessage).append 4 (doc.userID sname)) text),
         (client.id, serverMessage (str "Your message has been delivered to " ++ sname))] ∧
    (s.onMessage env client msg).chatFiles
      = saveChatMessage env s.chatFiles sname (doc.userID sname) sname (doc.userID sname) text := by
  have hres := onDirectMessage_resolved env s client msg.reset_read_position doc sname
    (doc.userID sname) text hfile hsender hbody hrid hlen rfl
  have hfind : s.authenticatedUsers.find? (fun p => decide (doc.userID p.2 = doc.userID sname))
      = some (client.id, sname) :=
    find?_unique _ _ (client.id, sname) hmem (by simp)
      (fun y hy hq => huniq y hy (by simpa using hq))
  have hcon : connectedRecipient s.m_deqConnections (some (client.id, sname))
      = some (client, sname) := by
    simp [connectedRecipient, hconn, hopen]
  rw [onMessage_direct env s client msg hkind, hres, hfind, hcon]
  simp only [SendMessageToClient_connected _ _ _ hopen, CustomServer.send]
  exact ⟨by simp, trivial⟩

/-- C23, amended, at a concrete server: alice sends "hi" to her own user id. -/
theorem self_message_not_rejected_witness :
    ((directFrame 10001 (str "hi")).header.id = CustomMsgTypes.DirectMessage ∧
      (directFrame 10001 (str "hi")).body
        = leBytes 4 (bothOnlineUsers.userID (str "alice")) ++ wireString (str "hi") ∧
      bothOnlineUsers.userID (str "alice") < 2 ^ 32 ∧ (str "hi").length ≤ 10000 ∧
      bothOnline.userManager.database_file = some bothOnlineUsers ∧
      mapFind bothOnline.authenticatedUsers (openConnection 10000).id = some (str "alice") ∧
      ((openConnection 10000).id, str "alice") ∈ bothOnline.authenticatedUsers ∧
      (∀ p ∈ bothOnline.authenticatedUsers,
        bothOnlineUsers.userID p.2 = bothOnlineUsers.userID (str "alice") →
        p = ((openConnection 10000).id, str "alice")) ∧
      getClientByID bothOnline.m_deqConnections (openConnection 10000).id
        = some (openConnection 10000) ∧
      (openConnection 10000).isConnected = true) ∧
    (bothOnline.onMessage exampleEnv (openConnection 10000) (directFrame 10001 (str "hi"))).sent
      = bothOnline.sent ++
        [((openConnection 10000).id,
            packString ((newMsg CustomMsgTypes.DirectMessage).append 4
              (bothOnlineUsers.userID (str "alice"))) (str "hi")),
         ((openConnection 10000).id,
            serverMessage (str "Your message has been delivered to " ++ str "alice"))] :=
  ⟨⟨rfl, by decide, by decide, by decide, by decide, by decide, by decide, by decide, by decide,
      rfl⟩,
   (self_message_not_rejected exampleEnv bothOnline (openConnection 10000)
      (directFrame 10001 (str "hi")) bothOnlineUsers (str "alice") (str "hi") rfl (by decide)
      (by decide) (by decide) (by decide) (by decide) (by decide) (by decide) (by decide) rfl).1⟩

/-! ## Claim C24 -/

/-- C24 on the code: alice is logged in on connection 10000, which is open, and
bob logs in on connection 10001.  The login succeeds; the only messages sent
are the `LoginResponse` and the `ServerAccept` to bob: alice is sent nothing,
although the handler calls `BroadcastMessage` with "User bob has logged in".
`BroadcastMessage` never sends anything: it leaves the server as it was. -/
theorem login_not_announced :
    mapFind beforeBobLogin.authenticatedUsers 10000 = some (str "alice") ∧
    sessionOpen beforeBobLogin.m_deqConnections 10000 = true ∧
    (beforeBobLogin.onMessage exampleEnv (openConnection 10001)
        (loginFrame (str "bob") (str "s3cret"))).sent
      = beforeBobLogin.sent ++
        [(10001, responseMessage CustomMsgTypes.LoginResponse true
            (str "Login successful. Welcome back, bob!")),
         (10001, (newMsg CustomMsgTypes.ServerAccept).append 4 10002)] ∧
    mapFind (beforeBobLogin.onMessage exampleEnv (openConnection 10001)
        (loginFrame (str "bob") (str "s3cret"))).authenticatedUsers 10001 = some (str "bob") ∧
    (∀ (s : CustomServer) (text : Str) (excludeClient : Option connection),
      s.BroadcastMessage text excludeClient = s) := by
  refine ⟨by decide, by decide, by decide!, by decide!, fun _ _ _ => rfl⟩

/-! ## Claim C25 -/

/-- C27: `onClientDisconnect` for a connection that `authenticatedUsers` maps to
the username `u` erases the key of the connection from `authenticatedUsers`
and the key `u` from `userToClientMap`: both keys are absent afterwards, and
every other entry of both maps is as before (the maps are the old ones
without those keys, in the old order).  For a connection without an entry in
`authenticatedUsers`, both maps are unchanged. -/
theorem onClientDisconnect_registry (s : CustomServer) (client : connection) :
    (∀ u : Str, mapFind s.authenticatedUsers client.id = some u →
      mapFind (s.onClientDisconnect client).authenticatedUsers client.id = none ∧
      mapFind (s.onClientDisconnect client).userToClientMap u = none ∧
      (∀ c : Nat, c ≠ client.id →
        mapFind (s.onClientDisconnect client).authenticatedUsers c
          = mapFind s.authenticatedUsers c) ∧
      (∀ v : Str, v ≠ u →
        mapFind (s.onClientDisconnect client).userToClientMap v = mapFind s.userToClientMap v) ∧
      (s.onClientDisconnect client).authenticatedUsers
        = s.authenticatedUsers.filter (fun p => decide (p.1 ≠ client.id)) ∧
      (s.onClientDisconnect client).userToClientMap
        = s.userToClientMap.filter (fun p => decide (p.1 ≠ u))) ∧
    (mapFind s.authenticatedUsers client.id = none →
      (s.onClientDisconnect client).authenticatedUsers = s.authenticatedUsers ∧
      (s.onClientDisconnect client).userToClientMap = s.userToClientMap) := by
  constructor
  · intro u h
    have hauth : (s.onClientDisconnect client).authenticatedUsers
        = mapErase s.authenticatedUsers client.id := by
      unfold CustomServer.onClientDisconnect
      simp only [h, CustomServer.BroadcastMessage]
    have hmap : (s.onClientDisconnect client).userToClientMap
        = mapErase s.userToClientMap u := by
      unfold CustomServer.onClientDisconnect
      simp only [h, CustomServer.BroadcastMessage]
    rw [hauth, hmap]
    refine ⟨mapFind_mapErase_self _ _, mapFind_mapErase_self _ _,
      fun c hc => mapFind_mapErase_ne _ _ _ hc, fun v hv => mapFind_mapErase_ne _ _ _ hv, ?_, ?_⟩
    · unfold mapErase
      congr 1
      funext p
      by_cases hp : p.1 = client.id <;> simp [hp]
    · unfold mapErase
      congr 1
      funext p
      by_cases hp : p.1 = u <;> simp [hp]
  · intro h
    unfold CustomServer.onClientDisconnect
    simp only [h]
    exact ⟨trivial, trivial⟩

/-- C27 at a concrete server: alice (connection 10000) and bob (connection 10001)
are logged in and connection 10000 disconnects; the entries of alice leave
both maps and the entries of bob stay.  Connection 10002 has no entry, and
its disconnect changes neither map. -/
theorem onClientDisconnect_registry_witness :
    mapFind bothOnline.authenticatedUsers (openConnection 10000).id = some (str "alice") ∧
    mapFind bothOnline.authenticatedUsers (openConnection 10002).id = none ∧
    (mapFind (bothOnline.onClientDisconnect (openConnection 10000)).authenticatedUsers
        (openConnection 10000).id = none ∧
      mapFind (bothOnline.onClientDisconnect (openConnection 10000)).userToClientMap
        (str "alice") = none) ∧
    ((bothOnline.onClientDisconnect (openConnection 10002)).authenticatedUsers
        = bothOnline.authenticatedUsers ∧
      (bothOnline.onClientDisconnect (openConnection 10002)).userToClientMap
        = bothOnline.userToClientMap) ∧
    (bothOnline.onClientDisconnect (openConnection 10000)).authenticatedUsers
      = [(10001, str "bob")] ∧
    (bothOnline.onClientDisconnect (openConnection 10000)).userToClientMap
      = [(str "bob", 10001)] :=
  ⟨by decide, by decide,
   ⟨((onClientDisconnect_registry bothOnline (openConnection 10000)).1 (str "alice")
        (by decide)).1,
    ((onClientDisconnect_registry bothOnline (openConnection 10000)).1 (str "alice")
        (by decide)).2.1⟩,
   (onClientDisconnect_registry bothOnline (openConnection 10002)).2 (by decide),
   by decide, by decide⟩

/-! ## Claim C29 -/

/-- C29 on the code: for a header whose size field is 1, `ReadHeader` computes
the body size 1 - 8 on `size_t`, which wraps to 2^64 - 7, and resizes the
body to that length: far above the size field, not 0.  The same happens for
every size from 1 to 7.  For the size 0, the size 8 and every larger 32-bit
size the body length is the size minus 8 (0 when the size is at most 8), as
the claim says. -/
theorem read_header_small_size_wraps :
    ReadHeader 1 = .readBody (2 ^ 64 - 7) ∧
    (ReadHeader 1).bodyLength = 18446744073709551609 ∧
    (ReadHeader 1).bodyLength > 1 ∧
    (∀ s : Nat, 1 ≤ s → s ≤ 7 →
      (ReadHeader s).bodyLength = 2 ^ 64 - 8 + s ∧ (ReadHeader s).bodyLength > s) ∧
    (∀ s : Nat, s < 2 ^ 32 → (s = 0 ∨ 8 ≤ s) →
      (ReadHeader s).bodyLength = s - 8 ∧ (ReadHeader s).bodyLength ≤ s) := by
  refine ⟨by decide, by decide, by decide, ?_, ?_⟩
  · intro s h1 h7
    have hs : s = 1 ∨ s = 2 ∨ s = 3 ∨ s = 4 ∨ s = 5 ∨ s = 6 ∨ s = 7 := by omega
    rcases hs with h | h | h | h | h | h | h <;> subst h <;> decide
  · intro s hs hcase
    rcases hcase with h0 | h8
    · subst h0
      decide
    · have hmod : (s + 2 ^ 64 - sizeofHeader) % 2 ^ 64 = s - 8 := by
        have h1 : s + 2 ^ 64 - sizeofHeader = (s - 8) + 2 ^ 64 := by
          unfold sizeofHeader
          omega
        rw [h1, Nat.add_mod_right]
        exact Nat.mod_eq_of_lt (by omega)
      unfold ReadHeader
      rw [hmod]
      by_cases hgt : s - 8 > 0
      · have hpos : s > 0 := by omega
        simp only [hpos, hgt, if_true, HeaderAction.bodyLength]
        exact ⟨trivial, by omega⟩
      · have hpos : s > 0 := by omega
        have hz : s - 8 = 0 := by omega
        simp only [hpos, hz, if_true, HeaderAction.bodyLength, gt_iff_lt, Nat.lt_irrefl, if_false]
        exact ⟨trivial, by omega⟩

/-! ## Claim C30 -/

/-- C30 as stated fails: the store has no database file and the file cannot be
created.  `registerUser` for carol returns false, yet carol has been appended
to the in-memory list with id 10001 and `last_user_id` has gone from 10000 to
10001. -/
theorem failed_register_keeps_user :
    unwritableStore.users = [] ∧ unwritableStore.last_user_id = 10000 ∧
    (unwritableStore.registerUser { User.new with username := str "carol" }).2 = false ∧
    (unwritableStore.registerUser { User.new with username := str "carol" }).1.users
      = [{ User.new with username := str "carol", id := 10001 }] ∧
    (unwritableStore.registerUser { User.new with username := str "carol" }).1.last_user_id
      = 10001 := by
  refine ⟨by decide, by decide, by decide, by decide, by decide⟩

/-- C30, amended: when `registerUser` returns false because the username is
already in the list, the store is the same as before the call.  When it
returns false because the save fails, the user has been appended to the
in-memory list with the next id and `last_user_id` has been incremented
(modulo 2^32): the method does not undo them. -/
theorem registerUser_failure (m : UserManager) (user : User)
    (hfail : (m.registerUser user).2 = false) :
    (findUser m.users user.username ≠ none → (m.registerUser user).1 = m) ∧
    (findUser m.users user.username = none →
      m.writable = false ∧
      (m.registerUser user).1.users
        = m.users ++ [{ user with id := (m.last_user_id + 1) % 2 ^ 32 }] ∧
      (m.registerUser user).1.last_user_id = (m.last_user_id + 1) % 2 ^ 32) := by
  cases hf : findUser m.users user.username with
  | some e =>
    refine ⟨fun _ => ?_, fun h => absurd h (by simp)⟩
    unfold UserManager.registerUser
    rw [hf]
  | none =>
    refine ⟨fun h => absurd rfl h, fun _ => ?_⟩
    have hm := saveUsers_memory
      ({ m with last_user_id := (m.last_user_id + 1) % 2 ^ 32,
                users := m.users ++ [{ user with id := (m.last_user_id + 1) % 2 ^ 32 }] }
        : UserManager)
    unfold UserManager.registerUser at hfail ⊢
    rw [hf] at hfail
    simp only [hf] at hfail ⊢
    refine ⟨?_, hm.1, hm.2.1⟩
    rw [hm.2.2.2] at hfail
    exact hfail

/-- C30, amended, at a concrete store: the registration of carol in the store
whose file cannot be created. -/
theorem registerUser_failure_witness :
    (unwritableStore.registerUser { User.new with username := str "carol" }).2 = false ∧
    findUser unwritableStore.users (str "carol") = none ∧
    (unwritableStore.registerUser { User.new with username := str "carol" }).1.users
      = unwritableStore.users ++
        [{ ({ User.new with username := str "carol" } : User) with
            id := (unwritableStore.last_user_id + 1) % 2 ^ 32 }] :=
  ⟨by decide, by decide,
   ((registerUser_failure unwritableStore { User.new with username := str "carol" }
      (by decide)).2 (by decide)).2.1⟩

/-! ## Lemmas on the formatters of the chat history -/

theorem findFrom_prefix (needle s : Str) (i : Nat) (h : needle <+: s) :
    findFrom needle s i = i := by
  cases s with
  | nil =>
    have : needle = [] := List.prefix_nil.1 h
    simp [findFrom, this]
  | cons c cs =>
    unfold findFrom
    rw [if_pos (List.isPrefixOf_iff_prefix.2 h)]

theorem strFind_prefix (needle s : Str) (h : needle <+: s) : strFind s needle 0 = 0 := by
  unfold strFind
  rw [if_pos (Nat.zero_le _), List.drop_zero]
  exact findFrom_prefix needle s 0 h

theorem loadChatHistory_eq (env : Env) (fs : FileSystem) (a b : Str) :
    loadChatHistory env fs a b
      = if fs.existingContent (generateChatFileName a b) = [] then str "\x7b\"messages\": []\x7d"
        else env.extractMessagesOnly (fs.existingContent (generateChatFileName a b)) := by
  unfold loadChatHistory FileSystem.existingContent
  cases fs.read (generateChatFileName a b) with
  | none => rfl
  | some content => rfl

theorem extractMessagesOnly_cases (lib : JsonLibrary) (full : Str) :
    extractMessagesOnly lib full = str "Error loading chat history. Please try again." ∨
    ∃ (messages : List Json) (lines : Str),
      ((lib.iterate full).bind (fun doc => doc.field (str "messages"))).bind Json.asArray
        = some messages ∧
      extractLines lib messages = some lines ∧
      extractMessagesOnly lib full
        = str "=== Chat History ===\n\n" ++ lines ++
          (if messages.isEmpty then str "No messages in this chat yet.\n" else []) ++
          str "\n=== End of History ===" := by
  unfold extractMessagesOnly
  cases hm : ((lib.iterate full).bind (fun doc => doc.field (str "messages"))).bind
      Json.asArray with
  | none => exact Or.inl rfl
  | some messages =>
    simp only []
    cases hl : extractLines lib messages with
    | none => exact Or.inl rfl
    | some lines => exact Or.inr ⟨messages, lines, rfl, hl, rfl⟩

/-- A text that is not empty and does not hold the marker of a formatted history
goes to the parser. -/
theorem formatChatHistory_parsed (lib : JsonLibrary) (raw : Str) (h1 : raw ≠ [])
    (h2 : strFind raw (str "=== Chat History ===") 0 = npos) :
    formatChatHistory lib raw
      = match lib.parse raw with
        | none => str "Error: Invalid JSON format in chat history."
        | some doc =>
          str "\n=== CHAT HISTORY ===\n" ++ historyLines doc ++ str "=== END OF HISTORY ===\n" := by
  unfold formatChatHistory
  rw [if_neg h1, if_neg (by simpa using h2)]

/-- A text that starts with the marker of a formatted history is returned as it
is. -/
theorem formatChatHistory_formatted (lib : JsonLibrary) (rest : Str) :
    formatChatHistory lib (str "=== Chat History ===" ++ rest)
      = str "=== Chat History ===" ++ rest := by
  have hne : str "=== Chat History ===" ++ rest ≠ [] := by
    intro h
    have := congrArg List.length h
    rw [List.length_append] at this
    have hl : (str "=== Chat History ===").length = 20 := by decide
    rw [hl] at this
    simp at this
  have hfind : strFind (str "=== Chat History ===" ++ rest) (str "=== Chat History ===") 0 = 0 :=
    strFind_prefix _ _ ⟨rest, rfl⟩
  unfold formatChatHistory
  rw [if_neg hne, hfind, if_pos (by decide)]

theorem upper_marker_take (t : Str) (h : str "=== CHAT HISTORY ===" <+: t) :
    t.take 6 = str "=== CH" := by
  obtain ⟨r, hr⟩ := h
  rw [← hr]
  rfl

theorem parsed_not_upper_prefix (lib : JsonLibrary) (raw : Str) :
    ¬ (str "=== CHAT HISTORY ===" <+:
      (match lib.parse raw with
        | none => str "Error: Invalid JSON format in chat history."
        | some doc =>
          str "\n=== CHAT HISTORY ===\n" ++ historyLines doc ++
            str "=== END OF HISTORY ===\n")) := by
  intro h
  have ht := upper_marker_take _ h
  cases hp : lib.parse raw with
  | none =>
    rw [hp] at ht
    exact absurd ht (by decide)
  | some doc =>
    rw [hp] at ht
    have h0 : (str "\n=== CHAT HISTORY ===\n" ++ historyLines doc ++
        str "=== END OF HISTORY ===\n").take 6 = str "\n=== C" := rfl
    rw [h0] at ht
    exact absurd ht (by decide)

theorem chatTranscript_no_log (lib : JsonLibrary) (env : Env) (fs : FileSystem) (a b : Str)
    (hempty : fs.existingContent (generateChatFileName a b) = []) :
    chatTranscript lib env fs a b
      = match lib.parse (str "\x7b\"messages\": []\x7d") with
        | none => str "Error: Invalid JSON format in chat history."
        | some doc =>
          str "\n=== CHAT HISTORY ===\n" ++ historyLines doc ++ str "=== END OF HISTORY ===\n" := by
  unfold chatTranscript
  rw [loadChatHistory_eq, if_pos hempty]
  exact formatChatHistory_parsed lib _ (by decide) (by decide)

theorem chatTranscript_log (lib : JsonLibrary) (env : Env) (fs : FileSystem) (a b : Str)
    (hlog : fs.existingContent (generateChatFileName a b) ≠ []) :
    chatTranscript lib env fs a b
      = formatChatHistory lib
          (extractMessagesOnly lib (fs.existingContent (generateChatFileName a b))) := by
  unfold chatTranscript
  rw [loadChatHistory_eq, if_neg hlog]
  rfl

theorem loadChatHistory_ne_nil (lib : JsonLibrary) (env : Env) (fs : FileSystem) (a b : Str) :
    loadChatHistory (env.withLibrary lib) fs a b ≠ [] := by
  rw [loadChatHistory_eq]
  split
  · decide
  · show extractMessagesOnly lib _ ≠ []
    rcases extractMessagesOnly_cases lib (fs.existingContent (generateChatFileName a b)) with
      h | ⟨messages, lines, _, _, h⟩
    · rw [h]
      decide
    · rw [h]
      intro hnil
      have := congrArg List.length hnil
      simp only [List.length_append, List.length_nil] at this
      have hl : (str "=== Chat History ===\n\n").length = 22 := by decide
      omega

/-! ## Claim C26 -/

/-- C26 as stated fails: alice has sent "hi" to bob, so the pair has a log, and
alice sends a `ChatHistoryRequest` for bob.  The transcript of the
`ChatHistoryResponse` is the text of `extractMessagesOnly`, which
`formatChatHistory` returns as it is: it begins with "=== Chat History ==="
and ends with "=== End of History ===", not with the upper-case markers.  For
a pair without a log the transcript begins with a newline before "=== CHAT
HISTORY ===" and ends with a newline after "=== END OF HISTORY ===". -/
theorem history_markers_differ :
    chattedServer.chatFiles.read (str "chat_alice_bob.json") = some aliceBobLog ∧
    (chattedServer.onMessage libraryEnv (openConnection 10000) (historyFrame 10002)).sent
      = chattedServer.sent ++
        [(10000, packString ((newMsg CustomMsgTypes.ChatHistoryResponse).append 4 10002)
          (str "=== Chat History ===\n\n[12:00:00] alice: hi\n\n=== End of History ==="))] ∧
    ¬ (str "=== CHAT HISTORY ===" <+:
        str "=== Chat History ===\n\n[12:00:00] alice: hi\n\n=== End of History ===") ∧
    ¬ (str "=== END OF HISTORY ===" <:+
        str "=== Chat History ===\n\n[12:00:00] alice: hi\n\n=== End of History ===") ∧
    (bothOnline.onMessage libraryEnv (openConnection 10000) (historyFrame 10002)).sent
      = bothOnline.sent ++
        [(10000, packString ((newMsg CustomMsgTypes.ChatHistoryResponse).append 4 10002)
          (str "\n=== CHAT HISTORY ===\n=== END OF HISTORY ===\n"))] ∧
    ¬ (str "=== CHAT HISTORY ===" <+: str "\n=== CHAT HISTORY ===\n=== END OF HISTORY ===\n") ∧
    ¬ (str "=== END OF HISTORY ===" <:+
        str "\n=== CHAT HISTORY ===\n=== END OF HISTORY ===\n") := by
  refine ⟨by decide!, by decide!, by decide, by decide, by decide!, by decide, by decide⟩

/-- The `ChatHistoryRequest` case for a sender that is logged in and a user id
that the store knows: the one message sent is the `ChatHistoryResponse` with
the transcript of the pair. -/
theorem onChatHistoryRequest_sent (lib : JsonLibrary) (env : Env) (s : CustomServer)
    (client : connection) (msg : message) (requester : Str)
    (hs : mapFind s.authenticatedUsers client.id = some requester)
    (hother : s.userManager.getUsernameByID (msg.extract 4 0).2 ≠ []) :
    (s.onChatHistoryRequest (env.withLibrary lib) client msg).sent
      = s.sent ++
        [(client.id,
          packString ((newMsg CustomMsgTypes.ChatHistoryResponse).append 4 (msg.extract 4 0).2)
            (chatTranscript lib env s.chatFiles requester
              (s.userManager.getUsernameByID (msg.extract 4 0).2)))] := by
  unfold CustomServer.onChatHistoryRequest
  simp only [hs, hother, if_false]
  rfl

/-- The `ChatResponse` case for a sender that is logged in, a requester that is
found and connected, and an accepting answer: the requester gets the
`ChatResponse`, then both get a `ChatHistoryResponse` with the transcript of
the pair, then the sender gets the confirmation. -/
theorem onChatResponse_accepted (lib : JsonLibrary) (env : Env) (s : CustomServer)
    (client recipient : connection) (msg : message) (sname rname : Str)
    (hs : mapFind s.authenticatedUsers client.id = some sname)
    (hfound : connectedRecipient s.m_deqConnections
      (findRecipient (msg.extract 4 0).2 s.userManager s.authenticatedUsers).2
      = some (recipient, rname))
    (hacc : ((msg.extract 4 0).1.extract 1 0).2 ≠ 0) :
    (s.onChatResponse (env.withLibrary lib) client msg).sent
      = s.sent ++
        [(recipient.id,
            ((newMsg CustomMsgTypes.ChatResponse).append 4
              ((findRecipient (msg.extract 4 0).2 s.userManager
                s.authenticatedUsers).1.getUserID sname).2).append 1
              ((msg.extract 4 0).1.extract 1 0).2),
         (client.id,
            packString ((newMsg CustomMsgTypes.ChatHistoryResponse).append 4 (msg.extract 4 0).2)
              (chatTranscript lib env s.chatFiles sname rname)),
         (recipient.id,
            packString ((newMsg CustomMsgTypes.ChatHistoryResponse).append 4
              ((findRecipient (msg.extract 4 0).2 s.userManager
                s.authenticatedUsers).1.getUserID sname).2)
              (chatTranscript lib env s.chatFiles sname rname))] ++
        (if client.isConnected then
          [(client.id, serverMessage (str "You accepted chat request from " ++ rname))]
         else []) := by
  have hraw := loadChatHistory_ne_nil lib env s.chatFiles sname rname
  unfold CustomServer.onChatResponse
  simp only [hs, hfound, hacc, ne_eq, not_false_eq_true, if_true, CustomServer.send, hraw]
  unfold CustomServer.SendMessageToClient chatTranscript
  by_cases hopen : client.isConnected = true
  · simp only [hopen, if_true, CustomServer.send, serverMessage, List.append_assoc]
    rfl
  · simp only [hopen, if_false, List.append_assoc, List.append_nil]
    rfl

/-- C26, amended: the transcript of a `ChatHistoryResponse` for a private pair is
`formatChatHistory` of what `loadChatHistory` returns for the pair, on a
`ChatHistoryRequest` and after an accepted `ChatResponse` alike.  It never
begins with "=== CHAT HISTORY ===".  For a pair without a log (or with an
empty one) it is a newline, "=== CHAT HISTORY ===", a newline, "=== END OF
HISTORY ===" and a newline (the parser reading the document without
messages).  For a pair whose log `extractMessagesOnly` can read it is the
text of `extractMessagesOnly`, returned as it is: it begins with
"=== Chat History ===" and ends with "=== End of History ===". -/
theorem chat_history_transcript (lib : JsonLibrary) (env : Env) (fs : FileSystem) (a b : Str) :
    ¬ (str "=== CHAT HISTORY ===" <+: chatTranscript lib env fs a b) ∧
    (fs.existingContent (generateChatFileName a b) = [] →
      lib.parse (str "\x7b\"messages\": []\x7d") = some (.object [(str "messages", .array [])]) →
      chatTranscript lib env fs a b = str "\n=== CHAT HISTORY ===\n=== END OF HISTORY ===\n") ∧
    (∀ (messages : List Json) (lines : Str),
      fs.existingContent (generateChatFileName a b) ≠ [] →
      ((lib.iterate (fs.existingContent (generateChatFileName a b))).bind
          (fun doc => doc.field (str "messages"))).bind Json.asArray = some messages →
      extractLines lib messages = some lines →
      chatTranscript lib env fs a b
        = str "=== Chat History ===\n\n" ++ lines ++
          (if messages.isEmpty then str "No messages in this chat yet.\n" else []) ++
          str "\n=== End of History ===" ∧
      str "=== Chat History ===" <+: chatTranscript lib env fs a b ∧
      str "=== End of History ===" <:+ chatTranscript lib env fs a b) ∧
    (∀ (s : CustomServer) (client : connection) (msg : message),
      s.chatFiles = fs → mapFind s.authenticatedUsers client.id = some a →
      s.userManager.getUsernameByID (msg.extract 4 0).2 = b → b ≠ [] →
      (s.onChatHistoryRequest (env.withLibrary lib) client msg).sent
        = s.sent ++
          [(client.id,
            packString ((newMsg CustomMsgTypes.ChatHistoryResponse).append 4 (msg.extract 4 0).2)
              (chatTranscript lib env fs a b))]) ∧
    (∀ (s : CustomServer) (client recipient : connection) (msg : message),
      s.chatFiles = fs → mapFind s.authenticatedUsers client.id = some a →
      connectedRecipient s.m_deqConnections
        (findRecipient (msg.extract 4 0).2 s.userManager s.authenticatedUsers).2
        = some (recipient, b) →
      ((msg.extract 4 0).1.extract 1 0).2 ≠ 0 →
      ∃ (before after : List (Nat × message)) (senderUserID : Nat),
        (s.onChatResponse (env.withLibrary lib) client msg).sent
          = before ++
            [(client.id,
                packString
                  ((newMsg CustomMsgTypes.ChatHistoryResponse).append 4 (msg.extract 4 0).2)
                  (chatTranscript lib env fs a b)),
             (recipient.id,
                packString ((newMsg CustomMsgTypes.ChatHistoryResponse).append 4 senderUserID)
                  (chatTranscript lib env fs a b))] ++ after ∧
        (∀ e ∈ before ++ after, e ∈ s.sent ∨
          e.2.header.id ≠ CustomMsgTypes.ChatHistoryResponse)) := by
  refine ⟨?_, ?_, ?_, ?_, ?_⟩
  · by_cases hempty : fs.existingContent (generateChatFileName a b) = []
    · rw [chatTranscript_no_log lib env fs a b hempty]
      exact parsed_not_upper_prefix lib _
    · rw [chatTranscript_log lib env fs a b hempty]
      rcases extractMessagesOnly_cases lib (fs.existingContent (generateChatFileName a b)) with
        h | ⟨messages, lines, _, _, h⟩
      · rw [h, formatChatHistory_parsed lib _ (by decide) (by decide)]
        exact parsed_not_upper_prefix lib _
      · have hform : str "=== Chat History ===\n\n" ++ lines ++
            (if messages.isEmpty then str "No messages in this chat yet.\n" else []) ++
            str "\n=== End of History ==="
            = str "=== Chat History ===" ++ (str "\n\n" ++ lines ++
              (if messages.isEmpty then str "No messages in this chat yet.\n" else []) ++
              str "\n=== End of History ===") := by
          simp only [List.append_assoc]
          rfl
        rw [h, hform, formatChatHistory_formatted]
        intro hp
        have ht := upper_marker_take _ hp
        have h0 : (str "=== Chat History ===" ++ (str "\n\n" ++ lines ++
              (if messages.isEmpty then str "No messages in this chat yet.\n" else []) ++
              str "\n=== End of History ===")).take 6 = str "=== Ch" := rfl
        rw [h0] at ht
        exact absurd ht (by decide)
  · intro hempty hparse
    rw [chatTranscript_no_log lib env fs a b hempty, hparse]
    rfl
  · intro messages lines hlog hmessages hlines
    have hform : str "=== Chat History ===\n\n" ++ lines ++
        (if messages.isEmpty then str "No messages in this chat yet.\n" else []) ++
        str "\n=== End of History ==="
        = str "=== Chat History ===" ++ (str "\n\n" ++ lines ++
          (if messages.isEmpty then str "No messages in this chat yet.\n" else []) ++
          str "\n=== End of History ===") := by
      simp only [List.append_assoc]
      rfl
    have hext : extractMessagesOnly lib (fs.existingContent (generateChatFileName a b))
        = str "=== Chat History ===\n\n" ++ lines ++
          (if messages.isEmpty then str "No messages in this chat yet.\n" else []) ++
          str "\n=== End of History ===" := by
      unfold extractMessagesOnly
      simp only [hmessages, hlines]
    have ht : chatTranscript lib env fs a b
        = str "=== Chat History ===\n\n" ++ lines ++
          (if messages.isEmpty then str "No messages in this chat yet.\n" else []) ++
          str "\n=== End of History ===" := by
      rw [chatTranscript_log lib env fs a b hlog, hext, hform, formatChatHistory_formatted]
    refine ⟨ht, ?_, ?_⟩
    · rw [ht, hform]
      exact ⟨_, rfl⟩
    · rw [ht]
      refine ⟨str "=== Chat History ===\n\n" ++ lines ++
        (if messages.isEmpty then str "No messages in this chat yet.\n" else []) ++ str "\n", ?_⟩
      simp only [List.append_assoc]
      rfl
  · intro s client msg hfs hs hb hne
    subst hfs
    subst hb
    exact onChatHistoryRequest_sent lib env s client msg a hs hne
  · intro s client recipient msg hfs hs hfound hacc
    subst hfs
    refine ⟨s.sent ++
        [(recipient.id,
          ((newMsg CustomMsgTypes.ChatResponse).append 4
            ((findRecipient (msg.extract 4 0).2 s.userManager
              s.authenticatedUsers).1.getUserID a).2).append 1
            ((msg.extract 4 0).1.extract 1 0).2)],
      (if client.isConnected then
        [(client.id, serverMessage (str "You accepted chat request from " ++ b))]
       else []),
      ((findRecipient (msg.extract 4 0).2 s.userManager s.authenticatedUsers).1.getUserID a).2,
      ?_, ?_⟩
    · rw [onChatResponse_accepted lib env s client recipient msg a b hs hfound hacc]
      simp only [List.append_assoc, List.cons_append, List.nil_append]
    · intro e he
      rcases List.mem_append.1 he with h1 | h2
      · rcases List.mem_append.1 h1 with h3 | h4
        · exact Or.inl h3
        · right
          rw [List.mem_singleton] at h4
          rw [h4]
          simp only [append_id]
          decide
      · right
        by_cases hopen : client.isConnected = true
        · simp only [hopen, if_true, List.mem_singleton] at h2
          rw [h2]
          show (serverMessage _).header.id ≠ _
          unfold serverMessage
          rw [packString_id]
          decide
        · have hclosed : client.isConnected = false := by simpa using hopen
          rw [hclosed] at h2
          exact absurd h2 (List.not_mem_nil _)

theorem exampleLibrary_iterate (text : Str) :
    exampleLibrary.iterate text
      = if text = str "\x7b\"messages\": []\x7d" then
          some (Json.object [(str "messages", Json.array [])])
        else if text = aliceBobLog then some aliceBobLogJson else none := rfl

/-- C26, amended, at concrete files: the log of alice and bob that holds "hi", and
the files before any message. -/
theorem chat_history_transcript_witness :
    chattedServer.chatFiles.existingContent (generateChatFileName (str "alice") (str "bob"))
      = aliceBobLog ∧
    chatTranscript exampleLibrary exampleEnv chattedServer.chatFiles (str "alice") (str "bob")
      = str "=== Chat History ===\n\n[12:00:00] alice: hi\n\n=== End of History ===" ∧
    bothOnline.chatFiles.existingContent (generateChatFileName (str "alice") (str "bob")) = [] ∧
    chatTranscript exampleLibrary exampleEnv bothOnline.chatFiles (str "alice") (str "bob")
      = str "\n=== CHAT HISTORY ===\n=== END OF HISTORY ===\n" := by
  have hlog : chattedServer.chatFiles.existingContent
      (generateChatFileName (str "alice") (str "bob")) = aliceBobLog := by decide!
  have hother : ¬ aliceBobLog = str "\x7b\"messages\": []\x7d" := by decide
  have hiter : exampleLibrary.iterate aliceBobLog = some aliceBobLogJson := by
    rw [exampleLibrary_iterate, if_neg hother, if_pos rfl]
  have h := (chat_history_transcript exampleLibrary exampleEnv chattedServer.chatFiles
    (str "alice") (str "bob")).2.2.1
    [.object
      [(str "message_id", .number 1735732800000),
       (str "conversation_id", .string (str "alice_bob")),
       (str "sender_username", .string (str "alice")),
       (str "sender_user_id", .number 10001),
       (str "recipient_username", .string (str "bob")),
       (str "recipient_user_id", .number 10002),
       (str "message_text", .string (str "hi")),
       (str "timestamp", .string (str "2025-01-01 12:00:00")),
       (str "message_type", .string (str "direct_message"))]]
    (str "[12:00:00] alice: hi\n")
    (by rw [hlog]; decide)
    (by rw [hlog, hiter]; rfl)
    rfl
  exact ⟨hlog, h.1, by decide,
    (chat_history_transcript exampleLibrary exampleEnv bothOnline.chatFiles (str "alice")
      (str "bob")).2.1 (by decide) rfl⟩

/-! ## Lemmas on the insertion point of `saveChatMessage` -/

theorem rfindUpTo_closing (i : Nat) (hi : i ≤ npos) :
    rfindUpTo (str "  ]") npos (str "  ]\n\x7d\n") i = i := by
  have h5 : ∀ j, rfindUpTo (str "  ]") npos [] j = npos := by
    intro j
    unfold rfindUpTo
    simp [str]
  have hstep : ∀ (c : Nat) (cs : Str) (j : Nat),
      rfindUpTo (str "  ]") npos cs (j + 1) = npos →
      (str "  ]").isPrefixOf (c :: cs) = false →
      rfindUpTo (str "  ]") npos (c :: cs) j = npos := by
    intro c cs j hrec hpre
    rw [rfindUpTo]
    simp [hrec, hpre]
  have h4 : ∀ j, rfindUpTo (str "  ]") npos (str "\n") j = npos :=
    fun j => hstep _ _ j (h5 _) (by decide)
  have h3 : ∀ j, rfindUpTo (str "  ]") npos (str "\x7d\n") j = npos :=
    fun j => hstep _ _ j (h4 _) (by decide)
  have h2 : ∀ j, rfindUpTo (str "  ]") npos (str "\n\x7d\n") j = npos :=
    fun j => hstep _ _ j (h3 _) (by decide)
  have h1 : ∀ j, rfindUpTo (str "  ]") npos (str "]\n\x7d\n") j = npos :=
    fun j => hstep _ _ j (h2 _) (by decide)
  have h0 : ∀ j, rfindUpTo (str "  ]") npos (str " ]\n\x7d\n") j = npos :=
    fun j => hstep _ _ j (h1 _) (by decide)
  have hcons : str "  ]\n\x7d\n" = 32 :: str " ]\n\x7d\n" := by decide
  rw [hcons, rfindUpTo, h0]
  have hpre : (str "  ]").isPrefixOf (32 :: str " ]\n\x7d\n") = true := by decide
  simp [hi, hpre]

theorem rfindUpTo_append_closing (X : Str) (i : Nat) (h : i + X.length < npos) :
    rfindUpTo (str "  ]") npos (X ++ str "  ]\n\x7d\n") i = i + X.length := by
  induction X generalizing i with
  | nil => simpa using rfindUpTo_closing i (by simp at h; omega)
  | cons c cs ih =>
    have hrec := ih (i + 1) (by simp only [List.length_cons] at h; omega)
    rw [List.cons_append, rfindUpTo, hrec]
    have hne : i + 1 + cs.length ≠ npos := by
      simp only [List.length_cons] at h
      omega
    simp only [ne_eq, hne, not_false_eq_true, if_true, List.length_cons]
    omega

theorem strRfind_closing (X : Str) (h : X.length < npos) :
    strRfind (X ++ str "  ]\n\x7d\n") (str "  ]") npos = X.length := by
  unfold strRfind
  rw [rfindUpTo_append_closing X 0 (by omega)]
  omega

theorem findFrom_occurrence (needle pre rest : Str) (i : Nat) :
    i ≤ findFrom needle (pre ++ needle ++ rest) i ∧
    findFrom needle (pre ++ needle ++ rest) i ≤ i + pre.length := by
  induction pre generalizing i with
  | nil =>
    have := findFrom_prefix needle ([] ++ needle ++ rest) i ⟨rest, by simp⟩
    rw [this]
    simp
  | cons c cs ih =>
    simp only [List.cons_append]
    unfold findFrom
    split
    · simp
    · have := ih (i + 1)
      simp only [List.length_cons]
      omega

theorem strFind_single_mem (s : Str) (q : Nat) (h : q ∈ s) (hlen : s.length < npos) :
    strFind s [q] 0 ≠ npos := by
  obtain ⟨pre, post, hs, hpre⟩ := exists_first_occurrence q s h
  unfold strFind
  rw [if_pos (Nat.zero_le _), List.drop_zero, hs, findFrom_single_first q pre post 0 hpre]
  have : pre.length ≤ s.length := by
    rw [hs]
    simp
  omega

/-- The text that `saveChatMessage` writes back for a file that ends with the
closing of the messages array and of the document, and whose messages
section holds an opening brace: the new object goes right before the closing
`  ]`, after a comma and a newline, and is followed by a newline; the rest of
the file is kept. -/
theorem appendChatMessage_layout (pre mid new : Str)
    (hsize : (pre ++ str "\"messages\": [" ++ mid).length < npos) (hbrace : 123 ∈ mid) :
    appendChatMessage (pre ++ str "\"messages\": [" ++ mid ++ str "  ]\n\x7d\n") new
      = pre ++ str "\"messages\": [" ++ mid ++ (str ",\n" ++ new ++ str "\n") ++
        str "  ]\n\x7d\n" := by
  have hM : (str "\"messages\": [").length = 13 := by decide
  have hXlen : (pre ++ str "\"messages\": [" ++ mid).length = pre.length + 13 + mid.length := by
    simp only [List.length_append, hM]
  have hr := strRfind_closing (pre ++ str "\"messages\": [" ++ mid) hsize
  have hE : pre ++ str "\"messages\": [" ++ mid ++ str "  ]\n\x7d\n"
      = pre ++ str "\"messages\": [" ++ (mid ++ str "  ]\n\x7d\n") := by
    simp only [List.append_assoc]
  have hp := findFrom_occurrence (str "\"messages\": [") pre (mid ++ str "  ]\n\x7d\n") 0
  have hfind : strFind (pre ++ str "\"messages\": [" ++ mid ++ str "  ]\n\x7d\n")
      (str "\"messages\": [") 0
      = findFrom (str "\"messages\": [") (pre ++ str "\"messages\": [" ++
          (mid ++ str "  ]\n\x7d\n")) 0 := by
    unfold strFind
    rw [if_pos (Nat.zero_le _), List.drop_zero, hE]
  rw [← hfind] at hp
  generalize hpdef : strFind (pre ++ str "\"messages\": [" ++ mid ++ str "  ]\n\x7d\n")
      (str "\"messages\": [") 0 = p at hp
  have hple : p ≤ pre.length := by omega
  have hnpos : npos = 2 ^ 64 - 1 := rfl
  have hcount : ((pre ++ str "\"messages\": [" ++ mid).length + 2 ^ 64 - p + 2 ^ 64 - 13) % 2 ^ 64
      = (pre ++ str "\"messages\": [" ++ mid).length - (p + 13) := by
    have h1 : (pre ++ str "\"messages\": [" ++ mid).length + 2 ^ 64 - p + 2 ^ 64 - 13
        = ((pre ++ str "\"messages\": [" ++ mid).length - (p + 13)) + 2 ^ 64 + 2 ^ 64 := by
      omega
    rw [h1, Nat.add_mod_right, Nat.add_mod_right]
    exact Nat.mod_eq_of_lt (by omega)
  have hsection : strSubstr (pre ++ str "\"messages\": [" ++ mid ++ str "  ]\n\x7d\n") (p + 13)
      ((pre ++ str "\"messages\": [" ++ mid).length - (p + 13))
      = (pre ++ str "\"messages\": [").drop (p + 13) ++ mid := by
    unfold strSubstr
    have hle : p + 13 ≤ (pre ++ str "\"messages\": [" ++ mid).length := by omega
    rw [List.drop_append_of_le_length hle]
    have hl : ((pre ++ str "\"messages\": [" ++ mid).drop (p + 13)).length
        = (pre ++ str "\"messages\": [" ++ mid).length - (p + 13) := List.length_drop _ _
    rw [← hl, List.take_left]
    have hle2 : p + 13 ≤ (pre ++ str "\"messages\": [").length := by
      simp only [List.length_append, hM]
      omega
    rw [List.drop_append_of_le_length hle2]
  have hsec : strFind (strSubstr (pre ++ str "\"messages\": [" ++ mid ++ str "  ]\n\x7d\n")
      (p + 13) ((pre ++ str "\"messages\": [" ++ mid).length - (p + 13))) (str "\x7b") 0
      ≠ npos := by
    rw [hsection]
    refine strFind_single_mem _ 123 (List.mem_append_right _ hbrace) ?_
    have : ((pre ++ str "\"messages\": [").drop (p + 13) ++ mid).length
        ≤ (pre ++ str "\"messages\": [" ++ mid).length := by
      simp only [List.length_append, List.length_drop, hM]
      omega
    omega
  have hne1 : (pre ++ str "\"messages\": [" ++ mid).length ≠ npos := by omega
  have hne2 : p ≠ npos := by omega
  unfold appendChatMessage
  rw [hr, hpdef, hcount, if_pos hne1, if_pos hne2, if_pos hsec]
  unfold strInsert
  rw [List.take_left, List.drop_left]

/-! ## Lemmas on sequences of `saveChatMessage` calls -/

theorem joinObjects_snoc (objects : List Str) (object : Str) (h : objects ≠ []) :
    joinObjects (objects ++ [object]) = joinObjects objects ++ str "\n,\n" ++ object := by
  induction objects with
  | nil => exact absurd rfl h
  | cons o rest ih =>
    cases rest with
    | nil => rfl
    | cons o2 rest2 =>
      have := ih (by simp)
      simp only [List.cons_append] at this ⊢
      simp only [joinObjects]
      rw [this]
      simp only [List.append_assoc]

theorem joinObjects_mem (object : Str) (rest : List Str) (c : Nat) (h : c ∈ object) :
    c ∈ joinObjects (object :: rest) := by
  cases rest with
  | nil => exact h
  | cons o2 rest2 =>
    simp only [joinObjects, List.mem_append]
    exact Or.inl (Or.inl h)

theorem chatLogText_snoc (first : ChatSave) (objects : List Str) (object : Str)
    (h : objects ≠ []) :
    chatLogText first (objects ++ [object])
      = chatLogBody first objects ++ (str ",\n" ++ object ++ str "\n") ++ str "  ]\n\x7d\n" := by
  unfold chatLogText chatLogBody
  rw [joinObjects_snoc objects object h]
  simp only [List.append_assoc]
  rfl

theorem object_has_brace (env : Env) (c : ChatSave) : 123 ∈ c.object env := by
  unfold ChatSave.object chatMessageObject
  simp only [List.append_assoc]
  exact List.mem_append_left _ (by decide)

theorem newChatDocument_layout (env : Env) (first : ChatSave) :
    newChatDocument (first.env env) (sortedNames first.senderUsername first.recipientUsername)
        first.senderUsername first.recipientUsername (first.object env)
      = chatLogText first [first.object env] := by
  unfold newChatDocument chatLogText chatLogBody chatLogHead joinObjects
  simp only [List.append_assoc]
  rfl

theorem chatLogText_readLines (first : ChatSave) (objects : List Str) :
    readLines (chatLogText first objects) = chatLogText first objects ∧
    chatLogText first objects ≠ [] := by
  have hne : chatLogText first objects ≠ [] := by
    unfold chatLogText
    intro h
    have := congrArg List.length h
    rw [List.length_append] at this
    have hl : (str "  ]\n\x7d\n").length = 6 := by decide
    rw [hl] at this
    simp at this
  refine ⟨?_, hne⟩
  unfold readLines
  rw [if_neg hne]
  have hlast : (chatLogText first objects).getLast? = some 10 := by
    unfold chatLogText
    rw [List.getLast?_append]
    rfl
  rw [if_pos hlast]

theorem saveChatMessage_writable (env : Env) (fs : FileSystem) (a : Str) (aid : Nat) (b : Str)
    (bid : Nat) (text : Str) :
    (saveChatMessage env fs a aid b bid text).writable = fs.writable := by
  unfold saveChatMessage
  simp only []
  split
  · split
    · rfl
    · split <;> rfl
  · rfl

theorem take_succ_snoc {α : Type} (l : List α) (k : Nat) (h : k < l.length) :
    ∃ c, c ∈ l ∧ l.take (k + 1) = l.take k ++ [c] := by
  induction l generalizing k with
  | nil => simp at h
  | cons x xs ih =>
    cases k with
    | zero => exact ⟨x, List.mem_cons_self _ _, rfl⟩
    | succ k =>
      obtain ⟨c, hc, hk⟩ := ih k (by simpa using h)
      exact ⟨c, List.mem_cons_of_mem _ hc, by simp [List.take, hk]⟩

theorem saveAll_snoc (env : Env) (fs : FileSystem) (calls : List ChatSave) (c : ChatSave) :
    saveAll env fs (calls ++ [c]) = c.run env (saveAll env fs calls) := by
  unfold saveAll
  rw [List.foldl_append]
  rfl

/-- The file of the pair after the call that creates it and `k` further calls,
each of which finds a file that parses. -/
theorem saveAll_read (env : Env) (fs : FileSystem) (name : Str) (first : ChatSave)
    (rest : List ChatSave) (hw : fs.writable = true) (hfresh : fs.existingContent name = [])
    (hname : ∀ c ∈ first :: rest,
      generateChatFileName c.senderUsername c.recipientUsername = name)
    (hjson : ∀ k, k < rest.length →
      env.jsonValid (chatLogText first ((first :: rest.take k).map (ChatSave.object env))) = true)
    (hsize : ∀ k, k ≤ rest.length →
      (chatLogText first ((first :: rest.take k).map (ChatSave.object env))).length < 2 ^ 64 - 1)
    (k : Nat) (hk : k ≤ rest.length) :
    (saveAll env fs (first :: rest.take k)).read name
      = some (chatLogText first ((first :: rest.take k).map (ChatSave.object env))) ∧
    (saveAll env fs (first :: rest.take k)).writable = true := by
  induction k with
  | zero =>
    have hn := hname first (List.mem_cons_self _ _)
    have hsave := (saveChatMessage_effect (first.env env) fs first.senderUsername
      first.senderUserID first.recipientUsername first.recipientUserID first.messageText hw).2.1
      (by rw [hn]; exact hfresh)
    rw [hn] at hsave
    have hrun : saveAll env fs (first :: rest.take 0) = first.run env fs := rfl
    rw [hrun]
    refine ⟨?_, ?_⟩
    · unfold ChatSave.run
      rw [hsave]
      exact congrArg some (newChatDocument_layout env first)
    · unfold ChatSave.run
      rw [saveChatMessage_writable]
      exact hw
  | succ k ih =>
    obtain ⟨hread, hwr⟩ := ih (by omega)
    obtain ⟨c, hc, htake⟩ := take_succ_snoc rest k (by omega)
    have hn := hname c (List.mem_cons_of_mem _ hc)
    have hcalls : first :: rest.take (k + 1) = (first :: rest.take k) ++ [c] := by
      rw [htake]
      rfl
    rw [hcalls, saveAll_snoc, List.map_append]
    generalize hF : saveAll env fs (first :: rest.take k) = F at hread hwr ⊢
    have hobjs : (first :: rest.take k).map (ChatSave.object env)
        = first.object env :: (rest.take k).map (ChatSave.object env) := rfl
    generalize hO : (first :: rest.take k).map (ChatSave.object env) = objects at hread hobjs ⊢
    have hj := hjson k (by omega)
    have hs := hsize k (by omega)
    rw [hO] at hj hs
    have hne : objects ≠ [] := by
      rw [hobjs]
      simp
    have hexisting : F.existingContent name = chatLogText first objects := by
      unfold FileSystem.existingContent
      rw [hread]
      exact (chatLogText_readLines first objects).1
    have hnonempty := (chatLogText_readLines first objects).2
    have hC : (str "  ]\n\x7d\n").length = 6 := by decide
    have hlayout := appendChatMessage_layout (chatLogHead first)
      (str "\n" ++ joinObjects objects ++ str "\n") (c.object env)
      (by
        have : (chatLogText first objects).length
            = (chatLogHead first ++ str "\"messages\": [" ++
                (str "\n" ++ joinObjects objects ++ str "\n")).length + 6 := by
          unfold chatLogText chatLogBody
          rw [List.length_append, hC]
        unfold npos
        omega)
      (by
        rw [hobjs]
        exact List.mem_append_left _
          (List.mem_append_right _ (joinObjects_mem _ _ 123 (object_has_brace env first))))
    have htext : chatLogText first objects
        = chatLogHead first ++ str "\"messages\": [" ++
          (str "\n" ++ joinObjects objects ++ str "\n") ++ str "  ]\n\x7d\n" := rfl
    rw [← htext] at hlayout
    have hresult : appendChatMessage (chatLogText first objects) (c.object env)
        = chatLogText first (objects ++ [c.object env]) := by
      rw [hlayout, chatLogText_snoc first objects (c.object env) hne]
      rfl
    have hrun : c.run env F
        = F.write name (appendChatMessage (chatLogText first objects) (c.object env)) := by
      unfold ChatSave.run saveChatMessage
      simp only [hn, hwr, if_true, hexisting, hnonempty, if_false]
      have hjv : (c.env env).jsonValid (chatLogText first objects) = true := hj
      rw [if_pos hjv]
      rfl
    rw [hrun, hresult]
    exact ⟨read_write_self _ _ _, hwr⟩

/-! ## Claim C28 -/

/-- C28: a fresh file of a pair is created by the call `first` and then extended
by the calls of `rest`, all for the same file name, each finding a file that
still parses as JSON (the files can be written and stay below the largest
string size).  After the first call and `k` further calls the file is the
document whose messages array holds exactly the objects of these `k + 1`
calls, in the order of the calls.  Each further call keeps the text of the
file up to the last object and its newline, so every earlier object is
unchanged and in its place, and inserts a comma, a newline, the new object
and a newline right before the closing `  ]` of the array. -/
theorem saveChatMessage_log_order (env : Env) (fs : FileSystem) (name : Str) (first : ChatSave)
    (rest : List ChatSave) (hw : fs.writable = true) (hfresh : fs.existingContent name = [])
    (hname : ∀ c ∈ first :: rest,
      generateChatFileName c.senderUsername c.recipientUsername = name)
    (hjson : ∀ k, k < rest.length →
      env.jsonValid (chatLogText first ((first :: rest.take k).map (ChatSave.object env))) = true)
    (hsize : ∀ k, k ≤ rest.length →
      (chatLogText first ((first :: rest.take k).map (ChatSave.object env))).length
        < 2 ^ 64 - 1) :
    (∀ k, k ≤ rest.length →
      (saveAll env fs (first :: rest.take k)).read name
        = some (chatLogText first ((first :: rest.take k).map (ChatSave.object env)))) ∧
    (saveAll env fs (first :: rest)).read name
      = some (chatLogText first ((first :: rest).map (ChatSave.object env))) ∧
    (∀ k, k < rest.length →
      ∃ c ∈ rest, rest.take (k + 1) = rest.take k ++ [c] ∧
        (saveAll env fs (first :: rest.take k)).read name
          = some (chatLogBody first ((first :: rest.take k).map (ChatSave.object env)) ++
              str "  ]\n\x7d\n") ∧
        (saveAll env fs (first :: rest.take (k + 1))).read name
          = some (chatLogBody first ((first :: rest.take k).map (ChatSave.object env)) ++
              (str ",\n" ++ c.object env ++ str "\n") ++ str "  ]\n\x7d\n")) ∧
    (∀ objects : List Str,
      chatLogBody first objects
        = chatLogHead first ++ str "\"messages\": [" ++
          (str "\n" ++ joinObjects objects ++ str "\n")) := by
  have hall := fun k hk => (saveAll_read env fs name first rest hw hfresh hname hjson hsize k hk).1
  refine ⟨hall, ?_, ?_, fun _ => rfl⟩
  · have h := hall rest.length (Nat.le_refl _)
    rw [List.take_length] at h
    exact h
  · intro k hk
    obtain ⟨c, hc, htake⟩ := take_succ_snoc rest k hk
    refine ⟨c, hc, htake, hall k (by omega), ?_⟩
    rw [hall (k + 1) (by omega), htake]
    have hmap : (first :: (rest.take k ++ [c])).map (ChatSave.object env)
        = (first :: rest.take k).map (ChatSave.object env) ++ [c.object env] := by
      simp
    rw [hmap, chatLogText_snoc first _ (c.object env) (by simp)]

/-- C28 at concrete calls: on an empty directory alice writes "one" to bob and bob
writes "two" to alice; the file chat_alice_bob.json then holds the two
message objects in that order. -/
theorem saveChatMessage_log_order_witness :
    (saveAll exampleEnv { files := [], writable := true } aliceBobSaves).read
        (str "chat_alice_bob.json")
      = some (chatLogText
          { timeStr := str "2025-01-01 12:00:00", timestamp := 1735732800000,
            senderUsername := str "alice", senderUserID := 10001,
            recipientUsername := str "bob", recipientUserID := 10002,
            messageText := str "one" }
          (aliceBobSaves.map (ChatSave.object exampleEnv))) ∧
    joinObjects (aliceBobSaves.map (ChatSave.object exampleEnv))
      = chatMessageObject
          { exampleEnv with timeStr := str "2025-01-01 12:00:00", timestamp := 1735732800000 }
          (str "alice_bob") (str "alice") 10001 (str "bob") 10002 (str "one") ++
        str "\n,\n" ++
        chatMessageObject
          { exampleEnv with timeStr := str "2025-01-01 12:00:00", timestamp := 1735732800001 }
          (str "alice_bob") (str "bob") 10002 (str "alice") 10001 (str "two") :=
  ⟨(saveChatMessage_log_order exampleEnv { files := [], writable := true }
      (str "chat_alice_bob.json")
      { timeStr := str "2025-01-01 12:00:00", timestamp := 1735732800000,
        senderUsername := str "alice", senderUserID := 10001,
        recipientUsername := str "bob", recipientUserID := 10002, messageText := str "one" }
      [{ timeStr := str "2025-01-01 12:00:00", timestamp := 1735732800001,
         senderUsername := str "bob", senderUserID := 10002,
         recipientUsername := str "alice", recipientUserID := 10001,
         messageText := str "two" }]
      rfl (by decide) (by decide) (fun _ _ => rfl)
      (by
        intro k hk
        have hk1 : k = 0 ∨ k = 1 := by
          simp only [List.length_singleton] at hk
          omega
        rcases hk1 with h | h <;> subst h <;> decide!)).2.1,
   by decide!⟩

/-! ## Claim C6 -/

/-- C6 on the code: alice has logged in on connection 10000, the socket of that
connection has failed, and she has logged in again on connection 10001; bob
is logged in on connection 10002.  The entry of the dead connection 10000 is
still in the registry, next to the entry of connection 10001, which is open:
alice (user id 10001) is attached to a connected session.  Bob sends her a
`DirectMessage` with the text "hi".  The loop of the handler stops at the
entry of connection 10000, which is closed: bob gets the `ServerMessage`
"Error: User with ID #10001 not found or offline", nothing is sent to alice
and no log is written. -/
theorem stale_session_blocks_delivery :
    staleSession.authenticatedUsers
      = [(10000, str "alice"), (10001, str "alice"), (10002, str "bob")] ∧
    staleSession.userToClientMap = [(str "alice", 10001), (str "bob", 10002)] ∧
    (staleSession.userManager.getUserID (str "alice")).2 = 10001 ∧
    sessionOpen staleSession.m_deqConnections 10000 = false ∧
    sessionOpen staleSession.m_deqConnections 10001 = true ∧
    mapFind staleSession.authenticatedUsers (openConnection 10002).id = some (str "bob") ∧
    (directFrame 10001 (str "hi")).body = leBytes 4 10001 ++ wireString (str "hi") ∧
    (staleSession.onMessage exampleEnv (openConnection 10002) (directFrame 10001 (str "hi"))).sent
      = staleSession.sent ++
        [(10002, serverMessage (str "Error: User with ID #10001 not found or offline"))] ∧
    (staleSession.onMessage exampleEnv (openConnection 10002)
        (directFrame 10001 (str "hi"))).chatFiles = staleSession.chatFiles ∧
    staleSession.chatFiles.files = [] := by
  refine ⟨by decide!, by decide!, by decide!, by decide!, by decide!, by decide!, rfl,
    by decide!, by decide!, by decide!⟩

end Messenger
